import Mathlib

/-!
# Thermal sysfs interface: cooling-device statistics and the `passive` attribute

A shallow embedding of parts of `drivers/thermal/thermal_sysfs.c`.

Conventions of the embedding:

* `unsigned int` counters (`total_trans`, the cells of `trans_table`) are natural
  numbers and every increment is reduced modulo `2 ^ 32`;
* signed quantities (`ktime_t`, `int`) are mathematical integers: signed overflow is
  undefined in C and lies outside the model;
* `unsigned long` state numbers and array indices are natural numbers;
* an array is a list; a read outside the list yields `0` and a write outside the
  list is dropped (the theorems below only rely on in-bounds accesses);
* `ktime_get()` is a parameter `now` of every function that reads the clock;
* the text written by `sprintf`/`snprintf` is a list of characters.
-/

namespace ThermalSysfs

/-! ## Constants and formatting helpers -/

/-- Modulus of `unsigned int` arithmetic. -/
def UINT_MOD : Nat := 2 ^ 32

/-- Modulus of `unsigned long long` arithmetic. -/
def ULLONG_MOD : Nat := 2 ^ 64

/-- Errno value `ENODEV`, as the kernel's errno headers define it. -/
def ENODEV : Int := 19

/-- Errno value `EINVAL`, as the kernel's errno headers define it. -/
def EINVAL : Int := 22

/-- Errno value `EFBIG`, as the kernel's errno headers define it. -/
def EFBIG : Int := 27

/-- Errno value `ENOMEM`, as the kernel's errno headers define it. -/
def ENOMEM : Int := 12

/-- Range of `unsigned long` and of `size_t` on the 64-bit target of this kernel. -/
def ULONG_MOD : Nat := 2 ^ 64

/-- The `int` that receives a value of wider type: its low 32 bits, read as a signed
number. -/
def int_of_long (v : Int) : Int := (v + 2 ^ 31) % 2 ^ 32 - 2 ^ 31

/-- `sizeof(struct cooling_dev_stats)` on the 64-bit target without lock debugging: a
spinlock and an `unsigned int` of 4 bytes each, two `unsigned long`, a `ktime_t` and
two pointers of 8 bytes each. -/
def SIZEOF_STATS : Nat := 48

/-- Bytes of scratch buffer per trip point in `config_show` (`UINT_MAX_CHARACTER`). -/
def UINT_MAX_CHARACTER : Nat := 11

/-- Length of the name buffers (`THERMAL_NAME_LENGTH`), as `linux/thermal.h` defines it. -/
def THERMAL_NAME_LENGTH : Nat := 20

/-- Permission bits `S_IRUGO` (read for owner, group and others), octal `0444`. -/
def S_IRUGO : Nat := 292

/-- Permission bit `S_IWUSR` (write for the owner), octal `0200`. -/
def S_IWUSR : Nat := 128

/-- Decimal digits of a natural number, as printed by `%u`, `%llu`. -/
def fmt_dec (n : Nat) : List Char := Nat.toDigits 10 n

/-- Minimum field width `w`, right-justified with blanks (`%2u`, `%8u`). -/
def fmt_width (w : Nat) (s : List Char) : List Char :=
  List.replicate (w - s.length) ' ' ++ s

/-- Conversion `%d` applied to an `int` argument. -/
def fmt_d (v : Int) : List Char :=
  if v < 0 then '-' :: fmt_dec v.natAbs else fmt_dec v.toNat

/-- Conversion `%u` applied to an `int` or `unsigned int` argument. -/
def fmt_u (n : Nat) : List Char := fmt_dec (n % UINT_MOD)

/-- Conversion `%llu` applied to a signed 64-bit argument. -/
def fmt_llu (v : Int) : List Char := fmt_dec (v % (ULLONG_MOD : Int)).toNat

/-- Modelled from the spec: `ktime_to_ms` is an inline helper of `linux/ktime.h`,
which is not part of the sources at hand; it converts nanoseconds to milliseconds
(signed division by `NSEC_PER_MSEC`, truncating). -/
def ktime_to_ms (kt : Int) : Int := Int.tdiv kt 1000000

/-! ## Cooling-device statistics -/

/-- Counterpart of `struct cooling_dev_stats` (the spinlock is not modelled). -/
structure cooling_dev_stats where
  total_trans : Nat
  state : Nat
  max_states : Nat
  last_time : Int
  time_in_state : List Int
  trans_table : List Nat
deriving DecidableEq

/-- Counterpart of `update_time_in_state`; `now` is the value of `ktime_get()`. -/
def update_time_in_state (stats : cooling_dev_stats) (now : Int) : cooling_dev_stats :=
  let delta := now - stats.last_time
  { stats with
    time_in_state :=
      stats.time_in_state.set stats.state (stats.time_in_state.getD stats.state 0 + delta)
    last_time := now }

/-- Counterpart of `thermal_cooling_device_stats_update`. The argument `cdev_stats` is
`cdev->stats` (`none` for a null pointer); the result is the new `cdev->stats`. -/
def thermal_cooling_device_stats_update (cdev_stats : Option cooling_dev_stats)
    (new_state : Nat) (now : Int) : Option cooling_dev_stats :=
  match cdev_stats with
  | none => none
  | some stats =>
    if stats.state = new_state then
      some stats
    else
      let stats := update_time_in_state stats now
      let idx := stats.state * stats.max_states + new_state
      let stats :=
        { stats with
          trans_table := stats.trans_table.set idx ((stats.trans_table.getD idx 0 + 1) % UINT_MOD) }
      let stats := { stats with state := new_state }
      some { stats with total_trans := (stats.total_trans + 1) % UINT_MOD }

/-- Text of one line of the time-in-state report, `"state%u\t%llu\n"` applied to `i`
and `ktime_to_ms(stats->time_in_state[i])`. -/
def time_in_state_line (stats : cooling_dev_stats) (i : Nat) : List Char :=
  "state".toList ++ fmt_u i ++ "\t".toList ++
    fmt_llu (ktime_to_ms (stats.time_in_state.getD i 0)) ++ "\n".toList

/-- Counterpart of `time_in_state_ms_show`: the new `cdev->stats`, the return value and
the text left in `buf`. Every `sprintf` appends at offset `len`, so `len` is the length
of the text written so far. -/
def time_in_state_ms_show (cdev_stats : Option cooling_dev_stats) (now : Int) :
    Option cooling_dev_stats × Int × List Char :=
  match cdev_stats with
  | none => (none, -ENODEV, [])
  | some stats =>
    let stats := update_time_in_state stats now
    let buf := (List.range stats.max_states).foldl
      (fun buf i => buf ++ time_in_state_line stats i) []
    (some stats, (buf.length : Int), buf)

/-- Effect of `memset(p, 0, n * sizeof( *p))` on an array of counters. -/
def memset_zero (l : List Nat) (n : Nat) : List Nat :=
  List.replicate (min n l.length) 0 ++ l.drop n

/-- Counterpart of `reset_store`: the new `cdev->stats` and the return value. The local
`states` is an `int` copy of `max_states`; the product `states * states` is a signed
one, taken here without overflow. -/
def reset_store (cdev_stats : Option cooling_dev_stats) (count : Nat) (now : Int) :
    Option cooling_dev_stats × Int :=
  match cdev_stats with
  | none => (none, -ENODEV)
  | some stats =>
    let states := stats.max_states
    let stats := { stats with total_trans := 0 }
    let stats := { stats with last_time := now }
    let stats := { stats with trans_table := memset_zero stats.trans_table (states * states) }
    let stats :=
      { stats with
        time_in_state :=
          (List.range stats.max_states).foldl (fun tis i => tis.set i 0) stats.time_in_state }
    (some stats, (count : Int))

/-- One `snprintf(buf + len, PAGE_SIZE - len, ...)` followed by `len += ...`: at most
`PAGE_SIZE - len - 1` characters of `text` reach the buffer, while `len` grows by the
full length of `text`. The pair is (buffer contents, `len`). -/
def snprintf_at (page_size : Nat) (st : List Char × Nat) (text : List Char) :
    List Char × Nat :=
  (st.1 ++ text.take (page_size - st.2 - 1), st.2 + text.length)

/-- Text of one column title of the transition table, `"state%2u  "`. -/
def trans_table_title (i : Nat) : List Char :=
  "state".toList ++ fmt_width 2 (fmt_u i) ++ "  ".toList

/-- Text of one row label of the transition table, `"state%2u:"`. -/
def trans_table_label (i : Nat) : List Char :=
  "state".toList ++ fmt_width 2 (fmt_u i) ++ ":".toList

/-- Text of the cell in row `i`, column `j` of the transition table, `"%8u "`. -/
def trans_table_cell (stats : cooling_dev_stats) (i j : Nat) : List Char :=
  fmt_width 8 (fmt_u (stats.trans_table.getD (i * stats.max_states + j) 0)) ++ " ".toList

/-- The header part of `trans_table_show`, up to and including the loop over the
column titles. A `break` on `len >= PAGE_SIZE` is rendered as skipping the rest of
the iterations: `len` never decreases, so the test stays true. -/
def trans_table_header (page_size : Nat) (stats : cooling_dev_stats) : List Char × Nat :=
  let st := snprintf_at page_size ([], 0) " From  :    To\n".toList
  let st := snprintf_at page_size st "       : ".toList
  (List.range stats.max_states).foldl
    (fun st i => if page_size ≤ st.2 then st else snprintf_at page_size st (trans_table_title i))
    st

/-- One row of `trans_table_show`: the body of the outer loop over `i`. -/
def trans_table_row (page_size : Nat) (stats : cooling_dev_stats) (st : List Char × Nat)
    (i : Nat) : List Char × Nat :=
  if page_size ≤ st.2 then st
  else
    let st := snprintf_at page_size st (trans_table_label i)
    let st := (List.range stats.max_states).foldl
      (fun st j =>
        if page_size ≤ st.2 then st else snprintf_at page_size st (trans_table_cell stats i j))
      st
    if page_size ≤ st.2 then st else snprintf_at page_size st "\n".toList

/-- Counterpart of `trans_table_show` for a page of `page_size` bytes: the return value
and the text left in `buf`. -/
def trans_table_show (page_size : Nat) (cdev_stats : Option cooling_dev_stats) :
    Int × List Char :=
  match cdev_stats with
  | none => (-ENODEV, [])
  | some stats =>
    let st := trans_table_header page_size stats
    if page_size ≤ st.2 then ((page_size : Int), st.1)
    else
      let st := snprintf_at page_size st "\n".toList
      let st := (List.range stats.max_states).foldl (trans_table_row page_size stats) st
      if page_size ≤ st.2 then (-EFBIG, st.1) else ((st.2 : Int), st.1)

/-- Counterpart of `cooling_device_stats_setup`, returning the new `cdev->stats`.
`get_max_state` is the pair (return code, reported maximum state) of the device
accessor, `kzalloc_ok` tells whether the allocation succeeds; `kzalloc` hands out
zeroed memory, so every field that the function does not assign is `0`. `states` is
an `unsigned long`, so `states++` wraps; `var` is an `int` that receives the sums,
which are formed in `unsigned long`; `kzalloc` is given `var` as a `size_t`. The two
arrays lie behind the structure, `time_in_state` at byte `sizeof( *stats)` and
`trans_table` behind its `states` entries of 8 bytes: the lists hold the cells that
lie inside the block of `var` bytes, which are all of them when no sum went out of
range. The slot of the attribute group is not modelled. -/
def cooling_device_stats_setup (get_max_state : Int × Nat) (kzalloc_ok : Bool) (now : Int) :
    Option cooling_dev_stats :=
  if get_max_state.1 ≠ 0 then none
  else
    let states := (get_max_state.2 + 1) % ULONG_MOD
    let var : Int := int_of_long (SIZEOF_STATS : Int)
    let var : Int := int_of_long ((var + ((8 * states % ULONG_MOD : Nat) : Int)) % ULONG_MOD)
    let var : Int := int_of_long
      ((var + ((4 * states % ULONG_MOD * states % ULONG_MOD : Nat) : Int)) % ULONG_MOD)
    if !kzalloc_ok then none
    else
      let size := (var % (ULONG_MOD : Int)).toNat
      some { total_trans := 0
             state := 0
             max_states := states
             last_time := now
             time_in_state := List.replicate (min states ((size - SIZEOF_STATS) / 8)) 0
             trans_table :=
               List.replicate
                 (min (states * states) ((size - SIZEOF_STATS - 8 * states) / 4)) 0 }

/-- The byte count of the stats block of a device with maximum state `max_state`,
`sizeof( *stats) + 8 * N + 4 * N * N` for `N = max_state + 1`, is in the range of the
`int` that `cooling_device_stats_setup` keeps it in. -/
def stats_block_fits (max_state : Nat) : Prop :=
  SIZEOF_STATS + 8 * (max_state + 1) + 4 * ((max_state + 1) * (max_state + 1)) < 2 ^ 31

instance (max_state : Nat) : Decidable (stats_block_fits max_state) := by
  unfold stats_block_fits; infer_instance

/-- An operation on the statistics of a cooling device, with the clock reading it sees. -/
inductive stats_op where
  | update (new_state : Nat) (now : Int)
  | reset (count : Nat) (now : Int)
  | read (now : Int)
deriving DecidableEq

/-- Effect of one operation on `cdev->stats`. -/
def stats_step (cdev_stats : Option cooling_dev_stats) : stats_op → Option cooling_dev_stats
  | .update new_state now => thermal_cooling_device_stats_update cdev_stats new_state now
  | .reset count now => (reset_store cdev_stats count now).1
  | .read now => (time_in_state_ms_show cdev_stats now).1

/-- Effect of a sequence of operations, applied from left to right. -/
def stats_run (cdev_stats : Option cooling_dev_stats) (ops : List stats_op) :
    Option cooling_dev_stats :=
  ops.foldl stats_step cdev_stats

/-- The state requested by an update is below `n` (no condition on the other operations). -/
def request_below (n : Nat) : stats_op → Prop
  | .update new_state _ => new_state < n
  | .reset _ _ => True
  | .read _ => True

instance (n : Nat) (op : stats_op) : Decidable (request_below n op) := by
  cases op <;> unfold request_below <;> infer_instance

/-- Every state requested by an update of the sequence is below `n`. -/
def requests_below (n : Nat) (ops : List stats_op) : Prop :=
  ∀ op ∈ ops, request_below n op

instance (n : Nat) (ops : List stats_op) : Decidable (requests_below n ops) := by
  unfold requests_below; infer_instance

/-- Clock reading of the most recent `reset_store` of the sequence, `t0` if there is none. -/
def reset_base (t0 : Int) (ops : List stats_op) : Int :=
  ops.foldl (fun base op => match op with
    | .reset _ now => now
    | _ => base) t0

/-- Text of the two header lines of the transition table, without the newline that
ends the second one: the caption, then the column titles. -/
def trans_table_header_text (stats : cooling_dev_stats) : List Char :=
  " From  :    To\n".toList ++ "       : ".toList ++
    ((List.range stats.max_states).map trans_table_title).flatten

/-- Text of row `i` of the transition table: the label, one cell per state, a newline. -/
def trans_table_row_text (stats : cooling_dev_stats) (i : Nat) : List Char :=
  trans_table_label i ++
    ((List.range stats.max_states).map (trans_table_cell stats i)).flatten ++ "\n".toList

/-- The complete rendering of the transition table, as the report describes it: two
header lines, then one row per state in ascending order. -/
def trans_table_text (stats : cooling_dev_stats) : List Char :=
  trans_table_header_text stats ++ "\n".toList ++
    ((List.range stats.max_states).map (trans_table_row_text stats)).flatten

/-- A sample stats object with three states and three recorded transitions. -/
def table_stats : cooling_dev_stats :=
  { total_trans := 3, state := 2, max_states := 3, last_time := 0,
    time_in_state := [0, 0, 0], trans_table := [0, 1, 1, 1, 0, 0, 0, 0, 0] }

/-- A stats object with 500 states and no transition recorded yet. -/
def wide_stats : cooling_dev_stats :=
  { total_trans := 0, state := 0, max_states := 500, last_time := 0,
    time_in_state := List.replicate 500 0, trans_table := List.replicate (500 * 500) 0 }

/-! ## Thermal zones: the `passive` attribute -/

/-- Operating modes of a zone (`enum thermal_device_mode`). -/
inductive thermal_device_mode where
  | THERMAL_DEVICE_DISABLED
  | THERMAL_DEVICE_ENABLED
deriving DecidableEq

/-- Kinds of trip points (`enum thermal_trip_type`). -/
inductive thermal_trip_type where
  | THERMAL_TRIP_ACTIVE
  | THERMAL_TRIP_PASSIVE
  | THERMAL_TRIP_HOT
  | THERMAL_TRIP_CRITICAL
deriving DecidableEq

/-- Modelled from the spec: the "invalid" temperature sentinel `THERMAL_TEMP_INVALID`,
a macro of `linux/thermal.h`, which is not part of the sources at hand. -/
def THERMAL_TEMP_INVALID : Int := -274000

/-- Modelled from the spec: the "no target" sentinel `THERMAL_NO_TARGET` of a binding,
a macro of `thermal_core.h` (`-1UL`), which is not part of the sources at hand. -/
def THERMAL_NO_TARGET : Nat := 2 ^ 64 - 1

/-- The fields of `struct thermal_cooling_device` used by the zone attributes: the type
name and the `updated` flag. -/
structure thermal_cooling_device where
  type : String
  updated : Bool
deriving DecidableEq

/-- The fields of `struct thermal_instance` (a binding) used here. `cdev` is the
pointer to the cooling device: `none` for a null pointer, otherwise the address under
which the device is found in the table of cooling devices; several bindings may
share one device. `upper` and `lower` are kept as the integers that `%d` prints. -/
structure thermal_instance where
  cdev : Option Nat
  trip : Int
  upper : Int
  lower : Int
  target : Nat
  initialized : Bool
deriving DecidableEq

/-- The handlers of this file that a trip attribute can point to. -/
inductive attr_handler where
  | trip_point_type_show
  | trip_point_temp_show
  | trip_point_temp_store
  | trip_point_hyst_show
  | trip_point_hyst_store
deriving DecidableEq

/-- Counterpart of `struct thermal_attr`: the name buffer, to which `attr.attr.name`
points once the attribute is set up, the permission bits `attr.attr.mode` and the two
handlers `attr.show` and `attr.store` (`none` for a null pointer). -/
structure thermal_attr where
  name : List Char
  mode : Nat
  attr_show : Option attr_handler
  attr_store : Option attr_handler
deriving DecidableEq

/-- An element of a zeroed array of `struct thermal_attr`, as `kcalloc` returns it. -/
def thermal_attr_zero : thermal_attr :=
  { name := [], mode := 0, attr_show := none, attr_store := none }

/-- A pointer stored in the `attrs` array of the trips group: the address of the
attribute of trip `indx` in `trip_type_attrs`, `trip_temp_attrs` or `trip_hyst_attrs`. -/
inductive trip_attr_ptr where
  | trip_type (indx : Nat)
  | trip_temp (indx : Nat)
  | trip_hyst (indx : Nat)
deriving DecidableEq

/-- A pointer stored in the `groups` array of the device: one of the three static
groups of `thermal_zone_attribute_groups`, or the trips group of the zone. -/
inductive attribute_group_ptr where
  | thermal_zone_attribute_group
  | thermal_zone_mode_attribute_group
  | thermal_zone_passive_attribute_group
  | trips_attribute_group
deriving DecidableEq

/-- Fields of `struct thermal_zone_device`. `passive_store` reads and writes
`passive_delay` and `forced_passive` and leaves the others alone. `forced_passive`
only ever receives an `int` that is `0` or at least `1000`, so it is kept as an
integer. `governor_name` is `tz->governor->name`; `thermal_instances` is the list of
bindings, in list order. The last five fields are pointers to arrays (`none` for a
null pointer): the address of the array together with its contents; freeing an array
does not reset the pointer. They stand for `trip_type_attrs`, `trip_temp_attrs`,
`trip_hyst_attrs`, `trips_attribute_group.attrs` and `device.groups`. -/
structure thermal_zone_device where
  type : String
  temperature : Int
  passive : Int
  polling_delay : Int
  passive_delay : Int
  forced_passive : Int
  trips : Nat
  governor_name : String
  thermal_instances : List thermal_instance
  trip_type_attrs : Option (Nat × List thermal_attr) := none
  trip_temp_attrs : Option (Nat × List thermal_attr) := none
  trip_hyst_attrs : Option (Nat × List thermal_attr) := none
  trips_attribute_group_attrs : Option (Nat × List (Option trip_attr_ptr)) := none
  device_groups : Option (Nat × List (Option attribute_group_ptr)) := none
deriving DecidableEq

/-- The accessors of `tz->ops` used here; `none` is a null function pointer. A trip
accessor maps the trip index to its return code and to the value it stores through
its output pointer; `set_mode` maps the requested mode to its return code; the two
`set_trip` accessors map the `int` trip index and the `int` value they are given to
their return code. -/
structure thermal_zone_device_ops where
  set_mode : Option (thermal_device_mode → Int)
  get_trip_type : Option (Nat → Int × thermal_trip_type)
  get_trip_temp : Option (Nat → Int × Int)
  get_trip_hyst : Option (Nat → Int × Int)
  set_trip_hyst : Option (Int → Int → Int)
  set_trip_temp : Option (Int → Int → Int) := none

/-- Notification events of the thermal core (`enum thermal_notify_event`); only the
one used here is listed. -/
inductive thermal_notify_event where
  | THERMAL_EVENT_UNSPECIFIED
deriving DecidableEq

/-- A call from an attribute handler into the thermal core or into a device accessor,
both of which lie outside this file: the handlers are modelled as producing the list
of such calls, in order. What `thermal_cdev_update` does to the cooling device whose
address it is given is not part of the model. -/
inductive zone_call where
  | thermal_zone_device_rebind_exception (cdev_type : String) (size : Nat)
  | thermal_zone_device_unbind_exception (cdev_type : String) (size : Nat)
  | thermal_zone_device_update (event : thermal_notify_event)
  | set_mode (mode : thermal_device_mode)
  | thermal_cdev_update (cdev : Nat)
  | set_trip_temp (trip : Int) (temperature : Int)
  | set_trip_hyst (trip : Int) (temperature : Int)
  | thermal_zone_set_trips
deriving DecidableEq

/-- Counterpart of `passive_store`: the new zone, the calls made into the thermal core
and the return value. `sscanf_state` is the outcome of `sscanf(buf, "%d\n", &state)`:
`none` when no integer could be converted, `some state` otherwise; `count` is the
number of bytes written to the attribute. -/
def passive_store (tz : thermal_zone_device) (sscanf_state : Option Int) (count : Nat) :
    thermal_zone_device × List zone_call × Int :=
  match sscanf_state with
  | none => (tz, [], -EINVAL)
  | some state =>
    if state ≠ 0 ∧ state < 1000 then (tz, [], -EINVAL)
    else
      let (tz, calls) :=
        if state ≠ 0 ∧ tz.forced_passive = 0 then
          let tz := if tz.passive_delay = 0 then { tz with passive_delay := 1000 } else tz
          (tz, [zone_call.thermal_zone_device_rebind_exception "Processor" 10])
        else if state = 0 ∧ tz.forced_passive ≠ 0 then
          ({ tz with passive_delay := 0 },
            [zone_call.thermal_zone_device_unbind_exception "Processor" 10])
        else (tz, [])
      let tz := { tz with forced_passive := state }
      (tz, calls ++ [zone_call.thermal_zone_device_update
        thermal_notify_event.THERMAL_EVENT_UNSPECIFIED], (count : Int))

/-- A sample zone: not in forced-passive mode, no passive polling configured. -/
def sample_zone : thermal_zone_device :=
  { type := "cpu-thermal", temperature := 45000, passive := 0, polling_delay := 0,
    passive_delay := 0, forced_passive := 0, trips := 2, governor_name := "step_wise",
    thermal_instances := [] }

/-- A sample zone in forced-passive mode. -/
def sample_forced_zone : thermal_zone_device :=
  { type := "cpu-thermal", temperature := 45000, passive := 0, polling_delay := 0,
    passive_delay := 1000, forced_passive := 2000, trips := 2, governor_name := "step_wise",
    thermal_instances :=
      [{ cdev := some 0, trip := 1, upper := 3, lower := 0, target := 2, initialized := true },
       { cdev := some 1, trip := 0, upper := 1, lower := 0, target := 1, initialized := true },
       { cdev := some 0, trip := 0, upper := 2, lower := 1, target := 0, initialized := false }] }

/-! ## Thermal zones: disabling a zone -/

/-- The loop of `thermal_zone_device_clear` over the bindings of the zone: the new
bindings, the new table of cooling devices and the calls to `thermal_cdev_update`.
The result is `none` when a binding has a null `cdev`, which the loop dereferences. -/
def thermal_zone_device_clear_loop :
    List thermal_instance → (Nat → thermal_cooling_device) →
      Option (List thermal_instance × (Nat → thermal_cooling_device) × List zone_call)
  | [], cdevs => some ([], cdevs, [])
  | pos :: rest, cdevs =>
    match pos.cdev with
    | none => none
    | some c =>
      let pos := { pos with initialized := false }
      let pos := { pos with target := THERMAL_NO_TARGET }
      let cdevs := Function.update cdevs c { cdevs c with updated := false }
      match thermal_zone_device_clear_loop rest cdevs with
      | none => none
      | some (rest, cdevs, calls) =>
        some (pos :: rest, cdevs, zone_call.thermal_cdev_update c :: calls)

/-- Counterpart of `thermal_zone_device_clear` (locks are not modelled): the new zone,
the new table of cooling devices, the calls made and the return value, which is the
one of `set_mode`. The accessor is called first and is represented by its return code
only: what a driver writes to the zone it is handed is not modelled, so of the new
zone only the fields that the function writes after the call (`temperature`, `passive`
and the bindings) are those of the source for every driver. The result is `none` when
the function would go through a null pointer (`set_mode` itself, which `mode_store`
tests beforehand, or the `cdev` of a binding). -/
def thermal_zone_device_clear (tz : thermal_zone_device) (ops : thermal_zone_device_ops)
    (cdevs : Nat → thermal_cooling_device) :
    Option (thermal_zone_device × (Nat → thermal_cooling_device) × List zone_call × Int) :=
  match ops.set_mode with
  | none => none
  | some set_mode =>
    let ret := set_mode thermal_device_mode.THERMAL_DEVICE_DISABLED
    let tz := { tz with temperature := THERMAL_TEMP_INVALID }
    let tz := { tz with passive := 0 }
    match thermal_zone_device_clear_loop tz.thermal_instances cdevs with
    | none => none
    | some (instances, cdevs, calls) =>
      some ({ tz with thermal_instances := instances }, cdevs,
        zone_call.set_mode thermal_device_mode.THERMAL_DEVICE_DISABLED :: calls, ret)

/-- A binding after the sweep of `thermal_zone_device_clear`. -/
def cleared_instance (pos : thermal_instance) : thermal_instance :=
  { pos with initialized := false, target := THERMAL_NO_TARGET }

/-- Some binding of the list points to the cooling device at address `c`. -/
def bound_cdev (instances : List thermal_instance) (c : Nat) : Bool :=
  instances.any (fun pos => pos.cdev = some c)

/-- Sample accessors: every accessor is present and succeeds; two trips, the first
critical at 85000, the second passive at 70000. -/
def sample_ops : thermal_zone_device_ops :=
  { set_mode := some (fun _ => 0),
    get_trip_type := some (fun i =>
      (0, if i = 0 then thermal_trip_type.THERMAL_TRIP_CRITICAL
          else thermal_trip_type.THERMAL_TRIP_PASSIVE)),
    get_trip_temp := some (fun i => (0, if i = 0 then 85000 else 70000)),
    get_trip_hyst := some (fun i => (0, if i = 0 then 2000 else 1000)),
    set_trip_hyst := some (fun _ _ => 0),
    set_trip_temp := some (fun _ _ => 0) }

/-- A sample table of cooling devices: a fan at address `0`, a processor at `1`. -/
def sample_cdevs (c : Nat) : thermal_cooling_device :=
  if c = 0 then { type := "fan", updated := true }
  else { type := "Processor", updated := true }

/-! ## Thermal zones: visibility of the `passive` attribute -/

/-- The loop of `thermal_zone_passive_is_visible`, run over the trip indices still to
visit: the final value of `passive` (`true` for `1`). The loop stops at the first
passive trip. The accessor yields its return code and the value it leaves in the local
`trip_type`; the source never tests the return code, so the comparison with
`THERMAL_TRIP_PASSIVE` is made on that value whatever the code is, also after a call
that reports a failure. An accessor that fails without storing anything, which leaves
`trip_type` as it was (indeterminate on the first pass), is outside this model. The
result is `none` when the loop would call a null `get_trip_type`. -/
def thermal_zone_passive_scan (get_trip_type : Option (Nat → Int × thermal_trip_type)) :
    List Nat → Option Bool
  | [] => some false
  | count :: rest =>
    match get_trip_type with
    | none => none
    | some f =>
      if (f count).2 = thermal_trip_type.THERMAL_TRIP_PASSIVE then some true
      else thermal_zone_passive_scan get_trip_type rest

/-- Counterpart of `thermal_zone_passive_is_visible`; `attr_mode` is `attr->mode`. -/
def thermal_zone_passive_is_visible (tz : thermal_zone_device)
    (ops : thermal_zone_device_ops) (attr_mode : Nat) : Option Nat :=
  match thermal_zone_passive_scan ops.get_trip_type (List.range tz.trips) with
  | none => none
  | some passive => if !passive then some attr_mode else some 0

/-- Some trip point among `0 .. trips - 1` is of passive kind. -/
def has_passive_trip (get_trip_type : Nat → Int × thermal_trip_type) (trips : Nat) : Bool :=
  (List.range trips).any
    (fun i => (get_trip_type i).2 = thermal_trip_type.THERMAL_TRIP_PASSIVE)

/-- A sample zone without any trip point. -/
def sample_no_trip_zone : thermal_zone_device :=
  { type := "batt-thermal", temperature := 30000, passive := 0, polling_delay := 0,
    passive_delay := 0, forced_passive := 0, trips := 0, governor_name := "user_space",
    thermal_instances := [] }

/-! ## Thermal zones: building the attribute groups -/

/-- State of the allocator: the addresses of the arrays that are allocated and not
freed, the next fresh address, the outcome of the coming allocation requests (`false`
for a failure; requests beyond the list succeed) and the number of `kfree` calls on an
address that is not live. -/
structure allocator where
  live : List Nat
  next : Nat
  plan : List Bool
  bad_free : Nat
deriving DecidableEq

/-- One `kcalloc` request: the new allocator and the address (`none` for `NULL`). -/
def kcalloc (a : allocator) : allocator × Option Nat :=
  match a.plan with
  | false :: plan => ({ a with plan := plan }, none)
  | true :: plan =>
    ({ a with plan := plan, live := a.next :: a.live, next := a.next + 1 }, some a.next)
  | [] => ({ a with live := a.next :: a.live, next := a.next + 1 }, some a.next)

/-- One `kfree`; freeing `NULL` does nothing. -/
def kfree (a : allocator) (p : Option Nat) : allocator :=
  match p with
  | none => a
  | some addr =>
    if addr ∈ a.live then { a with live := a.live.erase addr }
    else { a with bad_free := a.bad_free + 1 }

/-- The four arrays that the loop of `create_trip_attrs` fills. -/
structure trip_attr_arrays where
  trip_type_attrs : List thermal_attr
  trip_temp_attrs : List thermal_attr
  trip_hyst_attrs : List thermal_attr
  attrs : List (Option trip_attr_ptr)
deriving DecidableEq

/-- Text that `snprintf(name, THERMAL_NAME_LENGTH, "trip_point_%d_<kind>", indx)`
leaves in the name buffer. -/
def trip_attr_name (indx : Nat) (kind : String) : List Char :=
  ("trip_point_".toList ++ fmt_d (indx : Int) ++ kind.toList).take (THERMAL_NAME_LENGTH - 1)

/-- One iteration of the loop of `create_trip_attrs`, for trip `indx`. `mask` is the
bit pattern of the `int` argument, `writable_trips` the value of
`IS_ENABLED(CONFIG_THERMAL_WRITABLE_TRIPS)`. -/
def create_trip_attrs_step (ops : thermal_zone_device_ops) (mask : Nat)
    (writable_trips : Bool) (trips : Nat) (st : trip_attr_arrays) (indx : Nat) :
    trip_attr_arrays :=
  let t := st.trip_type_attrs.getD indx thermal_attr_zero
  let t := { t with name := trip_attr_name indx "_type" }
  let t := { t with mode := S_IRUGO }
  let t := { t with attr_show := some attr_handler.trip_point_type_show }
  let st := { st with trip_type_attrs := st.trip_type_attrs.set indx t }
  let st := { st with attrs := st.attrs.set indx (some (trip_attr_ptr.trip_type indx)) }
  let t := st.trip_temp_attrs.getD indx thermal_attr_zero
  let t := { t with name := trip_attr_name indx "_temp" }
  let t := { t with mode := S_IRUGO }
  let t := { t with attr_show := some attr_handler.trip_point_temp_show }
  let t :=
    if writable_trips ∧ mask &&& (1 <<< indx) ≠ 0 then
      { t with mode := t.mode ||| S_IWUSR
               attr_store := some attr_handler.trip_point_temp_store }
    else t
  let st := { st with trip_temp_attrs := st.trip_temp_attrs.set indx t }
  let st :=
    { st with attrs := st.attrs.set (indx + trips) (some (trip_attr_ptr.trip_temp indx)) }
  if ops.get_trip_hyst.isNone then st
  else
    let t := st.trip_hyst_attrs.getD indx thermal_attr_zero
    let t := { t with name := trip_attr_name indx "_hyst" }
    let t := { t with mode := S_IRUGO }
    let t := { t with attr_show := some attr_handler.trip_point_hyst_show }
    let t :=
      if ops.set_trip_hyst.isSome then
        { t with mode := t.mode ||| S_IWUSR
                 attr_store := some attr_handler.trip_point_hyst_store }
      else t
    let st := { st with trip_hyst_attrs := st.trip_hyst_attrs.set indx t }
    { st with attrs := st.attrs.set (indx + trips * 2) (some (trip_attr_ptr.trip_hyst indx)) }

/-- The second half of `create_trip_attrs`: the allocation of `attrs`, the loop over the
trips and the installation of `attrs` in the trips group. -/
def create_trip_attrs_fill (tz : thermal_zone_device) (ops : thermal_zone_device_ops)
    (mask : Nat) (writable_trips : Bool) (a : allocator) :
    thermal_zone_device × allocator × Int :=
  match kcalloc a with
  | (a, none) =>
    let a := kfree a (tz.trip_type_attrs.map Prod.fst)
    let a := kfree a (tz.trip_temp_attrs.map Prod.fst)
    let a := if ops.get_trip_hyst.isSome then kfree a (tz.trip_hyst_attrs.map Prod.fst) else a
    (tz, a, -ENOMEM)
  | (a, some attrs_addr) =>
    let st : trip_attr_arrays :=
      { trip_type_attrs := (tz.trip_type_attrs.map Prod.snd).getD []
        trip_temp_attrs := (tz.trip_temp_attrs.map Prod.snd).getD []
        trip_hyst_attrs := (tz.trip_hyst_attrs.map Prod.snd).getD []
        attrs := List.replicate (tz.trips * 3 + 1) none }
    let st := (List.range tz.trips).foldl
      (create_trip_attrs_step ops mask writable_trips tz.trips) st
    let st := { st with attrs := st.attrs.set (tz.trips * 3) none }
    let tz :=
      { tz with
        trip_type_attrs :=
          tz.trip_type_attrs.map (fun (q : Nat × List thermal_attr) => (q.1, st.trip_type_attrs))
        trip_temp_attrs :=
          tz.trip_temp_attrs.map (fun (q : Nat × List thermal_attr) => (q.1, st.trip_temp_attrs))
        trip_hyst_attrs :=
          tz.trip_hyst_attrs.map (fun (q : Nat × List thermal_attr) => (q.1, st.trip_hyst_attrs)) }
    let tz := { tz with trips_attribute_group_attrs := some (attrs_addr, st.attrs) }
    (tz, a, 0)

/-- Counterpart of `create_trip_attrs`: the new zone, the new allocator and the return
value. Every `kcalloc` hands out a zeroed array; a pointer field receives the result
of `kcalloc` before it is tested, as in the source. -/
def create_trip_attrs (tz : thermal_zone_device) (ops : thermal_zone_device_ops) (mask : Nat)
    (writable_trips : Bool) (a : allocator) : thermal_zone_device × allocator × Int :=
  if tz.trips = 0 then (tz, a, -EINVAL)
  else
    match kcalloc a with
    | (a, none) => ({ tz with trip_type_attrs := none }, a, -ENOMEM)
    | (a, some type_addr) =>
      let tz :=
        { tz with trip_type_attrs := some (type_addr, List.replicate tz.trips thermal_attr_zero) }
      match kcalloc a with
      | (a, none) =>
        let tz := { tz with trip_temp_attrs := none }
        (tz, kfree a (tz.trip_type_attrs.map Prod.fst), -ENOMEM)
      | (a, some temp_addr) =>
        let tz :=
          { tz with
            trip_temp_attrs := some (temp_addr, List.replicate tz.trips thermal_attr_zero) }
        if ops.get_trip_hyst.isSome then
          match kcalloc a with
          | (a, none) =>
            let tz := { tz with trip_hyst_attrs := none }
            let a := kfree a (tz.trip_type_attrs.map Prod.fst)
            let a := kfree a (tz.trip_temp_attrs.map Prod.fst)
            (tz, a, -ENOMEM)
          | (a, some hyst_addr) =>
            let tz :=
              { tz with
                trip_hyst_attrs := some (hyst_addr, List.replicate tz.trips thermal_attr_zero) }
            create_trip_attrs_fill tz ops mask writable_trips a
        else create_trip_attrs_fill tz ops mask writable_trips a

/-- The array `groups` of `thermal_zone_create_device_groups` after the loop that copies
the static groups of `thermal_zone_attribute_groups` into a zeroed array of `size`
entries. -/
def static_device_groups (size : Nat) : List (Option attribute_group_ptr) :=
  (List.range (size - 2)).foldl
    (fun groups i =>
      groups.set i ([some attribute_group_ptr.thermal_zone_attribute_group,
        some attribute_group_ptr.thermal_zone_mode_attribute_group,
        some attribute_group_ptr.thermal_zone_passive_attribute_group].getD i none))
    (List.replicate size none)

/-- Counterpart of `thermal_zone_create_device_groups`: the new zone, the new allocator
and the return value. `size` is `ARRAY_SIZE(thermal_zone_attribute_groups) + 2 = 5`. -/
def thermal_zone_create_device_groups (tz : thermal_zone_device)
    (ops : thermal_zone_device_ops) (mask : Nat) (writable_trips : Bool) (a : allocator) :
    thermal_zone_device × allocator × Int :=
  let size := 3 + 2
  match kcalloc a with
  | (a, none) => (tz, a, -ENOMEM)
  | (a, some groups_addr) =>
    let groups := static_device_groups size
    if tz.trips ≠ 0 then
      match create_trip_attrs tz ops mask writable_trips a with
      | (tz, a, result) =>
        if result ≠ 0 then (tz, kfree a (some groups_addr), result)
        else
          let groups := groups.set (size - 2) (some attribute_group_ptr.trips_attribute_group)
          ({ tz with device_groups := some (groups_addr, groups) }, a, 0)
    else ({ tz with device_groups := some (groups_addr, groups) }, a, 0)

/-- The entries of a `NULL`-terminated array of pointers: those before the first `NULL`. -/
def null_terminated {α : Type} (l : List (Option α)) : List α :=
  (l.takeWhile Option.isSome).filterMap id

/-- The dynamic trip property catalogue that the device exposes: the entries of the
`attrs` list of the trips group when that group sits in the slot after the three
static groups, nothing otherwise. -/
def trip_catalogue (tz : thermal_zone_device) : List trip_attr_ptr :=
  match tz.device_groups with
  | none => []
  | some (_, groups) =>
    if groups.getD 3 none = some attribute_group_ptr.trips_attribute_group then
      match tz.trips_attribute_group_attrs with
      | none => []
      | some (_, attrs) => null_terminated attrs
    else []

/-- The attribute that an entry of the catalogue points to. -/
def trip_attr_at (tz : thermal_zone_device) : trip_attr_ptr → Option thermal_attr
  | .trip_type indx => (tz.trip_type_attrs.map Prod.snd).bind (fun arr => arr[indx]?)
  | .trip_temp indx => (tz.trip_temp_attrs.map Prod.snd).bind (fun arr => arr[indx]?)
  | .trip_hyst indx => (tz.trip_hyst_attrs.map Prod.snd).bind (fun arr => arr[indx]?)

/-- The attribute of the type of trip `indx`, as `create_trip_attrs` sets it up. -/
def trip_type_attr (indx : Nat) : thermal_attr :=
  { name := trip_attr_name indx "_type", mode := S_IRUGO,
    attr_show := some attr_handler.trip_point_type_show, attr_store := none }

/-- The attribute of the temperature of trip `indx`, as `create_trip_attrs` sets it up. -/
def trip_temp_attr (mask : Nat) (writable_trips : Bool) (indx : Nat) : thermal_attr :=
  if writable_trips ∧ mask &&& (1 <<< indx) ≠ 0 then
    { name := trip_attr_name indx "_temp", mode := S_IRUGO ||| S_IWUSR,
      attr_show := some attr_handler.trip_point_temp_show,
      attr_store := some attr_handler.trip_point_temp_store }
  else
    { name := trip_attr_name indx "_temp", mode := S_IRUGO,
      attr_show := some attr_handler.trip_point_temp_show, attr_store := none }

/-- The attribute of the hysteresis of trip `indx`, as `create_trip_attrs` sets it up. -/
def trip_hyst_attr (ops : thermal_zone_device_ops) (indx : Nat) : thermal_attr :=
  if ops.set_trip_hyst.isSome then
    { name := trip_attr_name indx "_hyst", mode := S_IRUGO ||| S_IWUSR,
      attr_show := some attr_handler.trip_point_hyst_show,
      attr_store := some attr_handler.trip_point_hyst_store }
  else
    { name := trip_attr_name indx "_hyst", mode := S_IRUGO,
      attr_show := some attr_handler.trip_point_hyst_show, attr_store := none }

/-- Entry `j` of the array `attrs` of a zone with `trips` trip points once
`create_trip_attrs` has filled it: types, then temperatures, then (with a hysteresis
accessor) hystereses, the rest null. -/
def trip_attrs_entry (has_hyst : Bool) (trips j : Nat) : Option trip_attr_ptr :=
  if j < trips then some (trip_attr_ptr.trip_type j)
  else if j < trips * 2 then some (trip_attr_ptr.trip_temp (j - trips))
  else if has_hyst ∧ j < trips * 3 then some (trip_attr_ptr.trip_hyst (j - trips * 2))
  else none

/-- The stores of one iteration of `create_trip_attrs` into the type attribute `t`. -/
def trip_type_fill (t : thermal_attr) (i : Nat) : thermal_attr :=
  { t with name := trip_attr_name i "_type", mode := S_IRUGO,
           attr_show := some attr_handler.trip_point_type_show }

/-- The stores of one iteration of `create_trip_attrs` into the temperature attribute. -/
def trip_temp_fill (mask : Nat) (writable_trips : Bool) (t : thermal_attr) (i : Nat) :
    thermal_attr :=
  if writable_trips ∧ mask &&& (1 <<< i) ≠ 0 then
    { t with name := trip_attr_name i "_temp", mode := S_IRUGO ||| S_IWUSR,
             attr_show := some attr_handler.trip_point_temp_show,
             attr_store := some attr_handler.trip_point_temp_store }
  else
    { t with name := trip_attr_name i "_temp", mode := S_IRUGO,
             attr_show := some attr_handler.trip_point_temp_show }

/-- The stores of one iteration of `create_trip_attrs` into the hysteresis attribute. -/
def trip_hyst_fill (ops : thermal_zone_device_ops) (t : thermal_attr) (i : Nat) :
    thermal_attr :=
  if ops.set_trip_hyst.isSome then
    { t with name := trip_attr_name i "_hyst", mode := S_IRUGO ||| S_IWUSR,
             attr_show := some attr_handler.trip_point_hyst_show,
             attr_store := some attr_handler.trip_point_hyst_store }
  else
    { t with name := trip_attr_name i "_hyst", mode := S_IRUGO,
             attr_show := some attr_handler.trip_point_hyst_show }

/-- The three stores into `attrs` of one iteration of the loop of `create_trip_attrs`
(two when the zone has no hysteresis accessor). -/
def trip_attrs_step (nohyst : Bool) (trips : Nat) (attrs : List (Option trip_attr_ptr))
    (i : Nat) : List (Option trip_attr_ptr) :=
  if nohyst then
    (attrs.set i (some (trip_attr_ptr.trip_type i))).set (i + trips)
      (some (trip_attr_ptr.trip_temp i))
  else
    ((attrs.set i (some (trip_attr_ptr.trip_type i))).set (i + trips)
      (some (trip_attr_ptr.trip_temp i))).set (i + trips * 2)
      (some (trip_attr_ptr.trip_hyst i))

/-- The sample accessors without the trip-temperature accessor. -/
def sample_ops_no_temp : thermal_zone_device_ops :=
  { sample_ops with get_trip_temp := none }

/-- The sample accessors without the two hysteresis accessors. -/
def sample_ops_no_hyst : thermal_zone_device_ops :=
  { sample_ops with get_trip_hyst := none, set_trip_hyst := none }

/-- An allocator with no live array, in which every request succeeds. -/
def fresh_allocator : allocator :=
  { live := [], next := 1, plan := [], bad_free := 0 }

/-! ## Thermal zones: the `config` report -/

/-- `scnprintf(buf + offset, size, ...)` on a buffer that was zeroed before its first
use or is only ever written front to back: the C string held by `buf` afterwards and
the return value, the number of characters written (at most `size - 1`; `0` when
`size` is `0`). A write that starts beyond the end of the string is hidden behind the
terminating `NUL` and leaves the string as it is. -/
def scnprintf (buf : List Char) (offset size : Nat) (text : List Char) : List Char × Nat :=
  if size = 0 then (buf, 0)
  else
    let n := min text.length (size - 1)
    (if offset ≤ buf.length then buf.take offset ++ text.take n else buf, n)

/-- The statement `offset += scnprintf(buf + offset, size - offset, ...)` on the pair
(string in `buf`, `offset`). -/
def scnprintf_at (size : Nat) (st : List Char × Nat) (text : List Char) : List Char × Nat :=
  let r := scnprintf st.1 st.2 (size - st.2) text
  (r.1, st.2 + r.2)

/-- Counterpart of `fetch_and_populate`: the return value and the string held by `buf`
afterwards. `config_show` tests the accessor it asks for before each call; a null
accessor, which the function would call through, is given the return code `-EINVAL`
here. -/
def fetch_and_populate (buf : List Char) (ops : thermal_zone_device_ops) (idx : Nat)
    (offset : Nat) (size : Nat) (is_hyst : Bool) : Int × List Char :=
  let r : Int × Int :=
    match (if !is_hyst then ops.get_trip_temp else ops.get_trip_hyst) with
    | some accessor => accessor idx
    | none => (-EINVAL, 0)
  let ret := r.1
  let temp := r.2
  if ret ≠ 0 then (ret, buf)
  else
    let w := scnprintf buf offset (size - offset) (fmt_d temp ++ " ".toList)
    (((offset + w.2 : Nat) : Int), w.1)

/-- The three scratch buffers of the first loop of `config_show`, each with its offset
variable. -/
structure config_trip_bufs where
  buf_trip : List Char
  buf_offset : Nat
  buf_temp : List Char
  buf1_offset : Nat
  buf_hyst : List Char
  buf2_offset : Nat
deriving DecidableEq

/-- One iteration of the first loop of `config_show`, for trip `i`; an error is the
negative value with which the function leaves through `config_exit`. The offset of
`buf_trip` is assigned, not added to, as in the source. -/
def config_show_trip (ops : thermal_zone_device_ops) (buf_size : Nat) (st : config_trip_bufs)
    (i : Nat) : Except Int config_trip_bufs :=
  let w := scnprintf st.buf_trip st.buf_offset (buf_size - st.buf_offset)
    (fmt_d (i : Int) ++ " ".toList)
  let st := { st with buf_trip := w.1, buf_offset := w.2 }
  let r := fetch_and_populate st.buf_temp ops i st.buf1_offset buf_size false
  if r.1 < 0 then Except.error r.1
  else
    let st := { st with buf_temp := r.2, buf1_offset := r.1.toNat }
    if ops.get_trip_hyst.isNone then Except.ok st
    else
      let r := fetch_and_populate st.buf_hyst ops i st.buf2_offset buf_size true
      if r.1 < 0 then Except.error r.1
      else Except.ok { st with buf_hyst := r.2, buf2_offset := r.1.toNat }

/-- The first loop of `config_show` over the trip indices still to visit. -/
def config_show_trips (ops : thermal_zone_device_ops) (buf_size : Nat) :
    List Nat → config_trip_bufs → Except Int config_trip_bufs
  | [], st => Except.ok st
  | i :: rest, st =>
    match config_show_trip ops buf_size st i with
    | Except.error ret => Except.error ret
    | Except.ok st => config_show_trips ops buf_size rest st

/-- The three scratch buffers of the second loop of `config_show`, each with its offset
variable. -/
structure config_cdev_bufs where
  buf_cdev : List Char
  buf_offset : Nat
  buf_cdev_upper : List Char
  buf1_offset : Nat
  buf_cdev_lower : List Char
  buf2_offset : Nat
deriving DecidableEq

/-- Type name of the cooling device of a binding (empty for a null `cdev`). -/
def instance_cdev_type (cdevs : Nat → thermal_cooling_device) (pos : thermal_instance) :
    List Char :=
  match pos.cdev with
  | some c => (cdevs c).type.toList
  | none => []

/-- The body of the inner loop of the second loop of `config_show`, for trip `i` and
one binding; the state is the buffers and the flag `first_entry`. The two branches of
the source differ only in the separator, a blank for the first entry of a trip and
`+` for the others. -/
def config_show_instance (cdevs : Nat → thermal_cooling_device) (buf_size : Nat) (i : Nat)
    (st : config_cdev_bufs × Bool) (pos : thermal_instance) : config_cdev_bufs × Bool :=
  if pos.cdev.isNone ∨ pos.trip ≠ (i : Int) then st
  else
    let sep := if st.2 then " ".toList else "+".toList
    let b := st.1
    let w := scnprintf_at buf_size (b.buf_cdev, b.buf_offset) (sep ++ instance_cdev_type cdevs pos)
    let b := { b with buf_cdev := w.1, buf_offset := w.2 }
    let w := scnprintf_at buf_size (b.buf_cdev_upper, b.buf1_offset) (sep ++ fmt_d pos.upper)
    let b := { b with buf_cdev_upper := w.1, buf1_offset := w.2 }
    let w := scnprintf_at buf_size (b.buf_cdev_lower, b.buf2_offset) (sep ++ fmt_d pos.lower)
    let b := { b with buf_cdev_lower := w.1, buf2_offset := w.2 }
    (b, false)

/-- The second loop of `config_show`: for every trip, the sweep over the bindings. -/
def config_show_cdevs (tz : thermal_zone_device) (cdevs : Nat → thermal_cooling_device)
    (buf_size : Nat) : config_cdev_bufs :=
  (List.range tz.trips).foldl
    (fun b i => (tz.thermal_instances.foldl (config_show_instance cdevs buf_size i) (b, true)).1)
    { buf_cdev := [], buf_offset := 0, buf_cdev_upper := [], buf1_offset := 0,
      buf_cdev_lower := [], buf2_offset := 0 }

/-- Counterpart of `config_show` for a page of `page_size` bytes: the return value and
the text left in `buf`. `kzalloc_ok` tells whether the three scratch buffers of the
first loop can be allocated; the three of the second loop, which the source uses
without a test, are taken to be allocated. Freeing the buffers is not modelled. -/
def config_show (page_size : Nat) (tz : thermal_zone_device) (ops : thermal_zone_device_ops)
    (cdevs : Nat → thermal_cooling_device) (kzalloc_ok : Bool) : Int × List Char :=
  let st := scnprintf_at page_size ([], 0) ("sensor ".toList ++ tz.type.toList ++ "\n".toList)
  let st := scnprintf_at page_size st
    ("algo_type ".toList ++ tz.governor_name.toList ++ "\n".toList)
  let st := scnprintf_at page_size st
    ("polling_delay ".toList ++ fmt_d tz.polling_delay ++ "\n".toList)
  let st := scnprintf_at page_size st
    ("passive_delay ".toList ++ fmt_d tz.passive_delay ++ "\n".toList)
  if tz.trips = 0 ∨ ops.get_trip_temp.isNone then ((st.2 : Int), st.1)
  else
    let buf_size := tz.trips * UINT_MAX_CHARACTER
    if !kzalloc_ok then (-ENOMEM, st.1)
    else
      match config_show_trips ops buf_size (List.range tz.trips)
          { buf_trip := [], buf_offset := 0, buf_temp := [], buf1_offset := 0,
            buf_hyst := [], buf2_offset := 0 } with
      | Except.error ret => (ret, st.1)
      | Except.ok t =>
        let st := scnprintf_at page_size st ("trip ".toList ++ t.buf_trip ++ "\n".toList)
        let st := scnprintf_at page_size st ("set_temp ".toList ++ t.buf_temp ++ "\n".toList)
        let st :=
          if t.buf2_offset ≠ 0 then
            scnprintf_at page_size st ("clr_temp ".toList ++ t.buf_hyst ++ "\n".toList)
          else st
        let buf_size := tz.thermal_instances.countP (fun pos => pos.cdev.isSome)
        if buf_size = 0 then ((st.2 : Int), st.1)
        else
          let buf_size := buf_size * THERMAL_NAME_LENGTH
          let c := config_show_cdevs tz cdevs buf_size
          let st := scnprintf_at page_size st ("device ".toList ++ c.buf_cdev ++ "\n".toList)
          let st := scnprintf_at page_size st
            ("upper_limit ".toList ++ c.buf_cdev_upper ++ "\n".toList)
          let st := scnprintf_at page_size st
            ("lower_limit ".toList ++ c.buf_cdev_lower ++ "\n".toList)
          ((st.2 : Int), st.1)

/-- The scenario of the report: two trips (critical at 85000, passive at 70000), one
cooling device `fan` bound to trip `1` with bounds `3` and `0`. -/
def scenario_zone : thermal_zone_device :=
  { type := "cpu-thermal", temperature := 45000, passive := 0, polling_delay := 0,
    passive_delay := 250, forced_passive := 0, trips := 2, governor_name := "step_wise",
    thermal_instances :=
      [{ cdev := some 0, trip := 1, upper := 3, lower := 0, target := 0, initialized := true }] }

/-- A zone with three trip points and no binding. -/
def three_trip_zone : thermal_zone_device :=
  { type := "gpu-thermal", temperature := 45000, passive := 0, polling_delay := 0,
    passive_delay := 250, forced_passive := 0, trips := 3, governor_name := "step_wise",
    thermal_instances := [] }

/-- The pair (string, offset) of a buffer of `size` bytes after `text` has been
written into it front to back with `scnprintf_at`: what fits in `size - 1` bytes. -/
def page_of (size : Nat) (text : List Char) : List Char × Nat :=
  (text.take (size - 1), min text.length (size - 1))

/-- The four lines with which every `config` report starts. -/
def config_head (tz : thermal_zone_device) : List Char :=
  "sensor ".toList ++ tz.type.toList ++ "\n".toList ++
  ("algo_type ".toList ++ tz.governor_name.toList ++ "\n".toList) ++
  ("polling_delay ".toList ++ fmt_d tz.polling_delay ++ "\n".toList) ++
  ("passive_delay ".toList ++ fmt_d tz.passive_delay ++ "\n".toList)

/-- The statement of `config_show` that writes the index of trip `i` into `buf_trip`,
on the pair (string, `buf_offset`). -/
def config_trip_index (buf_size : Nat) (st : List Char × Nat) (i : Nat) : List Char × Nat :=
  scnprintf st.1 st.2 (buf_size - st.2) (fmt_d (i : Int) ++ " ".toList)

/-- The string left in `buf_trip` by the first loop of `config_show` on a zone with
`trips` trip points. -/
def config_trip_list (trips : Nat) : List Char :=
  ((List.range trips).foldl (config_trip_index (trips * UINT_MAX_CHARACTER)) ([], 0)).1

/-- The values reported by `accessor` for the trips in `l`, in that order, each as a
signed decimal followed by one space. -/
def config_value_list (accessor : Nat → Int × Int) (l : List Nat) : List Char :=
  (l.map (fun i => fmt_d (accessor i).2 ++ " ".toList)).flatten

/-- The `clr_temp` line for the trips in `l`: empty without a `get_trip_hyst`
accessor. -/
def config_hyst_line (ops : thermal_zone_device_ops) (l : List Nat) : List Char :=
  match ops.get_trip_hyst with
  | none => []
  | some accessor => "clr_temp ".toList ++ config_value_list accessor l ++ "\n".toList

/-- The group of one trip in a list of `config_show`: nothing when the trip has no
entry, else one blank followed by the entries joined with `+`. -/
def config_group (texts : List (List Char)) : List Char :=
  match texts with
  | [] => []
  | _ :: _ => " ".toList ++ "+".toList.intercalate texts

/-- The binding `pos` has a cooling device and belongs to trip `i`. -/
def bound_to_trip (i : Nat) (pos : thermal_instance) : Bool :=
  pos.cdev.isSome && decide (pos.trip = (i : Int))

/-- The bindings of trip `i` that have a cooling device, in the order of the list of
bindings. -/
def trip_bindings (tz : thermal_zone_device) (i : Nat) : List thermal_instance :=
  tz.thermal_instances.filter (bound_to_trip i)

/-- The list that `config_show` is to build from one field of the bindings: the groups
of the trips `0 .. trips - 1` in ascending order. -/
def config_cdev_list (tz : thermal_zone_device) (field : thermal_instance → List Char) :
    List Char :=
  ((List.range tz.trips).map (fun i => config_group ((trip_bindings tz i).map field))).flatten

/-- The three lines that `config_show` renders from the scratch buffers `c` of its
second loop. -/
def config_cdev_lines (c : config_cdev_bufs) : List Char :=
  "device ".toList ++ c.buf_cdev ++ "\n".toList ++
  ("upper_limit ".toList ++ c.buf_cdev_upper ++ "\n".toList) ++
  ("lower_limit ".toList ++ c.buf_cdev_lower ++ "\n".toList)

/-- The lines that `config_show` renders from the scratch buffers `t` of its first
loop. -/
def config_trip_lines (t : config_trip_bufs) : List Char :=
  "trip ".toList ++ t.buf_trip ++ "\n".toList ++
  ("set_temp ".toList ++ t.buf_temp ++ "\n".toList) ++
  (if t.buf2_offset ≠ 0 then "clr_temp ".toList ++ t.buf_hyst ++ "\n".toList else [])

/-- The values reported by `get_trip_hyst` for the trips in `l`; empty without that
accessor. -/
def config_hyst_list (ops : thermal_zone_device_ops) (l : List Nat) : List Char :=
  match ops.get_trip_hyst with
  | none => []
  | some accessor => config_value_list accessor l

/-- The scratch buffers of the first loop of `config_show` when `buf_trip` and its
offset are `bt` and the texts `temps` and `hysts` have been written front to back into
`buf_temp` and `buf_hyst`. -/
def trip_bufs_of (size : Nat) (bt : List Char × Nat) (temps hysts : List Char) :
    config_trip_bufs :=
  { buf_trip := bt.1, buf_offset := bt.2,
    buf_temp := (page_of size temps).1, buf1_offset := (page_of size temps).2,
    buf_hyst := (page_of size hysts).1, buf2_offset := (page_of size hysts).2 }

/-- Entries written one after the other, each behind its separator: a blank for the
first entry when `first` holds, `+` for every other entry. -/
def config_entries (first : Bool) : List (List Char) → List Char
  | [] => []
  | x :: rest => (if first then " ".toList else "+".toList) ++ x ++ config_entries false rest

/-- The scratch buffers of the second loop of `config_show` when the texts `names`,
`uppers` and `lowers` have been written front to back into them. -/
def cdev_bufs_of (size : Nat) (names uppers lowers : List Char) : config_cdev_bufs :=
  { buf_cdev := (page_of size names).1, buf_offset := (page_of size names).2,
    buf_cdev_upper := (page_of size uppers).1, buf1_offset := (page_of size uppers).2,
    buf_cdev_lower := (page_of size lowers).1, buf2_offset := (page_of size lowers).2 }

/-- The text that `config_show` renders after the trip lines: nothing when no binding
has a cooling device, else the three lines built from the scratch buffers of the second
loop, which have `THERMAL_NAME_LENGTH` bytes per such binding. -/
def config_cdev_part (tz : thermal_zone_device) (cdevs : Nat → thermal_cooling_device) :
    List Char :=
  if tz.thermal_instances.countP (fun pos => pos.cdev.isSome) = 0 then []
  else config_cdev_lines (config_show_cdevs tz cdevs
    (tz.thermal_instances.countP (fun pos => pos.cdev.isSome) * THERMAL_NAME_LENGTH))

/-- A zone with one trip point and no binding. -/
def one_trip_zone : thermal_zone_device :=
  { type := "skin-thermal", temperature := 30000, passive := 0, polling_delay := 0,
    passive_delay := 0, forced_passive := 0, trips := 1, governor_name := "user_space",
    thermal_instances := [] }

/-- Accessors that succeed and report a temperature of eleven characters; no
hysteresis. -/
def extreme_ops : thermal_zone_device_ops :=
  { set_mode := none, get_trip_type := none,
    get_trip_temp := some (fun _ => (0, -2000000000)),
    get_trip_hyst := none, set_trip_hyst := none }

/-- Accessors whose `get_trip_temp` reports the positive result `1`; no hysteresis. -/
def positive_ret_ops : thermal_zone_device_ops :=
  { set_mode := none, get_trip_type := none,
    get_trip_temp := some (fun _ => (1, 5)),
    get_trip_hyst := none, set_trip_hyst := none }

/-- Accessors whose `get_trip_hyst` fails with `-EINVAL` on trip `1`. -/
def failing_ops : thermal_zone_device_ops :=
  { set_mode := none, get_trip_type := none,
    get_trip_temp := some (fun i => (0, if i = 0 then 85000 else 70000)),
    get_trip_hyst := some (fun i => (if i = 1 then -EINVAL else 0, 2000)),
    set_trip_hyst := none }

/-- A table of cooling devices whose type names have nineteen characters, the longest
that fits a name buffer. -/
def long_name_cdevs (_c : Nat) : thermal_cooling_device :=
  { type := "thermal-devfreq-gpu", updated := true }

/-- The trip lines of a `config` report with full lists: the `trip` line with the
string left in `buf_trip`, the `set_temp` line with the temperature that `accessor`
reports for every trip `0 .. trips - 1`, and the `clr_temp` line if the zone has a
`get_trip_hyst` accessor. -/
def config_trip_part (tz : thermal_zone_device) (ops : thermal_zone_device_ops)
    (accessor : Nat → Int × Int) : List Char :=
  "trip ".toList ++ config_trip_list tz.trips ++ "\n".toList ++
  ("set_temp ".toList ++ config_value_list accessor (List.range tz.trips) ++ "\n".toList) ++
  config_hyst_line ops (List.range tz.trips)

/-- The three lines of the cooling devices with full lists: the type names, the upper
bounds and the lower bounds of the bindings, grouped by trip. -/
def config_device_part (tz : thermal_zone_device) (cdevs : Nat → thermal_cooling_device) :
    List Char :=
  "device ".toList ++ config_cdev_list tz (instance_cdev_type cdevs) ++ "\n".toList ++
  ("upper_limit ".toList ++ config_cdev_list tz (fun pos => fmt_d pos.upper) ++ "\n".toList) ++
  ("lower_limit ".toList ++ config_cdev_list tz (fun pos => fmt_d pos.lower) ++ "\n".toList)

/-! ## Thermal zones: the `mode` attribute and the trip attributes -/

/-- `EPERM`. -/
def EPERM : Int := 1

/-- `strncmp(cs, ct, count)` on C strings given without their terminating `NUL`: `0`
when the strings agree on their first `count` characters or end together before that,
otherwise `-1` or `1` after the first pair of characters that differ (the end of a
string counts as the character `NUL`). -/
def strncmp : List Char → List Char → Nat → Int
  | _, _, 0 => 0
  | [], [], _ + 1 => 0
  | [], _ :: _, _ + 1 => -1
  | _ :: _, [], _ + 1 => 1
  | c1 :: cs, c2 :: ct, count + 1 =>
    if c1 ≠ c2 then (if c1 < c2 then -1 else 1) else strncmp cs ct count

/-- Counterpart of `mode_store` as built with `CONFIG_QTI_THERMAL`: the new zone, the
new table of cooling devices, the calls made and the return value; `buf` is the text
written to the attribute, `count` its number of bytes. The result is `none` when
`thermal_zone_device_clear` would go through a null pointer. -/
def mode_store (tz : thermal_zone_device) (ops : thermal_zone_device_ops)
    (cdevs : Nat → thermal_cooling_device) (buf : List Char) (count : Nat) :
    Option (thermal_zone_device × (Nat → thermal_cooling_device) × List zone_call × Int) :=
  match ops.set_mode with
  | none => some (tz, cdevs, [], -EPERM)
  | some set_mode =>
    if strncmp buf "enabled".toList ("enabled".length + 1 - 1) = 0 then
      let result := set_mode thermal_device_mode.THERMAL_DEVICE_ENABLED
      some (tz, cdevs, [zone_call.set_mode thermal_device_mode.THERMAL_DEVICE_ENABLED],
        if result ≠ 0 then result else (count : Int))
    else if strncmp buf "disabled".toList ("disabled".length + 1 - 1) = 0 then
      match thermal_zone_device_clear tz ops cdevs with
      | none => none
      | some (tz, cdevs, calls, result) =>
        some (tz, cdevs, calls, if result ≠ 0 then result else (count : Int))
    else
      let result := -EINVAL
      some (tz, cdevs, [], if result ≠ 0 then result else (count : Int))

/-- `isspace` of the kernel. -/
def isspace (c : Char) : Bool :=
  c = ' ' || (9 ≤ c.toNat && c.toNat ≤ 13) || c.toNat = 160

/-- `simple_strtoull(cp, &next, 10)`: the value of the run of decimal digits at the
head of `cp`, accumulated digit by digit in 64 bits. -/
def simple_strtoull (cp : List Char) : Nat :=
  (cp.takeWhile Char.isDigit).foldl (fun acc c => (acc * 10 + (c.toNat - 48)) % ULLONG_MOD) 0

/-- `simple_strtol(cp, &next, 10)`, before its result is narrowed. -/
def simple_strtol (cp : List Char) : Int :=
  if cp.head? = some '-' then -(simple_strtoull cp.tail : Int)
  else (simple_strtoull cp : Int)

/-- Outcome of `sscanf(name, "trip_point_%d_<kind>", &trip)` in the trip handlers:
`some trip` when the call returns `1`, `none` otherwise. The literal `trip_point_` has
to match; the conversion `%d` skips white space and needs a digit, after an optional
`-`; whether the literal `_<kind>` behind the conversion matches has no bearing on
the return value, so one definition serves the three kinds. -/
def sscanf_trip_point (name : List Char) : Option Int :=
  if "trip_point_".toList.isPrefixOf name then
    let str := (name.drop "trip_point_".length).dropWhile isspace
    let digit := if str.head? = some '-' then str.tail.head? else str.head?
    match digit with
    | none => none
    | some d => if d.isDigit then some (int_of_long (simple_strtol str)) else none
  else none

/-- Counterpart of `trip_point_temp_store`: the calls made and the return value.
`attr_name` is `attr->attr.name`; `kstrtoint_temperature` is the outcome of
`kstrtoint(buf, 10, &temperature)`: `none` when it fails, `some temperature` when it
returns `0`; `count` is the number of bytes written to the attribute. The zone itself
is not written. -/
def trip_point_temp_store (ops : thermal_zone_device_ops) (attr_name : List Char)
    (kstrtoint_temperature : Option Int) (count : Nat) : List zone_call × Int :=
  match ops.set_trip_temp with
  | none => ([], -EPERM)
  | some set_trip_temp =>
    match sscanf_trip_point attr_name with
    | none => ([], -EINVAL)
    | some trip =>
      match kstrtoint_temperature with
      | none => ([], -EINVAL)
      | some temperature =>
        let ret := set_trip_temp trip temperature
        if ret ≠ 0 then ([zone_call.set_trip_temp trip temperature], ret)
        else
          ([zone_call.set_trip_temp trip temperature,
            zone_call.thermal_zone_device_update
              thermal_notify_event.THERMAL_EVENT_UNSPECIFIED], (count : Int))

/-- Counterpart of `trip_point_hyst_store`, with the parameters of
`trip_point_temp_store`. -/
def trip_point_hyst_store (ops : thermal_zone_device_ops) (attr_name : List Char)
    (kstrtoint_temperature : Option Int) (count : Nat) : List zone_call × Int :=
  match ops.set_trip_hyst with
  | none => ([], -EPERM)
  | some set_trip_hyst =>
    match sscanf_trip_point attr_name with
    | none => ([], -EINVAL)
    | some trip =>
      match kstrtoint_temperature with
      | none => ([], -EINVAL)
      | some temperature =>
        let ret := set_trip_hyst trip temperature
        let calls := [zone_call.set_trip_hyst trip temperature]
        let calls := if ret = 0 then calls ++ [zone_call.thermal_zone_set_trips] else calls
        (calls, if ret ≠ 0 then ret else (count : Int))

/-! ## Thermal zones: releasing the attribute groups -/

/-- Counterpart of `destroy_trip_attrs` for a non-null zone: the new allocator. The
pointers of the zone are passed to `kfree` as they are and are not reset. -/
def destroy_trip_attrs (tz : thermal_zone_device) (ops : thermal_zone_device_ops)
    (a : allocator) : allocator :=
  let a := kfree a (tz.trip_type_attrs.map Prod.fst)
  let a := kfree a (tz.trip_temp_attrs.map Prod.fst)
  let a := if ops.get_trip_hyst.isSome then kfree a (tz.trip_hyst_attrs.map Prod.fst) else a
  kfree a (tz.trips_attribute_group_attrs.map Prod.fst)

/-- Counterpart of `thermal_zone_destroy_device_groups`: the new allocator; `tz` is
`none` for a null pointer. The zone is not written. -/
def thermal_zone_destroy_device_groups (tz : Option thermal_zone_device)
    (ops : thermal_zone_device_ops) (a : allocator) : allocator :=
  match tz with
  | none => a
  | some tz =>
    let a := if tz.trips ≠ 0 then destroy_trip_attrs tz ops a else a
    kfree a (tz.device_groups.map Prod.fst)

/-- The allocator after a request that succeeds. -/
def kcalloc_done (a : allocator) : allocator :=
  { a with plan := a.plan.tail, live := a.next :: a.live, next := a.next + 1 }

/-- The allocator after a request that fails. -/
def kcalloc_failed (a : allocator) : allocator :=
  { a with plan := a.plan.tail }

/-- The number of arrays that `thermal_zone_create_device_groups` allocates for a zone
with `trips` trip points: the array of groups and, with trip points, the arrays of the
type and temperature attributes, of the hysteresis attributes if the zone has a
`get_trip_hyst` accessor, and the array `attrs`. -/
def device_group_arrays (trips : Nat) (ops : thermal_zone_device_ops) : Nat :=
  if trips = 0 then 1 else if ops.get_trip_hyst.isSome then 5 else 4

/-- An allocator that fails the request number `k` (counted from `0`) and grants those
before it. -/
def failing_allocator (k : Nat) : allocator :=
  { live := [], next := 1, plan := List.replicate k true ++ [false], bad_free := 0 }

/-- The three suffixes of the names of the trip attributes. -/
def trip_kinds : List String := ["_type", "_temp", "_hyst"]

/-- A zone with 100001 trip points. -/
def many_trip_zone : thermal_zone_device :=
  { type := "many-trips", temperature := 30000, passive := 0, polling_delay := 0,
    passive_delay := 0, forced_passive := 0, trips := 100001, governor_name := "user_space",
    thermal_instances := [] }

/-- A stats object is well formed when its two arrays have the sizes given to them by
`cooling_device_stats_setup`: `max_states` times and `max_states * max_states` cells. -/
def stats_wf (s : cooling_dev_stats) : Prop :=
  s.time_in_state.length = s.max_states ∧
  s.trans_table.length = s.max_states * s.max_states

instance (s : cooling_dev_stats) : Decidable (stats_wf s) := by
  unfold stats_wf; infer_instance

/-- A sample stats object: two states, currently in state `0` since clock time `3`. -/
def sample_stats : cooling_dev_stats :=
  { total_trans := 3, state := 0, max_states := 2, last_time := 3,
    time_in_state := [4000000, 9000000], trans_table := [0, 2, 1, 0] }

/-- One operation on the statistics together with a count of transitions: an update
that requests a state other than the current one adds one to the count, a reset sets it
to `0`, an update to the current state and a read leave it. -/
def transitions_step (acc : Option cooling_dev_stats × Nat) (op : stats_op) :
    Option cooling_dev_stats × Nat :=
  (stats_step acc.1 op,
    match op with
    | .update new_state _ =>
      match acc.1 with
      | some stats => if stats.state = new_state then acc.2 else acc.2 + 1
      | none => acc.2
    | .reset _ _ => 0
    | .read _ => acc.2)

/-- The number of transitions that a sequence of operations makes after its last
reset, counted without bound. -/
def transitions_since_reset (cdev_stats : Option cooling_dev_stats) (ops : List stats_op) :
    Nat :=
  (ops.foldl transitions_step (cdev_stats, 0)).2

/-- The counters of a stats object agree with a transition count `c` that has not
reached the range of `unsigned int`: `total_trans` and the sum of all cells of the
transition table both equal `c`. -/
def trans_inv (c : Nat) (s : cooling_dev_stats) : Prop :=
  c < UINT_MOD → s.total_trans = c ∧ s.trans_table.sum = c

/-- Invariant of the statistics: the object is well formed with `n` states, its
current state is a valid one, the accumulated times add up to the time between `base`
and the last accrual, and the diagonal of the transition table holds only zeros. -/
def stats_inv (n : Nat) (base : Int) (s : cooling_dev_stats) : Prop :=
  stats_wf s ∧ s.max_states = n ∧ s.state < n ∧
  s.time_in_state.sum = s.last_time - base ∧
  ∀ i, i < n → s.trans_table[i * n + i]? = some 0

/-! ## Theorems -/

/-! ### Auxiliary facts about arrays -/

theorem sum_set_add (l : List Int) (i : Nat) (d : Int) (h : i < l.length) :
    (l.set i (l.getD i 0 + d)).sum = l.sum + d := by
  induction l generalizing i with
  | nil => simp at h
  | cons a l ih =>
    cases i with
    | zero => simp; ring
    | succ i =>
      simp only [List.length_cons, Nat.succ_lt_succ_iff] at h
      have := ih i h
      simp only [List.getD_cons_succ, List.set_cons_succ, List.sum_cons, this]
      ring

theorem foldl_set_zero_length (n : Nat) (l : List Int) :
    ((List.range n).foldl (fun tis i => tis.set i 0) l).length = l.length := by
  induction n with
  | zero => simp
  | succ n ih =>
    rw [List.range_succ, List.foldl_append]
    simp [ih]

theorem foldl_set_zero_getElem? (n : Nat) (l : List Int) (k : Nat) :
    ((List.range n).foldl (fun tis i => tis.set i 0) l)[k]? =
      if k < n ∧ k < l.length then some 0 else l[k]? := by
  induction n with
  | zero => simp
  | succ n ih =>
    rw [List.range_succ, List.foldl_append]
    simp only [List.foldl_cons, List.foldl_nil, List.getElem?_set, foldl_set_zero_length, ih]
    by_cases h1 : n = k
    · subst h1
      by_cases h2 : n < l.length
      · simp [h2]
      · simp [h2]
        omega
    · have : (k < n + 1) = (k < n) := by
        apply propext; constructor <;> intro h <;> omega
      simp [h1, this]

theorem foldl_set_zero_eq (l : List Int) :
    (List.range l.length).foldl (fun tis i => tis.set i 0) l = List.replicate l.length 0 := by
  apply List.ext_getElem?
  intro k
  rw [foldl_set_zero_getElem?]
  by_cases h : k < l.length
  · simp [h]
  · have h1 : l.length ≤ k := by omega
    rw [if_neg (fun hh => h hh.2), List.getElem?_eq_none h1,
      List.getElem?_eq_none (by simpa using h1)]

theorem foldl_append_eq {α β : Type} (f : β → List α) (l : List β) (init : List α) :
    l.foldl (fun buf i => buf ++ f i) init = init ++ (l.map f).flatten := by
  induction l generalizing init with
  | nil => simp
  | cons a l ih => simp [ih]

theorem memset_zero_all (l : List Nat) : memset_zero l l.length = List.replicate l.length 0 := by
  simp [memset_zero]

/-! ### The operations on a well-formed stats object -/

theorem update_time_in_state_wf (s : cooling_dev_stats) (now : Int) (h : stats_wf s) :
    stats_wf (update_time_in_state s now) := by
  obtain ⟨h1, h2⟩ := h
  exact ⟨by simp [update_time_in_state, h1], by simp [update_time_in_state, h2]⟩

theorem cell_index_lt (n i j : Nat) (hi : i < n) (hj : j < n) : i * n + j < n * n := by
  calc i * n + j < i * n + n := by omega
    _ = (i + 1) * n := by ring
    _ ≤ n * n := Nat.mul_le_mul_right _ hi

theorem cell_index_ne_diag (n i old new_state : Nat) (hi : i < n) (hnew : new_state < n)
    (hne : ¬ old = new_state) : ¬ old * n + new_state = i * n + i := by
  intro h
  have hpos : 0 < n := by omega
  have h1 : (old * n + new_state) / n = old := by
    rw [Nat.add_comm, Nat.add_mul_div_right _ _ hpos, Nat.div_eq_of_lt hnew, Nat.zero_add]
  have h2 : (i * n + i) / n = i := by
    rw [Nat.add_comm, Nat.add_mul_div_right _ _ hpos, Nat.div_eq_of_lt hi, Nat.zero_add]
  have h3 : (old * n + new_state) % n = new_state := by
    rw [Nat.add_comm, Nat.add_mul_mod_self_right, Nat.mod_eq_of_lt hnew]
  have h4 : (i * n + i) % n = i := by
    rw [Nat.add_comm, Nat.add_mul_mod_self_right, Nat.mod_eq_of_lt hi]
  rw [h] at h1 h3
  exact hne (by omega)

theorem replicate_zero_getElem? (m k : Nat) (h : k < m) :
    (List.replicate m (0 : Nat))[k]? = some 0 := by
  rw [List.getElem?_replicate, if_pos h]

theorem update_time_in_state_inv (n : Nat) (base : Int) (s : cooling_dev_stats) (now : Int)
    (h : stats_inv n base s) : stats_inv n base (update_time_in_state s now) := by
  obtain ⟨hwf, hn, hst, hsum, hdiag⟩ := h
  refine ⟨update_time_in_state_wf s now hwf, hn, hst, ?_, hdiag⟩
  have hlt : s.state < s.time_in_state.length := by rw [hwf.1, hn]; exact hst
  simp only [update_time_in_state]
  rw [sum_set_add _ _ _ hlt, hsum]
  ring

theorem reset_store_eq (s : cooling_dev_stats) (count : Nat) (now : Int) (h : stats_wf s) :
    reset_store (some s) count now =
      (some { s with total_trans := 0
                     last_time := now
                     trans_table := List.replicate (s.max_states * s.max_states) 0
                     time_in_state := List.replicate s.max_states 0 }, (count : Int)) := by
  obtain ⟨h1, h2⟩ := h
  have e1 : memset_zero s.trans_table (s.max_states * s.max_states) =
      List.replicate (s.max_states * s.max_states) 0 := by
    rw [← h2]; exact memset_zero_all _
  have e2 : (List.range s.max_states).foldl (fun tis i => tis.set i 0) s.time_in_state =
      List.replicate s.max_states 0 := by
    rw [← h1]; exact foldl_set_zero_eq _
  simp only [reset_store, e1, e2]

theorem stats_update_eq (s : cooling_dev_stats) (new_state : Nat) (now : Int)
    (h : ¬ s.state = new_state) :
    thermal_cooling_device_stats_update (some s) new_state now =
      some { update_time_in_state s now with
        trans_table := (update_time_in_state s now).trans_table.set
          (s.state * s.max_states + new_state)
          (((update_time_in_state s now).trans_table.getD
            (s.state * s.max_states + new_state) 0 + 1) % UINT_MOD)
        state := new_state
        total_trans := (s.total_trans + 1) % UINT_MOD } := by
  simp only [thermal_cooling_device_stats_update, if_neg h]
  rfl

theorem stats_step_inv (n : Nat) (base : Int) (s : cooling_dev_stats) (op : stats_op)
    (h : stats_inv n base s)
    (hop : request_below n op) :
    ∃ s', stats_step (some s) op = some s' ∧ stats_inv n (reset_base base [op]) s' := by
  cases op with
  | update new_state now =>
    have hnew : new_state < n := hop
    by_cases heq : s.state = new_state
    · exact ⟨s, by simp [stats_step, thermal_cooling_device_stats_update, heq], h⟩
    · have hn0 : s.max_states = n := h.2.1
      obtain ⟨hwf, hn, hst, hsum, hdiag⟩ := update_time_in_state_inv n base s now h
      have hs : stats_step (some s) (stats_op.update new_state now) = _ :=
        stats_update_eq s new_state now heq
      refine ⟨_, hs, ⟨hwf.1, ?_⟩, hn, hnew, hsum, ?_⟩
      · simpa using hwf.2
      · intro i hi
        have hne := cell_index_ne_diag n i s.state new_state hi hnew heq
        show ((update_time_in_state s now).trans_table.set _ _)[i * n + i]? = some 0
        rw [hn0, List.getElem?_set_ne hne]
        exact hdiag i hi
  | reset count now =>
    obtain ⟨hwf, hn, hst, _, _⟩ := h
    refine ⟨{ s with total_trans := 0
                     last_time := now
                     trans_table := List.replicate (s.max_states * s.max_states) 0
                     time_in_state := List.replicate s.max_states 0 },
      by simp only [stats_step, reset_store_eq s count now hwf], ⟨?_, ?_⟩, hn, hst, ?_, ?_⟩
    · simp
    · simp
    · simp [reset_base]
    · intro i hi
      show (List.replicate (s.max_states * s.max_states) 0)[i * n + i]? = some 0
      rw [hn]
      exact replicate_zero_getElem? _ _ (cell_index_lt n i i hi hi)
  | read now =>
    exact ⟨_, rfl, update_time_in_state_inv n base s now h⟩

theorem reset_base_cons (base : Int) (op : stats_op) (ops : List stats_op) :
    reset_base base (op :: ops) = reset_base (reset_base base [op]) ops := by
  simp [reset_base]

theorem stats_run_inv (n : Nat) (ops : List stats_op) :
    ∀ (base : Int) (s : cooling_dev_stats), stats_inv n base s → requests_below n ops →
      ∃ s', stats_run (some s) ops = some s' ∧ stats_inv n (reset_base base ops) s' := by
  induction ops with
  | nil => intro base s h _; exact ⟨s, rfl, h⟩
  | cons op ops ih =>
    intro base s h hreq
    obtain ⟨s1, h1, hinv1⟩ := stats_step_inv n base s op h
      (hreq op (List.mem_cons_self _ _))
    obtain ⟨s2, h2, hinv2⟩ := ih _ s1 hinv1
      (fun o ho => hreq o (List.mem_cons_of_mem _ ho))
    refine ⟨s2, ?_, ?_⟩
    · simp only [stats_run, List.foldl_cons, h1]
      exact h2
    · rw [reset_base_cons]; exact hinv2

theorem stats_setup_eq (max_state : Nat) (t0 : Int) (hfit : stats_block_fits max_state) :
    cooling_device_stats_setup (0, max_state) true t0 =
      some { total_trans := 0, state := 0, max_states := max_state + 1, last_time := t0,
             time_in_state := List.replicate (max_state + 1) 0,
             trans_table := List.replicate ((max_state + 1) * (max_state + 1)) 0 } := by
  unfold stats_block_fits SIZEOF_STATS at hfit
  have e31 : (2 : Nat) ^ 31 = 2147483648 := by norm_num
  rw [e31] at hfit
  generalize hq : (max_state + 1) * (max_state + 1) = q at hfit
  have hN : (max_state + 1) % ULONG_MOD = max_state + 1 :=
    Nat.mod_eq_of_lt (by unfold ULONG_MOD; omega)
  have h8 : 8 * (max_state + 1) % ULONG_MOD = 8 * (max_state + 1) :=
    Nat.mod_eq_of_lt (by unfold ULONG_MOD; omega)
  have h4 : 4 * (max_state + 1) % ULONG_MOD = 4 * (max_state + 1) :=
    Nat.mod_eq_of_lt (by unfold ULONG_MOD; omega)
  have h4q : 4 * (max_state + 1) * (max_state + 1) = 4 * q := by
    rw [Nat.mul_assoc, hq]
  have h4q' : 4 * q % ULONG_MOD = 4 * q := Nat.mod_eq_of_lt (by unfold ULONG_MOD; omega)
  have small : ∀ v : Int, 0 ≤ v → v < 2147483648 → int_of_long v = v := by
    intro v h0 h1
    unfold int_of_long
    have e1 : (2 : Int) ^ 31 = 2147483648 := by norm_num
    have e2 : (2 : Int) ^ 32 = 4294967296 := by norm_num
    rw [e1, e2]
    omega
  have hU : ((ULONG_MOD : Nat) : Int) = 18446744073709551616 := by
    unfold ULONG_MOD; norm_num
  have v0 : int_of_long ((SIZEOF_STATS : Nat) : Int) = 48 := by
    rw [small _ (by unfold SIZEOF_STATS; omega) (by unfold SIZEOF_STATS; omega)]
    rfl
  have v1 : int_of_long (((48 : Int) + ((8 * (max_state + 1) : Nat) : Int)) % (ULONG_MOD : Int)) =
      ((48 + 8 * (max_state + 1) : Nat) : Int) := by
    rw [hU, Int.emod_eq_of_lt (by omega) (by omega), small _ (by omega) (by omega)]
    push_cast; ring
  have v2 : int_of_long ((((48 + 8 * (max_state + 1) : Nat) : Int) + ((4 * q : Nat) : Int)) %
      (ULONG_MOD : Int)) = ((48 + 8 * (max_state + 1) + 4 * q : Nat) : Int) := by
    rw [hU, Int.emod_eq_of_lt (by omega) (by omega), small _ (by omega) (by omega)]
    push_cast; ring
  have v3 : (((48 + 8 * (max_state + 1) + 4 * q : Nat) : Int) % (ULONG_MOD : Int)).toNat =
      48 + 8 * (max_state + 1) + 4 * q := by
    rw [hU, Int.emod_eq_of_lt (by omega) (by omega), Int.toNat_ofNat]
  unfold cooling_device_stats_setup
  simp only [ne_eq, not_true_eq_false, if_false, Bool.not_true, Bool.false_eq_true, hN, h8, h4,
    h4q, h4q', v0, v1, v2, v3, hq]
  have m1 : min (max_state + 1) ((48 + 8 * (max_state + 1) + 4 * q - SIZEOF_STATS) / 8) =
      max_state + 1 := by
    unfold SIZEOF_STATS; omega
  have m2 : min q ((48 + 8 * (max_state + 1) + 4 * q - SIZEOF_STATS - 8 * (max_state + 1)) / 4) =
      q := by
    unfold SIZEOF_STATS; omega
  rw [m1, m2]

theorem stats_setup_inv (max_state : Nat) (t0 : Int) (hfit : stats_block_fits max_state) :
    ∃ s0, cooling_device_stats_setup (0, max_state) true t0 = some s0 ∧
      stats_inv (max_state + 1) t0 s0 := by
  refine ⟨_, stats_setup_eq max_state t0 hfit, ⟨?_, ?_⟩, rfl, ?_, ?_, ?_⟩
  · simp
  · simp
  · simp
  · simp
  · intro i hi
    exact replicate_zero_getElem? _ _ (cell_index_lt _ i i hi hi)

theorem time_in_state_ms_show_sample :
    time_in_state_ms_show (some sample_stats) 5000003 =
      (some { sample_stats with last_time := 5000003, time_in_state := [9000000, 9000000] },
        18, "state0\t9\nstate1\t9\n".toList) := by
  decide

/-! ### The transition table report -/

theorem fmt_width_length (w : Nat) (t : List Char) : w ≤ (fmt_width w t).length := by
  simp only [fmt_width, List.length_append, List.length_replicate]
  omega

theorem trans_table_title_length (i : Nat) : 9 ≤ (trans_table_title i).length := by
  have h := fmt_width_length 2 (fmt_u i)
  simp only [trans_table_title, List.length_append]
  have h5 : "state".toList.length = 5 := by decide
  have h2 : "  ".toList.length = 2 := by decide
  omega

theorem flatten_map_length_ge {β : Type} (c : Nat) (f : β → List Char)
    (hf : ∀ i, c ≤ (f i).length) (l : List β) :
    c * l.length ≤ ((l.map f).flatten).length := by
  induction l with
  | nil => simp
  | cons a l ih =>
    have := hf a
    simp only [List.map_cons, List.flatten_cons, List.length_append, List.length_cons]
    rw [Nat.mul_succ]
    omega

theorem trans_table_header_text_length (stats : cooling_dev_stats) :
    24 + 9 * stats.max_states ≤ (trans_table_header_text stats).length := by
  have h := flatten_map_length_ge 9 trans_table_title trans_table_title_length
    (List.range stats.max_states)
  rw [List.length_range] at h
  simp only [trans_table_header_text, List.length_append]
  have h1 : " From  :    To\n".toList.length = 15 := rfl
  have h2 : "       : ".toList.length = 9 := rfl
  omega

theorem trans_table_text_length (stats : cooling_dev_stats) :
    24 + 9 * stats.max_states ≤ (trans_table_text stats).length := by
  have h := trans_table_header_text_length stats
  simp only [trans_table_text, List.length_append]
  omega

theorem snprintf_at_fits (page_size : Nat) (st : List Char × Nat) (text : List Char)
    (h : st.2 + text.length < page_size) :
    snprintf_at page_size st text = (st.1 ++ text, st.2 + text.length) := by
  have : text.length ≤ page_size - st.2 - 1 := by omega
  simp only [snprintf_at, List.take_of_length_le this]

theorem fold_fits {β : Type} (page_size : Nat) (g : List Char × Nat → β → List Char × Nat)
    (text : β → List Char)
    (hg : ∀ st i, st.2 + (text i).length < page_size →
      g st i = (st.1 ++ text i, st.2 + (text i).length))
    (l : List β) :
    ∀ st : List Char × Nat, st.2 + ((l.map text).flatten).length < page_size →
      l.foldl g st = (st.1 ++ (l.map text).flatten, st.2 + ((l.map text).flatten).length) := by
  induction l with
  | nil => intro st _; simp
  | cons a l ih =>
    intro st h
    simp only [List.map_cons, List.flatten_cons, List.length_append] at h ⊢
    rw [List.foldl_cons, hg st a (by omega), ih _ (by simp only []; omega)]
    simp only [List.append_assoc, Nat.add_assoc]

theorem fold_overflow {β : Type} (page_size : Nat) (g : List Char × Nat → β → List Char × Nat)
    (text : β → List Char)
    (hg : ∀ st i, min page_size (st.2 + (text i).length) ≤ (g st i).2)
    (l : List β) :
    ∀ st : List Char × Nat,
      min page_size (st.2 + ((l.map text).flatten).length) ≤ (l.foldl g st).2 := by
  induction l with
  | nil => intro st; simp
  | cons a l ih =>
    intro st
    simp only [List.map_cons, List.flatten_cons, List.length_append, List.foldl_cons]
    have h1 := hg st a
    have h2 := ih (g st a)
    omega

theorem guarded_fits (page_size : Nat) (st : List Char × Nat) (text : List Char)
    (h : st.2 + text.length < page_size) :
    (if page_size ≤ st.2 then st else snprintf_at page_size st text) =
      (st.1 ++ text, st.2 + text.length) := by
  rw [if_neg (by omega), snprintf_at_fits _ _ _ h]

theorem guarded_overflow (page_size : Nat) (st : List Char × Nat) (text : List Char) :
    min page_size (st.2 + text.length) ≤
      (if page_size ≤ st.2 then st else snprintf_at page_size st text).2 := by
  split
  · omega
  · simp only [snprintf_at]; omega

theorem trans_table_row_fits (page_size : Nat) (stats : cooling_dev_stats)
    (st : List Char × Nat) (i : Nat)
    (h : st.2 + (trans_table_row_text stats i).length < page_size) :
    trans_table_row page_size stats st i =
      (st.1 ++ trans_table_row_text stats i, st.2 + (trans_table_row_text stats i).length) := by
  simp only [trans_table_row_text, List.length_append] at h ⊢
  have hnl : "\n".toList.length = 1 := rfl
  rw [hnl] at h ⊢
  simp only [trans_table_row]
  rw [if_neg (by omega), snprintf_at_fits _ _ _ (by omega)]
  rw [fold_fits page_size _ (trans_table_cell stats i)
    (fun st j hj => guarded_fits page_size st _ hj) _ _ (by simp only []; omega)]
  simp only []
  rw [if_neg (by omega), snprintf_at_fits _ _ _ (by simp only []; rw [hnl]; omega)]
  simp only [List.append_assoc, Nat.add_assoc, hnl]

theorem trans_table_row_overflow (page_size : Nat) (stats : cooling_dev_stats)
    (st : List Char × Nat) (i : Nat) :
    min page_size (st.2 + (trans_table_row_text stats i).length) ≤
      (trans_table_row page_size stats st i).2 := by
  simp only [trans_table_row_text, List.length_append]
  have hnl : "\n".toList.length = 1 := rfl
  rw [hnl]
  simp only [trans_table_row]
  split
  · omega
  · have h2 := fold_overflow page_size _ (trans_table_cell stats i)
      (fun st j => guarded_overflow page_size st _) (List.range stats.max_states)
      (snprintf_at page_size st (trans_table_label i))
    split
    · omega
    · simp only [snprintf_at] at h2 ⊢
      rw [hnl]
      omega

theorem trans_table_text_eq (stats : cooling_dev_stats) :
    trans_table_text stats = trans_table_header_text stats ++ "\n".toList ++
      ((List.range stats.max_states).map (trans_table_row_text stats)).flatten := rfl

theorem trans_table_header_fits (page_size : Nat) (stats : cooling_dev_stats)
    (h : (trans_table_header_text stats).length < page_size) :
    trans_table_header page_size stats =
      (trans_table_header_text stats, (trans_table_header_text stats).length) := by
  simp only [trans_table_header_text, List.length_append] at h ⊢
  have h1 : " From  :    To\n".toList.length = 15 := rfl
  have h2 : "       : ".toList.length = 9 := rfl
  rw [h1, h2] at h ⊢
  simp only [trans_table_header]
  rw [snprintf_at_fits page_size ([], 0) _ (by show 0 + 15 < page_size; omega),
    snprintf_at_fits _ _ _ (by show 0 + 15 + 9 < page_size; omega)]
  rw [fold_fits page_size _ trans_table_title
    (fun st j hj => guarded_fits page_size st _ hj) _ _
    (by show 0 + 15 + 9 + _ < page_size; omega)]
  simp only [List.nil_append, Nat.zero_add, h1, h2]

theorem trans_table_header_overflow (page_size : Nat) (stats : cooling_dev_stats) :
    min page_size (trans_table_header_text stats).length ≤
      (trans_table_header page_size stats).2 := by
  simp only [trans_table_header_text, List.length_append]
  have h1 : " From  :    To\n".toList.length = 15 := rfl
  have h2 : "       : ".toList.length = 9 := rfl
  have h := fold_overflow page_size _ trans_table_title
      (fun st j => guarded_overflow page_size st _) (List.range stats.max_states)
      (snprintf_at page_size (snprintf_at page_size ([], 0) " From  :    To\n".toList)
        "       : ".toList)
  have e : (snprintf_at page_size (snprintf_at page_size ([], 0) " From  :    To\n".toList)
      "       : ".toList).2 = 24 := rfl
  rw [e] at h
  simp only [trans_table_header, h1, h2]
  omega

/-- Behaviour of `trans_table_show` in terms of the complete rendering of the table. -/
theorem trans_table_show_cases (page_size : Nat) (stats : cooling_dev_stats) :
    (page_size ≤ (trans_table_header_text stats).length →
      (trans_table_show page_size (some stats)).1 = (page_size : Int)) ∧
    ((trans_table_header_text stats).length < page_size →
      page_size ≤ (trans_table_text stats).length →
      (trans_table_show page_size (some stats)).1 = -EFBIG) ∧
    ((trans_table_text stats).length < page_size →
      trans_table_show page_size (some stats) =
        (((trans_table_text stats).length : Int), trans_table_text stats)) := by
  have hnl : "\n".toList.length = 1 := rfl
  refine ⟨?_, ?_, ?_⟩
  · intro h
    have h1 := trans_table_header_overflow page_size stats
    have h2 : page_size ≤ (trans_table_header page_size stats).2 := by omega
    simp only [trans_table_show, if_pos h2]
  · intro hh hfull
    rw [trans_table_text_eq] at hfull
    simp only [List.length_append, hnl] at hfull
    simp only [trans_table_show, trans_table_header_fits page_size stats hh]
    rw [if_neg (by omega)]
    have h2 := fold_overflow page_size (trans_table_row page_size stats)
      (trans_table_row_text stats)
      (fun st i => trans_table_row_overflow page_size stats st i) (List.range stats.max_states)
      (snprintf_at page_size
        (trans_table_header_text stats, (trans_table_header_text stats).length) "\n".toList)
    simp only [snprintf_at, hnl] at h2
    simp only [snprintf_at, hnl]
    rw [if_pos (by omega)]
  · intro hfull
    rw [trans_table_text_eq] at hfull ⊢
    simp only [List.length_append, hnl] at hfull ⊢
    have hh : (trans_table_header_text stats).length < page_size := by omega
    simp only [trans_table_show, trans_table_header_fits page_size stats hh]
    rw [if_neg (by omega), snprintf_at_fits _ _ _ (by simp only []; rw [hnl]; omega)]
    rw [fold_fits page_size (trans_table_row page_size stats) (trans_table_row_text stats)
      (fun st i hi => trans_table_row_fits page_size stats st i hi) _ _
      (by simp only []; rw [hnl]; omega)]
    simp only []
    rw [if_neg (by rw [hnl]; omega)]
    simp only [hnl, Nat.cast_add, Nat.cast_one]

set_option maxRecDepth 100000 in
theorem trans_table_show_sample :
    trans_table_show 4096 (some table_stats) =
      (160, (" From  :    To\n       : state 0  state 1  state 2  \n" ++
        "state 0:       0        1        1 \n" ++
        "state 1:       1        0        0 \n" ++
        "state 2:       0        0        0 \n").toList) := by
  decide

set_option maxRecDepth 100000 in
theorem trans_table_show_21_states :
    (trans_table_show 4096 (cooling_device_stats_setup (0, 20) true 0)).1 = -EFBIG := by
  decide

/-! ### Disabling a zone -/

theorem thermal_zone_device_clear_loop_eq (l : List thermal_instance) :
    ∀ cdevs : Nat → thermal_cooling_device, (∀ pos ∈ l, pos.cdev ≠ none) →
      thermal_zone_device_clear_loop l cdevs =
        some (l.map cleared_instance,
          (fun c => if bound_cdev l c then { cdevs c with updated := false } else cdevs c),
          l.filterMap (fun pos => pos.cdev.map zone_call.thermal_cdev_update)) := by
  induction l with
  | nil => intro cdevs _; simp [thermal_zone_device_clear_loop, bound_cdev]
  | cons pos rest ih =>
    intro cdevs h
    have hpos : pos.cdev ≠ none := h pos (List.mem_cons_self _ _)
    obtain ⟨c, hc⟩ := Option.ne_none_iff_exists'.mp hpos
    have hrest := ih (Function.update cdevs c { cdevs c with updated := false })
      (fun q hq => h q (List.mem_cons_of_mem _ hq))
    simp only [thermal_zone_device_clear_loop, hc, hrest, List.map_cons, List.filterMap_cons,
      Option.map_some']
    refine congrArg some (Prod.ext ?_ (Prod.ext ?_ rfl))
    · have e : cleared_instance pos =
          { cdev := some c, trip := pos.trip, upper := pos.upper, lower := pos.lower,
            target := THERMAL_NO_TARGET, initialized := false } := by
        simp [cleared_instance, hc]
      simp only [e]
    · funext x
      by_cases hx : x = c
      · subst hx
        simp [bound_cdev, hc]
      · have hx' : ¬ c = x := fun e => hx e.symm
        simp [bound_cdev, hc, hx, hx', Function.update_noteq hx]

theorem thermal_zone_device_clear_eq (tz : thermal_zone_device)
    (ops : thermal_zone_device_ops) (cdevs : Nat → thermal_cooling_device)
    (set_mode : thermal_device_mode → Int) (hmode : ops.set_mode = some set_mode)
    (hcdev : ∀ pos ∈ tz.thermal_instances, pos.cdev ≠ none) :
    thermal_zone_device_clear tz ops cdevs =
      some ({ tz with temperature := THERMAL_TEMP_INVALID
                      passive := 0
                      thermal_instances := tz.thermal_instances.map cleared_instance },
        (fun c => if bound_cdev tz.thermal_instances c then { cdevs c with updated := false }
          else cdevs c),
        zone_call.set_mode thermal_device_mode.THERMAL_DEVICE_DISABLED ::
          tz.thermal_instances.filterMap (fun pos => pos.cdev.map zone_call.thermal_cdev_update),
        set_mode thermal_device_mode.THERMAL_DEVICE_DISABLED) := by
  simp only [thermal_zone_device_clear, hmode,
    thermal_zone_device_clear_loop_eq tz.thermal_instances cdevs hcdev]

theorem filterMap_cdev_length (l : List thermal_instance) (h : ∀ pos ∈ l, pos.cdev ≠ none) :
    (l.filterMap (fun pos => pos.cdev.map zone_call.thermal_cdev_update)).length = l.length := by
  induction l with
  | nil => rfl
  | cons pos rest ih =>
    obtain ⟨c, hc⟩ := Option.ne_none_iff_exists'.mp (h pos (List.mem_cons_self _ _))
    simp [List.filterMap_cons, hc, ih (fun q hq => h q (List.mem_cons_of_mem _ hq))]

/-! ### Visibility of the `passive` attribute -/

theorem thermal_zone_passive_scan_eq (f : Nat → Int × thermal_trip_type) (l : List Nat) :
    thermal_zone_passive_scan (some f) l =
      some (l.any (fun i => (f i).2 = thermal_trip_type.THERMAL_TRIP_PASSIVE)) := by
  induction l with
  | nil => rfl
  | cons i l ih =>
    by_cases h : (f i).2 = thermal_trip_type.THERMAL_TRIP_PASSIVE
    · simp [thermal_zone_passive_scan, h]
    · simp [thermal_zone_passive_scan, h, ih]

theorem thermal_zone_passive_is_visible_eq (tz : thermal_zone_device)
    (ops : thermal_zone_device_ops) (attr_mode : Nat) (f : Nat → Int × thermal_trip_type)
    (hf : ops.get_trip_type = some f) :
    thermal_zone_passive_is_visible tz ops attr_mode =
      some (if has_passive_trip f tz.trips then 0 else attr_mode) := by
  simp only [thermal_zone_passive_is_visible, hf, thermal_zone_passive_scan_eq, has_passive_trip]
  by_cases h : (List.range tz.trips).any
      (fun i => (f i).2 = thermal_trip_type.THERMAL_TRIP_PASSIVE) = true
  · simp [h]
  · simp [h]

/-! ### Building the attribute groups -/

theorem foldl_proj {σ α ι : Type} (step : σ → ι → σ) (proj : σ → α) (g : α → ι → α)
    (h : ∀ st i, proj (step st i) = g (proj st) i) (l : List ι) :
    ∀ st, proj (l.foldl step st) = l.foldl g (proj st) := by
  induction l with
  | nil => intro st; rfl
  | cons i l ih => intro st; rw [List.foldl_cons, ih, h, List.foldl_cons]

theorem foldl_set_fill_getElem? {α : Type} (z : α) (g : α → Nat → α) (n k : Nat) (hk : k ≤ n)
    (j : Nat) :
    ((List.range k).foldl (fun arr i => arr.set i (g (arr.getD i z) i)) (List.replicate n z))[j]?
      = if j < k then some (g z j) else (List.replicate n z)[j]? := by
  induction k generalizing j with
  | zero => simp
  | succ k ih =>
    have hk' : k ≤ n := by omega
    rw [List.range_succ, List.foldl_append]
    simp only [List.foldl_cons, List.foldl_nil]
    have hlen : ((List.range k).foldl (fun arr i => arr.set i (g (arr.getD i z) i))
        (List.replicate n z)).length = n := by
      have : ∀ (l : List Nat) (arr : List α),
          (l.foldl (fun arr i => arr.set i (g (arr.getD i z) i)) arr).length = arr.length := by
        intro l
        induction l with
        | nil => intro arr; rfl
        | cons a l ih2 => intro arr; rw [List.foldl_cons, ih2, List.length_set]
      rw [this, List.length_replicate]
    have hget : ((List.range k).foldl (fun arr i => arr.set i (g (arr.getD i z) i))
        (List.replicate n z)).getD k z = z := by
      rw [List.getD_eq_getElem?_getD, ih hk' k]
      simp
    rw [List.getElem?_set, hget, hlen]
    by_cases h1 : k = j
    · subst h1
      rw [if_pos rfl, if_pos (show k < n by omega), if_pos (show k < k + 1 by omega)]
    · rw [if_neg h1, ih hk' j]
      by_cases h2 : j < k
      · rw [if_pos h2, if_pos (show j < k + 1 by omega)]
      · rw [if_neg h2, if_neg (show ¬ j < k + 1 by omega)]

theorem foldl_set_fill {α : Type} (z : α) (g : α → Nat → α) (n : Nat) :
    (List.range n).foldl (fun arr i => arr.set i (g (arr.getD i z) i)) (List.replicate n z) =
      (List.range n).map (g z) := by
  apply List.ext_getElem?
  intro j
  rw [foldl_set_fill_getElem? z g n n (Nat.le_refl n) j]
  by_cases h : j < n
  · simp [h]
  · rw [if_neg h, List.getElem?_eq_none (by simp; omega), List.getElem?_eq_none (by simp; omega)]

theorem create_trip_attrs_step_type (ops : thermal_zone_device_ops) (mask : Nat)
    (writable_trips : Bool) (trips : Nat) (st : trip_attr_arrays) (indx : Nat) :
    (create_trip_attrs_step ops mask writable_trips trips st indx).trip_type_attrs =
      st.trip_type_attrs.set indx
        (trip_type_fill (st.trip_type_attrs.getD indx thermal_attr_zero) indx) := by
  unfold create_trip_attrs_step trip_type_fill
  simp only []
  split_ifs <;> rfl

theorem create_trip_attrs_step_temp (ops : thermal_zone_device_ops) (mask : Nat)
    (writable_trips : Bool) (trips : Nat) (st : trip_attr_arrays) (indx : Nat) :
    (create_trip_attrs_step ops mask writable_trips trips st indx).trip_temp_attrs =
      st.trip_temp_attrs.set indx
        (trip_temp_fill mask writable_trips
          (st.trip_temp_attrs.getD indx thermal_attr_zero) indx) := by
  unfold create_trip_attrs_step trip_temp_fill
  simp only []
  split_ifs <;> rfl

theorem create_trip_attrs_step_hyst (ops : thermal_zone_device_ops) (mask : Nat)
    (writable_trips : Bool) (trips : Nat) (st : trip_attr_arrays) (indx : Nat) :
    (create_trip_attrs_step ops mask writable_trips trips st indx).trip_hyst_attrs =
      if ops.get_trip_hyst.isNone then st.trip_hyst_attrs
      else st.trip_hyst_attrs.set indx
        (trip_hyst_fill ops (st.trip_hyst_attrs.getD indx thermal_attr_zero) indx) := by
  unfold create_trip_attrs_step trip_hyst_fill
  simp only []
  split_ifs <;> rfl

theorem create_trip_attrs_step_attrs (ops : thermal_zone_device_ops) (mask : Nat)
    (writable_trips : Bool) (trips : Nat) (st : trip_attr_arrays) (indx : Nat) :
    (create_trip_attrs_step ops mask writable_trips trips st indx).attrs =
      trip_attrs_step ops.get_trip_hyst.isNone trips st.attrs indx := by
  unfold create_trip_attrs_step trip_attrs_step
  simp only []
  split_ifs <;> rfl

theorem trip_attrs_step_length (nohyst : Bool) (trips : Nat)
    (attrs : List (Option trip_attr_ptr)) (i : Nat) :
    (trip_attrs_step nohyst trips attrs i).length = attrs.length := by
  unfold trip_attrs_step
  split <;> simp

theorem trip_attrs_step_getElem? (nohyst : Bool) (trips : Nat)
    (attrs : List (Option trip_attr_ptr)) (i j : Nat) (hi : i < trips)
    (hlen : attrs.length = trips * 3 + 1) :
    (trip_attrs_step nohyst trips attrs i)[j]? =
      if nohyst = false ∧ j = i + trips * 2 then some (some (trip_attr_ptr.trip_hyst i))
      else if j = i + trips then some (some (trip_attr_ptr.trip_temp i))
      else if j = i then some (some (trip_attr_ptr.trip_type i))
      else attrs[j]? := by
  cases nohyst with
  | true =>
    simp only [trip_attrs_step, if_true, List.getElem?_set, List.length_set, hlen]
    split_ifs <;> first | rfl | omega | (exfalso; omega) | simp_all
  | false =>
    simp only [trip_attrs_step, Bool.false_eq_true, if_false, List.getElem?_set,
      List.length_set, hlen]
    split_ifs <;> first | rfl | omega | (exfalso; omega) | simp_all

theorem trip_attrs_fold_length (nohyst : Bool) (trips : Nat) (l : List Nat) :
    ∀ attrs : List (Option trip_attr_ptr),
      (l.foldl (trip_attrs_step nohyst trips) attrs).length = attrs.length := by
  induction l with
  | nil => intro attrs; rfl
  | cons a l ih => intro attrs; rw [List.foldl_cons, ih, trip_attrs_step_length]

theorem trip_attrs_fold_getElem? (nohyst : Bool) (trips k : Nat) (hk : k ≤ trips) (j : Nat) :
    ((List.range k).foldl (trip_attrs_step nohyst trips)
      (List.replicate (trips * 3 + 1) none))[j]? =
    if j < trips * 3 + 1 then
      some (if j < k then some (trip_attr_ptr.trip_type j)
        else if trips ≤ j ∧ j < trips + k then some (trip_attr_ptr.trip_temp (j - trips))
        else if nohyst = false ∧ trips * 2 ≤ j ∧ j < trips * 2 + k then
          some (trip_attr_ptr.trip_hyst (j - trips * 2))
        else none)
    else none := by
  induction k generalizing j with
  | zero =>
    simp only [List.range_zero, List.foldl_nil, List.getElem?_replicate]
    by_cases h : j < trips * 3 + 1
    · rw [if_pos h, if_pos h, if_neg (by omega), if_neg (by omega), if_neg (by omega)]
    · rw [if_neg h, if_neg h]
  | succ k ih =>
    have hk' : k ≤ trips := by omega
    rw [List.range_succ, List.foldl_append]
    simp only [List.foldl_cons, List.foldl_nil]
    rw [trip_attrs_step_getElem? nohyst trips _ k j (by omega)
      (by rw [trip_attrs_fold_length, List.length_replicate]), ih hk' j]
    by_cases h0 : nohyst = false ∧ j = k + trips * 2
    · have e : j - trips * 2 = k := by omega
      rw [if_pos h0, if_pos (show j < trips * 3 + 1 by omega),
        if_neg (show ¬ j < k + 1 by omega),
        if_neg (show ¬ (trips ≤ j ∧ j < trips + (k + 1)) by omega),
        if_pos (show nohyst = false ∧ trips * 2 ≤ j ∧ j < trips * 2 + (k + 1) from
          ⟨h0.1, by omega, by omega⟩), e]
    · rw [if_neg h0]
      by_cases h1 : j = k + trips
      · have e : j - trips = k := by omega
        rw [if_pos h1, if_pos (show j < trips * 3 + 1 by omega),
          if_neg (show ¬ j < k + 1 by omega),
          if_pos (show trips ≤ j ∧ j < trips + (k + 1) by omega), e]
      · rw [if_neg h1]
        by_cases h2 : j = k
        · rw [if_pos h2, if_pos (show j < trips * 3 + 1 by omega),
            if_pos (show j < k + 1 by omega), h2]
        · rw [if_neg h2]
          by_cases h3 : j < trips * 3 + 1
          · rw [if_pos h3, if_pos h3]
            congr 1
            by_cases h4 : j < k
            · rw [if_pos h4, if_pos (show j < k + 1 by omega)]
            · rw [if_neg h4, if_neg (show ¬ j < k + 1 by omega)]
              by_cases h5 : trips ≤ j ∧ j < trips + k
              · rw [if_pos h5, if_pos (show trips ≤ j ∧ j < trips + (k + 1) by omega)]
              · rw [if_neg h5, if_neg (show ¬ (trips ≤ j ∧ j < trips + (k + 1)) by omega)]
                by_cases h6 : nohyst = false ∧ trips * 2 ≤ j ∧ j < trips * 2 + k
                · rw [if_pos h6,
                    if_pos (show nohyst = false ∧ trips * 2 ≤ j ∧ j < trips * 2 + (k + 1) from
                      ⟨h6.1, by omega, by omega⟩)]
                · have h7 : ¬ (nohyst = false ∧ trips * 2 ≤ j ∧ j < trips * 2 + (k + 1)) := by
                    intro h7
                    by_cases h8 : j < trips * 2 + k
                    · exact h6 ⟨h7.1, h7.2.1, h8⟩
                    · exact h0 ⟨h7.1, by omega⟩
                  rw [if_neg h6, if_neg h7]
          · rw [if_neg h3, if_neg h3]

theorem trip_temp_attr_eq (mask : Nat) (writable_trips : Bool) (i : Nat) :
    trip_temp_fill mask writable_trips thermal_attr_zero i =
      trip_temp_attr mask writable_trips i := by
  simp only [trip_temp_attr, trip_temp_fill]
  split <;> rfl

theorem trip_hyst_attr_eq (ops : thermal_zone_device_ops) (i : Nat) :
    trip_hyst_fill ops thermal_attr_zero i = trip_hyst_attr ops i := by
  simp only [trip_hyst_attr, trip_hyst_fill]
  split <;> rfl

theorem trip_attrs_fold_eq (nohyst : Bool) (trips : Nat) :
    (List.range trips).foldl (trip_attrs_step nohyst trips)
      (List.replicate (trips * 3 + 1) none) =
    (List.range (trips * 3 + 1)).map (trip_attrs_entry (!nohyst) trips) := by
  apply List.ext_getElem?
  intro j
  rw [trip_attrs_fold_getElem? nohyst trips trips (Nat.le_refl _) j]
  by_cases h : j < trips * 3 + 1
  · rw [if_pos h, List.getElem?_map, List.getElem?_range h, Option.map_some']
    congr 1
    unfold trip_attrs_entry
    by_cases h1 : j < trips
    · rw [if_pos h1, if_pos h1]
    · rw [if_neg h1, if_neg h1]
      by_cases h2 : j < trips * 2
      · rw [if_pos (show trips ≤ j ∧ j < trips + trips by omega), if_pos h2]
      · rw [if_neg (show ¬ (trips ≤ j ∧ j < trips + trips) by omega), if_neg h2]
        cases nohyst with
        | true => simp
        | false =>
          by_cases h3 : j < trips * 3
          · rw [if_pos (show false = false ∧ trips * 2 ≤ j ∧ j < trips * 2 + trips from
              ⟨rfl, by omega, by omega⟩), if_pos (show (!false) = true ∧ j < trips * 3 from
              ⟨rfl, h3⟩)]
          · rw [if_neg (show ¬ (false = false ∧ trips * 2 ≤ j ∧ j < trips * 2 + trips) by omega),
              if_neg (show ¬ ((!false) = true ∧ j < trips * 3) from fun e => h3 e.2)]
  · rw [if_neg h, List.getElem?_eq_none (by simp; omega)]

theorem create_trip_attrs_loop (ops : thermal_zone_device_ops) (mask : Nat)
    (writable_trips : Bool) (trips : Nat) (hyst : List thermal_attr)
    (hhyst : ops.get_trip_hyst.isNone = false → hyst = List.replicate trips thermal_attr_zero) :
    (List.range trips).foldl (create_trip_attrs_step ops mask writable_trips trips)
      { trip_type_attrs := List.replicate trips thermal_attr_zero
        trip_temp_attrs := List.replicate trips thermal_attr_zero
        trip_hyst_attrs := hyst
        attrs := List.replicate (trips * 3 + 1) none } =
    { trip_type_attrs := (List.range trips).map trip_type_attr
      trip_temp_attrs := (List.range trips).map (trip_temp_attr mask writable_trips)
      trip_hyst_attrs :=
        if ops.get_trip_hyst.isNone then hyst else (List.range trips).map (trip_hyst_attr ops)
      attrs := (List.range (trips * 3 + 1)).map
        (trip_attrs_entry (!ops.get_trip_hyst.isNone) trips) } := by
  have h1 := foldl_proj (create_trip_attrs_step ops mask writable_trips trips)
    (fun st => st.trip_type_attrs)
    (fun arr i => arr.set i (trip_type_fill (arr.getD i thermal_attr_zero) i))
    (create_trip_attrs_step_type ops mask writable_trips trips) (List.range trips)
  have h2 := foldl_proj (create_trip_attrs_step ops mask writable_trips trips)
    (fun st => st.trip_temp_attrs)
    (fun arr i => arr.set i (trip_temp_fill mask writable_trips (arr.getD i thermal_attr_zero) i))
    (create_trip_attrs_step_temp ops mask writable_trips trips) (List.range trips)
  have h4 := foldl_proj (create_trip_attrs_step ops mask writable_trips trips)
    (fun st => st.attrs) (trip_attrs_step ops.get_trip_hyst.isNone trips)
    (create_trip_attrs_step_attrs ops mask writable_trips trips) (List.range trips)
  have h3 : ∀ st : trip_attr_arrays, st.trip_hyst_attrs = hyst →
      ((List.range trips).foldl (create_trip_attrs_step ops mask writable_trips trips)
        st).trip_hyst_attrs =
      if ops.get_trip_hyst.isNone then hyst else (List.range trips).map (trip_hyst_attr ops) := by
    intro st hst
    cases hn : ops.get_trip_hyst.isNone with
    | true =>
      have := foldl_proj (create_trip_attrs_step ops mask writable_trips trips)
        (fun st => st.trip_hyst_attrs) (fun arr _ => arr)
        (fun st i => by
          simp only [create_trip_attrs_step_hyst, hn, if_true]) (List.range trips) st
      simp only [this, if_true]
      rw [← hst]
      generalize st.trip_hyst_attrs = arr
      induction (List.range trips) with
      | nil => rfl
      | cons a l ih => simp [ih]
    | false =>
      have := foldl_proj (create_trip_attrs_step ops mask writable_trips trips)
        (fun st => st.trip_hyst_attrs)
        (fun arr i => arr.set i (trip_hyst_fill ops (arr.getD i thermal_attr_zero) i))
        (fun st i => by
          simp only [create_trip_attrs_step_hyst, hn, Bool.false_eq_true, if_false])
        (List.range trips) st
      simp only [this, hst, hhyst hn, Bool.false_eq_true, if_false]
      rw [foldl_set_fill thermal_attr_zero (trip_hyst_fill ops)]
      exact List.map_congr_left (fun i _ => trip_hyst_attr_eq ops i)
  rcases hst : (List.range trips).foldl (create_trip_attrs_step ops mask writable_trips trips)
      { trip_type_attrs := List.replicate trips thermal_attr_zero
        trip_temp_attrs := List.replicate trips thermal_attr_zero
        trip_hyst_attrs := hyst
        attrs := List.replicate (trips * 3 + 1) none } with ⟨a, b, c, d⟩
  have e1 := h1 { trip_type_attrs := List.replicate trips thermal_attr_zero
                  trip_temp_attrs := List.replicate trips thermal_attr_zero
                  trip_hyst_attrs := hyst
                  attrs := List.replicate (trips * 3 + 1) none }
  have e2 := h2 { trip_type_attrs := List.replicate trips thermal_attr_zero
                  trip_temp_attrs := List.replicate trips thermal_attr_zero
                  trip_hyst_attrs := hyst
                  attrs := List.replicate (trips * 3 + 1) none }
  have e3 := h3 { trip_type_attrs := List.replicate trips thermal_attr_zero
                  trip_temp_attrs := List.replicate trips thermal_attr_zero
                  trip_hyst_attrs := hyst
                  attrs := List.replicate (trips * 3 + 1) none } rfl
  have e4 := h4 { trip_type_attrs := List.replicate trips thermal_attr_zero
                  trip_temp_attrs := List.replicate trips thermal_attr_zero
                  trip_hyst_attrs := hyst
                  attrs := List.replicate (trips * 3 + 1) none }
  rw [hst] at e1 e2 e3 e4
  simp only [] at e1 e2 e3 e4
  rw [foldl_set_fill thermal_attr_zero trip_type_fill] at e1
  rw [foldl_set_fill thermal_attr_zero (trip_temp_fill mask writable_trips)] at e2
  rw [trip_attrs_fold_eq] at e4
  rw [e1, e2, e3, e4]
  have t1 : (List.range trips).map (trip_type_fill thermal_attr_zero) =
      (List.range trips).map trip_type_attr := List.map_congr_left (fun i _ => rfl)
  have t2 : (List.range trips).map (trip_temp_fill mask writable_trips thermal_attr_zero) =
      (List.range trips).map (trip_temp_attr mask writable_trips) :=
    List.map_congr_left (fun i _ => trip_temp_attr_eq mask writable_trips i)
  rw [t1, t2]

theorem null_terminated_length {α : Type} (n : Nat) :
    ∀ l : List (Option α), (∀ j, j < n → ∃ x, l[j]? = some (some x)) → l[n]? = some none →
      (null_terminated l).length = n := by
  induction n with
  | zero =>
    intro l _ h2
    cases l with
    | nil => simp at h2
    | cons a l =>
      simp at h2
      subst h2
      simp [null_terminated]
  | succ n ih =>
    intro l h1 h2
    cases l with
    | nil => simp at h2
    | cons a l =>
      obtain ⟨x, hx⟩ := h1 0 (by omega)
      simp at hx
      subst hx
      have := ih l (fun j hj => by simpa using h1 (j + 1) (by omega)) (by simpa using h2)
      simp only [null_terminated] at this ⊢
      simp [List.takeWhile_cons, this]

theorem trip_attrs_catalogue_length (has_hyst : Bool) (trips : Nat) :
    (null_terminated ((List.range (trips * 3 + 1)).map
      (trip_attrs_entry has_hyst trips))).length = (if has_hyst then 3 else 2) * trips := by
  apply null_terminated_length
  · intro j hj
    have hj' : j < trips * 3 + 1 := by split at hj <;> omega
    rw [List.getElem?_map, List.getElem?_range hj', Option.map_some']
    unfold trip_attrs_entry
    by_cases h1 : j < trips
    · exact ⟨_, by rw [if_pos h1]⟩
    · by_cases h2 : j < trips * 2
      · exact ⟨_, by rw [if_neg h1, if_pos h2]⟩
      · cases has_hyst with
        | false => simp at hj; omega
        | true =>
          simp at hj
          exact ⟨_, by rw [if_neg h1, if_neg h2, if_pos ⟨rfl, by omega⟩]⟩
  · have hlt : (if has_hyst then 3 else 2) * trips < trips * 3 + 1 := by split <;> omega
    rw [List.getElem?_map, List.getElem?_range hlt, Option.map_some']
    unfold trip_attrs_entry
    cases has_hyst with
    | false =>
      simp only [Bool.false_eq_true, if_false, false_and]
      by_cases h0 : trips = 0
      · subst h0; simp
      · rw [if_neg (show ¬ 2 * trips < trips by omega),
          if_neg (show ¬ 2 * trips < trips * 2 by omega)]
    | true =>
      simp only [if_true, true_and]
      by_cases h0 : trips = 0
      · subst h0; simp
      · rw [if_neg (show ¬ 3 * trips < trips by omega),
          if_neg (show ¬ 3 * trips < trips * 2 by omega),
          if_neg (show ¬ 3 * trips < trips * 3 by omega)]

theorem neg_ENOMEM_ne_zero : (-ENOMEM : Int) ≠ 0 := by decide

theorem neg_EINVAL_ne_zero : (-EINVAL : Int) ≠ 0 := by decide

theorem trip_attrs_set_last (has_hyst : Bool) (trips : Nat) :
    ((List.range (trips * 3 + 1)).map (trip_attrs_entry has_hyst trips)).set (trips * 3) none =
      (List.range (trips * 3 + 1)).map (trip_attrs_entry has_hyst trips) := by
  apply List.ext_getElem?
  intro j
  rw [List.getElem?_set]
  by_cases h : trips * 3 = j
  · subst h
    rw [if_pos rfl, if_pos (by simp), List.getElem?_map,
      List.getElem?_range (by omega), Option.map_some']
    unfold trip_attrs_entry
    by_cases h0 : trips = 0
    · subst h0; simp
    · rw [if_neg (show ¬ trips * 3 < trips by omega),
        if_neg (show ¬ trips * 3 < trips * 2 by omega),
        if_neg (show ¬ (has_hyst = true ∧ trips * 3 < trips * 3) by omega)]
  · rw [if_neg h]

theorem option_map_snd_getD {α : Type} (o : Option (Nat × List α)) :
    o.map (fun (q : Nat × List α) => (q.1, (o.map Prod.snd).getD [])) = o := by
  cases o <;> rfl

theorem create_trip_attrs_fill_ok (tz : thermal_zone_device) (ops : thermal_zone_device_ops)
    (mask : Nat) (writable_trips : Bool) (a : allocator) (p1 p2 : Nat)
    (h1 : tz.trip_type_attrs = some (p1, List.replicate tz.trips thermal_attr_zero))
    (h2 : tz.trip_temp_attrs = some (p2, List.replicate tz.trips thermal_attr_zero))
    (h3 : ops.get_trip_hyst.isNone = false →
      ∃ p3, tz.trip_hyst_attrs = some (p3, List.replicate tz.trips thermal_attr_zero))
    (hret : (create_trip_attrs_fill tz ops mask writable_trips a).2.2 = 0) :
    ∃ a' p4, kcalloc a = (a', some p4) ∧
      create_trip_attrs_fill tz ops mask writable_trips a =
        ({ tz with
            trip_type_attrs := some (p1, (List.range tz.trips).map trip_type_attr)
            trip_temp_attrs :=
              some (p2, (List.range tz.trips).map (trip_temp_attr mask writable_trips))
            trip_hyst_attrs :=
              if ops.get_trip_hyst.isNone then tz.trip_hyst_attrs
              else tz.trip_hyst_attrs.map (fun (q : Nat × List thermal_attr) =>
                (q.1, (List.range tz.trips).map (trip_hyst_attr ops)))
            trips_attribute_group_attrs :=
              some (p4, (List.range (tz.trips * 3 + 1)).map
                (trip_attrs_entry (!ops.get_trip_hyst.isNone) tz.trips)) }, a', 0) := by
  rcases hk : kcalloc a with ⟨a', p⟩
  cases p with
  | none =>
    simp only [create_trip_attrs_fill, hk] at hret
    exact absurd hret neg_ENOMEM_ne_zero
  | some p4 =>
    refine ⟨a', p4, rfl, ?_⟩
    have hloop := create_trip_attrs_loop ops mask writable_trips tz.trips
      ((tz.trip_hyst_attrs.map Prod.snd).getD [])
      (fun hn => by
        obtain ⟨p3, hp3⟩ := h3 hn
        rw [hp3]; rfl)
    simp only [create_trip_attrs_fill, hk, h1, h2, Option.map_some', Option.getD_some, hloop,
      trip_attrs_set_last]
    congr 2
    cases hn : ops.get_trip_hyst.isNone with
    | true =>
      simp only [if_true]
      exact option_map_snd_getD _
    | false =>
      simp only [Bool.false_eq_true, if_false]

theorem create_trip_attrs_ok (tz : thermal_zone_device) (ops : thermal_zone_device_ops)
    (mask : Nat) (writable_trips : Bool) (a : allocator)
    (hret : (create_trip_attrs tz ops mask writable_trips a).2.2 = 0) :
    tz.trips ≠ 0 ∧ ∃ a' p1 p2 p4 hyst,
      create_trip_attrs tz ops mask writable_trips a =
        ({ tz with
            trip_type_attrs := some (p1, (List.range tz.trips).map trip_type_attr)
            trip_temp_attrs :=
              some (p2, (List.range tz.trips).map (trip_temp_attr mask writable_trips))
            trip_hyst_attrs := hyst
            trips_attribute_group_attrs :=
              some (p4, (List.range (tz.trips * 3 + 1)).map
                (trip_attrs_entry (!ops.get_trip_hyst.isNone) tz.trips)) }, a', 0) ∧
      (ops.get_trip_hyst.isNone = true → hyst = tz.trip_hyst_attrs) ∧
      (ops.get_trip_hyst.isNone = false →
        ∃ p3, hyst = some (p3, (List.range tz.trips).map (trip_hyst_attr ops))) := by
  unfold create_trip_attrs at hret ⊢
  by_cases h0 : tz.trips = 0
  · rw [if_pos h0] at hret
    exact absurd hret neg_EINVAL_ne_zero
  refine ⟨h0, ?_⟩
  rw [if_neg h0] at hret ⊢
  rcases hk1 : kcalloc a with ⟨a1, p⟩
  rw [hk1] at hret
  cases p with
  | none => exact absurd hret neg_ENOMEM_ne_zero
  | some p1 =>
    simp only [] at hret ⊢
    rcases hk2 : kcalloc a1 with ⟨a2, p⟩
    rw [hk2] at hret
    cases p with
    | none => exact absurd hret neg_ENOMEM_ne_zero
    | some p2 =>
      simp only [] at hret ⊢
      cases hn : ops.get_trip_hyst.isNone with
      | true =>
        have hs : ops.get_trip_hyst.isSome = false := by
          cases hg : ops.get_trip_hyst <;> simp_all
        simp only [hs, Bool.false_eq_true, if_false] at hret ⊢
        obtain ⟨a', p4, -, hfill⟩ := create_trip_attrs_fill_ok _ ops mask writable_trips a2 p1 p2
          rfl rfl (fun h => by rw [hn] at h; exact absurd h (by decide)) hret
        refine ⟨a', p1, p2, p4, tz.trip_hyst_attrs, ?_, fun _ => rfl,
          fun h => absurd h (by decide)⟩
        rw [hfill]
        simp only [hn, if_true]
      | false =>
        have hs : ops.get_trip_hyst.isSome = true := by
          cases hg : ops.get_trip_hyst <;> simp_all
        simp only [hs, if_true] at hret ⊢
        rcases hk3 : kcalloc a2 with ⟨a3, p⟩
        rw [hk3] at hret
        cases p with
        | none => exact absurd hret neg_ENOMEM_ne_zero
        | some p3 =>
          simp only [] at hret ⊢
          obtain ⟨a', p4, -, hfill⟩ := create_trip_attrs_fill_ok _ ops mask writable_trips a3
            p1 p2 rfl rfl (fun _ => ⟨p3, rfl⟩) hret
          refine ⟨a', p1, p2, p4, some (p3, (List.range tz.trips).map (trip_hyst_attr ops)), ?_,
            fun h => absurd h (by decide), fun _ => ⟨p3, rfl⟩⟩
          rw [hfill]
          simp only [hn, Bool.false_eq_true, if_false, Option.map_some']

theorem mask_bit_iff (mask i : Nat) : mask &&& (1 <<< i) ≠ 0 ↔ mask.testBit i = true := by
  rw [Nat.one_shiftLeft, Nat.and_two_pow]
  have hpos : 0 < 2 ^ i := Nat.two_pow_pos i
  cases h : mask.testBit i with
  | true => simp
  | false => simp

theorem static_device_groups_eq :
    static_device_groups 5 =
      [some attribute_group_ptr.thermal_zone_attribute_group,
       some attribute_group_ptr.thermal_zone_mode_attribute_group,
       some attribute_group_ptr.thermal_zone_passive_attribute_group, none, none] := by
  decide

theorem create_device_groups_ok (tz : thermal_zone_device) (ops : thermal_zone_device_ops)
    (mask : Nat) (writable_trips : Bool) (a : allocator)
    (hret : (thermal_zone_create_device_groups tz ops mask writable_trips a).2.2 = 0) :
    ∃ a1 p, kcalloc a = (a1, some p) ∧
      (tz.trips = 0 →
        thermal_zone_create_device_groups tz ops mask writable_trips a =
          ({ tz with device_groups := some (p, static_device_groups 5) }, a1, 0)) ∧
      (tz.trips ≠ 0 →
        (create_trip_attrs tz ops mask writable_trips a1).2.2 = 0 ∧
        thermal_zone_create_device_groups tz ops mask writable_trips a =
          ({ (create_trip_attrs tz ops mask writable_trips a1).1 with
              device_groups := some (p, (static_device_groups 5).set 3
                (some attribute_group_ptr.trips_attribute_group)) },
            (create_trip_attrs tz ops mask writable_trips a1).2.1, 0)) := by
  unfold thermal_zone_create_device_groups at hret ⊢
  rcases hk : kcalloc a with ⟨a1, p⟩
  rw [hk] at hret
  cases p with
  | none => exact absurd hret neg_ENOMEM_ne_zero
  | some p =>
    refine ⟨a1, p, rfl, ?_, ?_⟩
    · intro h0
      simp only [h0, ne_eq, not_true_eq_false, if_false]
    · intro h0
      simp only [ne_eq, h0, not_false_eq_true, if_true] at hret ⊢
      rcases hc : create_trip_attrs tz ops mask writable_trips a1 with ⟨tz1, a2, result⟩
      rw [hc] at hret
      simp only [] at hret ⊢
      by_cases hr : result = 0
      · subst hr
        simp
      · rw [if_pos hr] at hret
        exact absurd hret hr

/-! ### The `config` report -/

theorem take_min_length (t : List Char) (k : Nat) : t.take (min t.length k) = t.take k := by
  by_cases h : t.length ≤ k
  · rw [Nat.min_eq_left h, List.take_length, List.take_of_length_le h]
  · rw [Nat.min_eq_right (by omega)]

theorem scnprintf_at_page_of (size : Nat) (text t : List Char) :
    scnprintf_at size (page_of size text) t = page_of size (text ++ t) := by
  unfold scnprintf_at scnprintf page_of
  simp only []
  by_cases hs : size - min text.length (size - 1) = 0
  · have h0 : size = 0 := by omega
    subst h0
    simp
  · rw [if_neg hs]
    have hlen : (List.take (size - 1) text).length = min text.length (size - 1) := by
      rw [List.length_take]; omega
    rw [if_pos (by rw [hlen])]
    refine Prod.ext ?_ ?_
    · simp only []
      rw [List.take_append_eq_append_take]
      congr 1
      · rw [← hlen, List.take_length]
      · by_cases hl : text.length ≤ size - 1
        · rw [Nat.min_eq_left hl, take_min_length,
            show size - text.length - 1 = size - 1 - text.length by omega]
        · have e1 : min text.length (size - 1) = size - 1 := by omega
          have e2 : size - (size - 1) - 1 = 0 := by omega
          have e3 : size - 1 - text.length = 0 := by omega
          rw [e1, e2, e3]; simp
    · simp only [List.length_append]
      omega
theorem page_of_fits (size : Nat) (text : List Char) (h : text.length < size) :
    page_of size text = (text, text.length) := by
  unfold page_of
  rw [List.take_of_length_le (by omega), Nat.min_eq_left (by omega)]

theorem scnprintf_page_of (size : Nat) (text t : List Char) :
    scnprintf (page_of size text).1 (page_of size text).2 (size - (page_of size text).2) t =
      ((page_of size (text ++ t)).1, (page_of size (text ++ t)).2 - (page_of size text).2) := by
  have h := scnprintf_at_page_of size text t
  unfold scnprintf_at at h
  simp only [] at h
  have h1 := congrArg Prod.fst h
  have h2 := congrArg Prod.snd h
  simp only [] at h1 h2
  refine Prod.ext h1 ?_
  simp only []
  omega

theorem page_of_mono (size : Nat) (text t : List Char) :
    (page_of size text).2 ≤ (page_of size (text ++ t)).2 := by
  unfold page_of
  simp only [List.length_append]
  omega

theorem fetch_and_populate_temp (ops : thermal_zone_device_ops) (f : Nat → Int × Int)
    (hf : ops.get_trip_temp = some f) (size i : Nat) (text : List Char) (h0 : (f i).1 = 0) :
    fetch_and_populate (page_of size text).1 ops i (page_of size text).2 size false =
      (((page_of size (text ++ (fmt_d (f i).2 ++ " ".toList))).2 : Int),
        (page_of size (text ++ (fmt_d (f i).2 ++ " ".toList))).1) := by
  have hm := page_of_mono size text (fmt_d (f i).2 ++ " ".toList)
  unfold fetch_and_populate
  simp only [Bool.not_false, if_true, hf, h0, ne_eq, not_true_eq_false, if_false]
  rw [scnprintf_page_of]
  simp only []
  congr 2
  omega

theorem fetch_and_populate_hyst (ops : thermal_zone_device_ops) (g : Nat → Int × Int)
    (hg : ops.get_trip_hyst = some g) (size i : Nat) (text : List Char) (h0 : (g i).1 = 0) :
    fetch_and_populate (page_of size text).1 ops i (page_of size text).2 size true =
      (((page_of size (text ++ (fmt_d (g i).2 ++ " ".toList))).2 : Int),
        (page_of size (text ++ (fmt_d (g i).2 ++ " ".toList))).1) := by
  have hm := page_of_mono size text (fmt_d (g i).2 ++ " ".toList)
  unfold fetch_and_populate
  simp only [Bool.not_true, Bool.false_eq_true, if_false, hg, h0, ne_eq, not_true_eq_false]
  rw [scnprintf_page_of]
  simp only []
  congr 2
  omega

theorem config_hyst_list_cons (ops : thermal_zone_device_ops) (i : Nat) (l : List Nat) :
    config_hyst_list ops (i :: l) = config_hyst_list ops [i] ++ config_hyst_list ops l := by
  unfold config_hyst_list
  cases ops.get_trip_hyst with
  | none => rfl
  | some g => simp [config_value_list]

theorem config_show_trip_ok (ops : thermal_zone_device_ops) (f : Nat → Int × Int)
    (hf : ops.get_trip_temp = some f) (size i : Nat) (h0 : (f i).1 = 0)
    (hh : ∀ g, ops.get_trip_hyst = some g → (g i).1 = 0)
    (bt : List Char × Nat) (temps hysts : List Char) :
    config_show_trip ops size (trip_bufs_of size bt temps hysts) i =
      Except.ok (trip_bufs_of size (config_trip_index size bt i)
        (temps ++ config_value_list f [i]) (hysts ++ config_hyst_list ops [i])) := by
  have hv : config_value_list f [i] = fmt_d (f i).2 ++ " ".toList := by
    simp [config_value_list]
  unfold config_show_trip
  simp only [trip_bufs_of]
  rw [fetch_and_populate_temp ops f hf size i temps h0]
  simp only []
  rw [if_neg (by omega)]
  cases hg : ops.get_trip_hyst with
  | none =>
    simp only [Option.isNone_none, if_true, config_hyst_list, hg, List.append_nil,
      Int.toNat_ofNat, hv, config_trip_index]
  | some g =>
    simp only [Option.isNone_some, Bool.false_eq_true, if_false]
    rw [fetch_and_populate_hyst ops g hg size i hysts (hh g hg)]
    simp only []
    rw [if_neg (by omega)]
    simp only [config_hyst_list, hg, Int.toNat_ofNat, hv, config_trip_index, config_value_list,
      List.map_cons, List.map_nil, List.flatten_cons, List.flatten_nil, List.append_nil]

theorem config_show_trips_ok (ops : thermal_zone_device_ops) (f : Nat → Int × Int)
    (hf : ops.get_trip_temp = some f) (size : Nat) (l : List Nat) :
    ∀ (bt : List Char × Nat) (temps hysts : List Char),
      (∀ i ∈ l, (f i).1 = 0) → (∀ g, ops.get_trip_hyst = some g → ∀ i ∈ l, (g i).1 = 0) →
      config_show_trips ops size l (trip_bufs_of size bt temps hysts) =
        Except.ok (trip_bufs_of size (l.foldl (config_trip_index size) bt)
          (temps ++ config_value_list f l) (hysts ++ config_hyst_list ops l)) := by
  induction l with
  | nil =>
    intro bt temps hysts _ _
    have e : config_hyst_list ops [] = [] := by
      unfold config_hyst_list
      cases ops.get_trip_hyst <;> rfl
    simp [config_show_trips, config_value_list, e]
  | cons i l ih =>
    intro bt temps hysts h0 hh
    unfold config_show_trips
    rw [config_show_trip_ok ops f hf size i (h0 i (List.mem_cons_self i l))
      (fun g hg => hh g hg i (List.mem_cons_self i l)) bt temps hysts]
    simp only []
    rw [ih _ _ _ (fun j hj => h0 j (List.mem_cons_of_mem i hj))
      (fun g hg j hj => hh g hg j (List.mem_cons_of_mem i hj))]
    rw [config_hyst_list_cons ops i l]
    simp [config_value_list]

theorem config_show_instance_eq (cdevs : Nat → thermal_cooling_device) (size i : Nat)
    (names uppers lowers : List Char) (first : Bool) (pos : thermal_instance) :
    config_show_instance cdevs size i (cdev_bufs_of size names uppers lowers, first) pos =
      if bound_to_trip i pos = true then
        (cdev_bufs_of size
          (names ++ config_entries first [instance_cdev_type cdevs pos])
          (uppers ++ config_entries first [fmt_d pos.upper])
          (lowers ++ config_entries first [fmt_d pos.lower]), false)
      else (cdev_bufs_of size names uppers lowers, first) := by
  unfold config_show_instance
  by_cases h : pos.cdev.isNone ∨ pos.trip ≠ (i : Int)
  · have hb : ¬ bound_to_trip i pos = true := by
      unfold bound_to_trip
      rcases h with h | h
      · simp [Option.isNone_iff_eq_none.mp h]
      · simp [h]
    rw [if_pos h, if_neg hb]
  · have h1 : pos.cdev.isSome = true := by
      cases hc : pos.cdev with
      | none => exact absurd (Or.inl (by simp [hc])) h
      | some c => rfl
    have h2 : pos.trip = (i : Int) := by
      by_contra hne
      exact h (Or.inr hne)
    have hb : bound_to_trip i pos = true := by
      unfold bound_to_trip
      simp [h1, h2]
    rw [if_neg h, if_pos hb]
    simp only [cdev_bufs_of, config_entries, List.append_nil]
    have e : ∀ (text t : List Char),
        scnprintf_at size ((page_of size text).1, (page_of size text).2) t =
          page_of size (text ++ t) := fun text t => scnprintf_at_page_of size text t
    rw [e, e, e]

theorem config_show_instances_eq (cdevs : Nat → thermal_cooling_device) (size i : Nat)
    (l : List thermal_instance) :
    ∀ (names uppers lowers : List Char) (first : Bool),
      l.foldl (config_show_instance cdevs size i) (cdev_bufs_of size names uppers lowers, first) =
        (cdev_bufs_of size
          (names ++ config_entries first
            ((l.filter (bound_to_trip i)).map
              (instance_cdev_type cdevs)))
          (uppers ++ config_entries first
            ((l.filter (bound_to_trip i)).map
              (fun pos => fmt_d pos.upper)))
          (lowers ++ config_entries first
            ((l.filter (bound_to_trip i)).map
              (fun pos => fmt_d pos.lower))),
          first &&
            (l.filter (bound_to_trip i)).isEmpty) := by
  induction l with
  | nil =>
    intro names uppers lowers first
    simp [config_entries]
  | cons pos l ih =>
    intro names uppers lowers first
    rw [List.foldl_cons, config_show_instance_eq]
    by_cases h : bound_to_trip i pos = true
    · rw [if_pos h, ih, List.filter_cons_of_pos h]
      simp only [List.map_cons, List.isEmpty_cons, Bool.and_false, Bool.false_and]
      simp only [config_entries, List.append_nil, List.append_assoc]
    · rw [if_neg h, ih, List.filter_cons_of_neg h]

theorem config_entries_group (texts : List (List Char)) :
    config_entries true texts = config_group texts := by
  have hrest : ∀ (x : List Char) (rest : List (List Char)),
      x ++ config_entries false rest = "+".toList.intercalate (x :: rest) := by
    intro x rest
    induction rest generalizing x with
    | nil => simp [config_entries, List.intercalate]
    | cons y rest ih =>
      simp only [config_entries, Bool.false_eq_true, if_false, List.append_assoc]
      rw [ih y]
      simp [List.intercalate]
  cases texts with
  | nil => rfl
  | cons x rest =>
    simp only [config_entries, if_true, config_group, List.append_assoc]
    rw [hrest x rest]

theorem config_show_cdevs_fold (tz : thermal_zone_device)
    (cdevs : Nat → thermal_cooling_device) (size : Nat) (l : List Nat) :
    ∀ (names uppers lowers : List Char),
      l.foldl (fun b i =>
          (tz.thermal_instances.foldl (config_show_instance cdevs size i) (b, true)).1)
        (cdev_bufs_of size names uppers lowers) =
      cdev_bufs_of size
        (names ++ (l.map (fun i =>
          config_group ((trip_bindings tz i).map (instance_cdev_type cdevs)))).flatten)
        (uppers ++ (l.map (fun i =>
          config_group ((trip_bindings tz i).map (fun pos => fmt_d pos.upper)))).flatten)
        (lowers ++ (l.map (fun i =>
          config_group ((trip_bindings tz i).map (fun pos => fmt_d pos.lower)))).flatten) := by
  induction l with
  | nil =>
    intro names uppers lowers
    simp
  | cons i l ih =>
    intro names uppers lowers
    rw [List.foldl_cons, config_show_instances_eq]
    simp only []
    rw [ih]
    simp only [config_entries_group, trip_bindings, List.map_cons, List.flatten_cons,
      List.append_assoc]

theorem config_show_cdevs_eq (tz : thermal_zone_device)
    (cdevs : Nat → thermal_cooling_device) (size : Nat) :
    config_show_cdevs tz cdevs size =
      cdev_bufs_of size (config_cdev_list tz (instance_cdev_type cdevs))
        (config_cdev_list tz (fun pos => fmt_d pos.upper))
        (config_cdev_list tz (fun pos => fmt_d pos.lower)) := by
  have h := config_show_cdevs_fold tz cdevs size (List.range tz.trips) [] [] []
  simp only [List.nil_append] at h
  unfold config_show_cdevs config_cdev_list
  rw [← h]
  congr 1
  simp [cdev_bufs_of, page_of]

theorem page_of_nil (size : Nat) : page_of size [] = ([], 0) := by
  simp [page_of]

theorem config_show_head (page_size : Nat) (tz : thermal_zone_device) :
    scnprintf_at page_size
      (scnprintf_at page_size
        (scnprintf_at page_size
          (scnprintf_at page_size ([], 0)
            ("sensor ".toList ++ tz.type.toList ++ "\n".toList))
          ("algo_type ".toList ++ tz.governor_name.toList ++ "\n".toList))
        ("polling_delay ".toList ++ fmt_d tz.polling_delay ++ "\n".toList))
      ("passive_delay ".toList ++ fmt_d tz.passive_delay ++ "\n".toList) =
    page_of page_size (config_head tz) := by
  rw [← page_of_nil page_size, scnprintf_at_page_of, scnprintf_at_page_of,
    scnprintf_at_page_of, scnprintf_at_page_of]
  rfl

theorem config_show_no_trips (page_size : Nat) (tz : thermal_zone_device)
    (ops : thermal_zone_device_ops) (cdevs : Nat → thermal_cooling_device) (kzalloc_ok : Bool)
    (h : tz.trips = 0 ∨ ops.get_trip_temp.isNone = true) :
    config_show page_size tz ops cdevs kzalloc_ok =
      (((page_of page_size (config_head tz)).2 : Int), (page_of page_size (config_head tz)).1) := by
  unfold config_show
  simp only [config_show_head]
  rw [if_pos h]

theorem config_show_error (page_size : Nat) (tz : thermal_zone_device)
    (ops : thermal_zone_device_ops) (cdevs : Nat → thermal_cooling_device)
    (hT : tz.trips ≠ 0) (hf : ops.get_trip_temp.isNone = false) (ret : Int)
    (hloop : config_show_trips ops (tz.trips * UINT_MAX_CHARACTER) (List.range tz.trips)
      { buf_trip := [], buf_offset := 0, buf_temp := [], buf1_offset := 0,
        buf_hyst := [], buf2_offset := 0 } = Except.error ret) :
    config_show page_size tz ops cdevs true = (ret, (page_of page_size (config_head tz)).1) := by
  unfold config_show
  simp only [config_show_head]
  rw [if_neg (by simp [hT, hf])]
  simp only [Bool.not_true, Bool.false_eq_true, if_false, hloop]

theorem config_show_ok (page_size : Nat) (tz : thermal_zone_device)
    (ops : thermal_zone_device_ops) (cdevs : Nat → thermal_cooling_device)
    (hT : tz.trips ≠ 0) (hf : ops.get_trip_temp.isNone = false) (t : config_trip_bufs)
    (hloop : config_show_trips ops (tz.trips * UINT_MAX_CHARACTER) (List.range tz.trips)
      { buf_trip := [], buf_offset := 0, buf_temp := [], buf1_offset := 0,
        buf_hyst := [], buf2_offset := 0 } = Except.ok t) :
    config_show page_size tz ops cdevs true =
      (((page_of page_size (config_head tz ++ config_trip_lines t ++
          (if tz.thermal_instances.countP (fun pos => pos.cdev.isSome) = 0 then []
           else config_cdev_lines (config_show_cdevs tz cdevs
            (tz.thermal_instances.countP (fun pos => pos.cdev.isSome) *
              THERMAL_NAME_LENGTH))))).2 : Int),
        (page_of page_size (config_head tz ++ config_trip_lines t ++
          (if tz.thermal_instances.countP (fun pos => pos.cdev.isSome) = 0 then []
           else config_cdev_lines (config_show_cdevs tz cdevs
            (tz.thermal_instances.countP (fun pos => pos.cdev.isSome) *
              THERMAL_NAME_LENGTH))))).1) := by
  unfold config_show
  simp only [config_show_head]
  rw [if_neg (by simp [hT, hf])]
  simp only [Bool.not_true, Bool.false_eq_true, if_false, hloop, scnprintf_at_page_of]
  have hlines : (if t.buf2_offset ≠ 0 then
        page_of page_size (config_head tz ++ ("trip ".toList ++ t.buf_trip ++ "\n".toList) ++
            ("set_temp ".toList ++ t.buf_temp ++ "\n".toList) ++
            ("clr_temp ".toList ++ t.buf_hyst ++ "\n".toList))
      else page_of page_size (config_head tz ++ ("trip ".toList ++ t.buf_trip ++ "\n".toList) ++
            ("set_temp ".toList ++ t.buf_temp ++ "\n".toList))) =
      page_of page_size (config_head tz ++ config_trip_lines t) := by
    unfold config_trip_lines
    by_cases h2 : t.buf2_offset ≠ 0
    · rw [if_pos h2, if_pos h2]
      simp only [List.append_assoc]
    · rw [if_neg h2, if_neg h2]
      simp only [List.append_assoc, List.append_nil]
  rw [hlines]
  by_cases hc : tz.thermal_instances.countP (fun pos => pos.cdev.isSome) = 0
  · rw [if_pos hc, if_pos hc, List.append_nil]
  · rw [if_neg hc, if_neg hc]
    simp only [scnprintf_at_page_of, config_cdev_lines, List.append_assoc]

theorem fetch_and_populate_ret (buf : List Char) (ops : thermal_zone_device_ops)
    (i offset size : Nat) (is_hyst : Bool) (accessor : Nat → Int × Int)
    (hacc : (if !is_hyst then ops.get_trip_temp else ops.get_trip_hyst) = some accessor) :
    ((accessor i).1 < 0 →
      (fetch_and_populate buf ops i offset size is_hyst).1 = (accessor i).1) ∧
    (0 ≤ (accessor i).1 → 0 ≤ (fetch_and_populate buf ops i offset size is_hyst).1) := by
  unfold fetch_and_populate
  simp only [hacc]
  by_cases h0 : (accessor i).1 = 0
  · rw [if_neg (by simp [h0])]
    simp only []
    constructor
    · intro h; omega
    · intro _; omega
  · rw [if_pos h0]
    exact ⟨fun _ => rfl, fun h => h⟩

theorem config_show_trip_cases (ops : thermal_zone_device_ops) (f : Nat → Int × Int)
    (hf : ops.get_trip_temp = some f) (size : Nat) (st : config_trip_bufs) (i : Nat) :
    ((f i).1 < 0 → config_show_trip ops size st i = Except.error (f i).1) ∧
    (0 ≤ (f i).1 → ∀ g, ops.get_trip_hyst = some g → (g i).1 < 0 →
      config_show_trip ops size st i = Except.error (g i).1) ∧
    (0 ≤ (f i).1 → (∀ g, ops.get_trip_hyst = some g → 0 ≤ (g i).1) →
      ∃ st', config_show_trip ops size st i = Except.ok st') := by
  have htemp : ∀ buf offset,
      ((f i).1 < 0 → (fetch_and_populate buf ops i offset size false).1 = (f i).1) ∧
      (0 ≤ (f i).1 → 0 ≤ (fetch_and_populate buf ops i offset size false).1) :=
    fun buf offset => fetch_and_populate_ret buf ops i offset size false f (by simp [hf])
  refine ⟨?_, ?_, ?_⟩
  · intro hneg
    unfold config_show_trip
    simp only []
    rw [if_pos (by rw [(htemp _ _).1 hneg]; exact hneg), (htemp _ _).1 hneg]
  · intro hpos g hg hneg
    have hhyst : ∀ buf offset,
        (fetch_and_populate buf ops i offset size true).1 = (g i).1 :=
      fun buf offset =>
        (fetch_and_populate_ret buf ops i offset size true g (by simp [hg])).1 hneg
    unfold config_show_trip
    simp only []
    rw [if_neg (by have := (htemp st.buf_temp st.buf1_offset).2 hpos; omega)]
    rw [if_neg (by simp [hg])]
    rw [if_pos (by rw [hhyst]; exact hneg), hhyst]
  · intro hpos hh
    unfold config_show_trip
    simp only []
    rw [if_neg (by have := (htemp st.buf_temp st.buf1_offset).2 hpos; omega)]
    cases hg : ops.get_trip_hyst with
    | none =>
      rw [if_pos (by simp)]
      exact ⟨_, rfl⟩
    | some g =>
      have hhyst : ∀ buf offset, 0 ≤ (fetch_and_populate buf ops i offset size true).1 :=
        fun buf offset =>
          (fetch_and_populate_ret buf ops i offset size true g (by simp [hg])).2 (hh g hg)
      rw [if_neg (by simp)]
      rw [if_neg (by have := hhyst st.buf_hyst st.buf2_offset; omega)]
      exact ⟨_, rfl⟩

theorem config_show_trips_succeeds (ops : thermal_zone_device_ops) (f : Nat → Int × Int)
    (hf : ops.get_trip_temp = some f) (size : Nat) (l : List Nat) :
    ∀ st : config_trip_bufs,
      (∀ i ∈ l, 0 ≤ (f i).1) → (∀ g, ops.get_trip_hyst = some g → ∀ i ∈ l, 0 ≤ (g i).1) →
      ∃ t, config_show_trips ops size l st = Except.ok t := by
  induction l with
  | nil => exact fun st _ _ => ⟨st, rfl⟩
  | cons i l ih =>
    intro st h0 hh
    obtain ⟨st', hst⟩ := (config_show_trip_cases ops f hf size st i).2.2
      (h0 i (List.mem_cons_self i l)) (fun g hg => hh g hg i (List.mem_cons_self i l))
    obtain ⟨t, ht⟩ := ih st' (fun j hj => h0 j (List.mem_cons_of_mem i hj))
      (fun g hg j hj => hh g hg j (List.mem_cons_of_mem i hj))
    refine ⟨t, ?_⟩
    unfold config_show_trips
    rw [hst]
    exact ht

theorem config_show_trips_fails (ops : thermal_zone_device_ops) (f : Nat → Int × Int)
    (hf : ops.get_trip_temp = some f) (size : Nat) (l : List Nat) :
    ∀ st : config_trip_bufs,
      (∃ i ∈ l, (f i).1 < 0 ∨ ∃ g, ops.get_trip_hyst = some g ∧ (g i).1 < 0) →
      ∃ ret j, config_show_trips ops size l st = Except.error ret ∧ ret < 0 ∧ j ∈ l ∧
        (ret = (f j).1 ∨ ∃ g, ops.get_trip_hyst = some g ∧ ret = (g j).1) := by
  induction l with
  | nil =>
    intro st h
    obtain ⟨i, hi, _⟩ := h
    exact absurd hi (List.not_mem_nil i)
  | cons i l ih =>
    intro st h
    have hc := config_show_trip_cases ops f hf size st i
    by_cases hfi : (f i).1 < 0
    · refine ⟨(f i).1, i, ?_, hfi, List.mem_cons_self i l, Or.inl rfl⟩
      unfold config_show_trips
      rw [hc.1 hfi]
    · have hpos : 0 ≤ (f i).1 := by omega
      by_cases hgi : ∃ g, ops.get_trip_hyst = some g ∧ (g i).1 < 0
      · obtain ⟨g, hg, hneg⟩ := hgi
        refine ⟨(g i).1, i, ?_, hneg, List.mem_cons_self i l, Or.inr ⟨g, hg, rfl⟩⟩
        unfold config_show_trips
        rw [hc.2.1 hpos g hg hneg]
      · obtain ⟨st', hst⟩ := hc.2.2 hpos (fun g hg => by
          by_contra hlt
          exact hgi ⟨g, hg, by omega⟩)
        have hrest : ∃ j ∈ l, (f j).1 < 0 ∨ ∃ g, ops.get_trip_hyst = some g ∧ (g j).1 < 0 := by
          obtain ⟨j, hj, hbad⟩ := h
          rcases List.mem_cons.mp hj with e | hj'
          · subst e
            rcases hbad with hb | hb
            · exact absurd hb hfi
            · exact absurd hb hgi
          · exact ⟨j, hj', hbad⟩
        obtain ⟨ret, j, hret, hneg, hj, hwho⟩ := ih st' hrest
        refine ⟨ret, j, ?_, hneg, List.mem_cons_of_mem i hj, hwho⟩
        unfold config_show_trips
        rw [hst]
        exact hret

set_option maxRecDepth 100000 in
theorem config_show_long_name_sample :
    config_show 4096 scenario_zone sample_ops long_name_cdevs true =
      (182, ("sensor cpu-thermal\nalgo_type step_wise\npolling_delay 0\npassive_delay 250\n" ++
        "trip 0 1 \nset_temp 85000 70000 \nclr_temp 2000 1000 \n" ++
        "device  thermal-devfreq-gp\nupper_limit  3\nlower_limit  0\n").toList) := by
  decide

theorem take_eq_self_of_length_lt (l : List Char) (n : Nat) (h : (l.take n).length < n) :
    l.take n = l := by
  rw [List.length_take] at h
  exact List.take_of_length_le (by omega)

theorem config_value_list_length_pos (g : Nat → Int × Int) (n : Nat) (hn : n ≠ 0) :
    (config_value_list g (List.range n)).length ≠ 0 := by
  have h := flatten_map_length_ge 1 (fun i => fmt_d (g i).2 ++ " ".toList)
    (fun i => by simp) (List.range n)
  rw [List.length_range] at h
  unfold config_value_list
  omega

theorem config_show_trips_lines (tz : thermal_zone_device) (ops : thermal_zone_device_ops)
    (f : Nat → Int × Int) (hT : tz.trips ≠ 0) (hf : ops.get_trip_temp = some f)
    (h0 : ∀ i, i < tz.trips → (f i).1 = 0)
    (hh : ∀ g, ops.get_trip_hyst = some g → ∀ i, i < tz.trips → (g i).1 = 0)
    (hfit : (config_value_list f (List.range tz.trips)).length < tz.trips * UINT_MAX_CHARACTER)
    (hhfit : (config_hyst_list ops (List.range tz.trips)).length <
      tz.trips * UINT_MAX_CHARACTER) :
    ∃ t, config_show_trips ops (tz.trips * UINT_MAX_CHARACTER) (List.range tz.trips)
        { buf_trip := [], buf_offset := 0, buf_temp := [], buf1_offset := 0,
          buf_hyst := [], buf2_offset := 0 } = Except.ok t ∧
      config_trip_lines t =
        "trip ".toList ++ config_trip_list tz.trips ++ "\n".toList ++
        ("set_temp ".toList ++ config_value_list f (List.range tz.trips) ++ "\n".toList) ++
        config_hyst_line ops (List.range tz.trips) := by
  have hinit : trip_bufs_of (tz.trips * UINT_MAX_CHARACTER) ([], 0) [] [] =
      ⟨[], 0, [], 0, [], 0⟩ := by
    simp [trip_bufs_of, page_of]
  have hloop := config_show_trips_ok ops f hf (tz.trips * UINT_MAX_CHARACTER)
    (List.range tz.trips) ([], 0) [] []
    (fun i hi => h0 i (List.mem_range.mp hi))
    (fun g hg i hi => hh g hg i (List.mem_range.mp hi))
  rw [hinit] at hloop
  refine ⟨_, hloop, ?_⟩
  simp only [config_trip_lines, trip_bufs_of, List.nil_append]
  rw [page_of_fits _ _ hfit, page_of_fits _ _ hhfit]
  simp only []
  congr 1
  unfold config_hyst_list config_hyst_line
  cases ops.get_trip_hyst with
  | none => simp
  | some g =>
    simp only []
    rw [if_pos (config_value_list_length_pos g tz.trips hT)]

set_option maxRecDepth 100000 in
theorem scenario_report_length :
    (config_head scenario_zone ++
      config_trip_part scenario_zone sample_ops (fun i => (0, if i = 0 then 85000 else 70000)) ++
      config_cdev_part scenario_zone sample_cdevs).length < 4096 := by
  decide

theorem config_cdev_part_fits (tz : thermal_zone_device)
    (cdevs : Nat → thermal_cooling_device)
    (hc : tz.thermal_instances.countP (fun pos => pos.cdev.isSome) ≠ 0)
    (hnames : (config_cdev_list tz (instance_cdev_type cdevs)).length <
      tz.thermal_instances.countP (fun pos => pos.cdev.isSome) * THERMAL_NAME_LENGTH)
    (huppers : (config_cdev_list tz (fun pos => fmt_d pos.upper)).length <
      tz.thermal_instances.countP (fun pos => pos.cdev.isSome) * THERMAL_NAME_LENGTH)
    (hlowers : (config_cdev_list tz (fun pos => fmt_d pos.lower)).length <
      tz.thermal_instances.countP (fun pos => pos.cdev.isSome) * THERMAL_NAME_LENGTH) :
    config_cdev_part tz cdevs = config_device_part tz cdevs := by
  unfold config_cdev_part config_device_part
  rw [if_neg hc, config_show_cdevs_eq]
  simp only [config_cdev_lines, cdev_bufs_of]
  rw [page_of_fits _ _ hnames, page_of_fits _ _ huppers, page_of_fits _ _ hlowers]

theorem config_device_part_length (tz : thermal_zone_device)
    (cdevs : Nat → thermal_cooling_device) : 0 < (config_device_part tz cdevs).length := by
  unfold config_device_part
  simp only [List.length_append]
  have : 0 < "device ".toList.length := by decide
  omega

set_option maxRecDepth 100000 in
theorem scenario_device_report_length :
    ((config_show 4096 { scenario_zone with thermal_instances := [] } sample_ops
        sample_cdevs true).2 ++
      config_device_part scenario_zone sample_cdevs).length < 4096 := by
  decide

/-! ### The `mode` attribute and the trip attributes -/

theorem strncmp_eq_zero_iff (ct : List Char) :
    ∀ cs : List Char, strncmp cs ct ct.length = 0 ↔ ct <+: cs := by
  induction ct with
  | nil =>
    intro cs
    simp [strncmp]
  | cons c2 ct ih =>
    intro cs
    cases cs with
    | nil => simp [strncmp]
    | cons c1 cs =>
      rw [List.length_cons, strncmp, List.cons_prefix_cons]
      by_cases h : c1 = c2
      · subst h
        simp [ih cs]
      · have h' : ¬ c2 = c1 := fun e => h e.symm
        simp only [ne_eq, h, not_false_eq_true, if_true, h', false_and, iff_false]
        split <;> decide

theorem enabled_not_disabled (buf : List Char) (h : "disabled".toList <+: buf) :
    ¬ "enabled".toList <+: buf := by
  intro h'
  cases buf with
  | nil => simp at h
  | cons c buf =>
    have h1 := (List.cons_prefix_cons.mp h).1
    have h2 := (List.cons_prefix_cons.mp h').1
    rw [← h1] at h2
    exact absurd h2 (by decide)

/-! ### The transition counters -/

theorem nat_sum_set_succ (l : List Nat) (i : Nat) (h : i < l.length) :
    (l.set i (l.getD i 0 + 1)).sum = l.sum + 1 := by
  induction l generalizing i with
  | nil => simp at h
  | cons a l ih =>
    cases i with
    | zero => simp; omega
    | succ i =>
      simp only [List.length_cons, Nat.succ_lt_succ_iff] at h
      have := ih i h
      simp only [List.getD_cons_succ, List.set_cons_succ, List.sum_cons, this]
      omega

theorem nat_getD_le_sum (l : List Nat) (i : Nat) : l.getD i 0 ≤ l.sum := by
  induction l generalizing i with
  | nil => simp
  | cons a l ih =>
    cases i with
    | zero => simp
    | succ i =>
      have := ih i
      simp only [List.getD_cons_succ, List.sum_cons]
      omega

theorem transitions_fold_fst (ops : List stats_op) :
    ∀ (cdev_stats : Option cooling_dev_stats) (c : Nat),
      (ops.foldl transitions_step (cdev_stats, c)).1 = stats_run cdev_stats ops := by
  induction ops with
  | nil => exact fun _ _ => rfl
  | cons op ops ih =>
    intro cdev_stats c
    have e : transitions_step (cdev_stats, c) op =
        (stats_step cdev_stats op, (transitions_step (cdev_stats, c) op).2) := rfl
    rw [List.foldl_cons, e, ih]
    rfl

theorem trans_inv_step (n : Nat) (base : Int) (s s' : cooling_dev_stats) (op : stats_op)
    (c : Nat) (h : stats_inv n base s) (hop : request_below n op) (hc : trans_inv c s)
    (hs : stats_step (some s) op = some s') :
    trans_inv (transitions_step (some s, c) op).2 s' := by
  cases op with
  | update new_state now =>
    have hnew : new_state < n := hop
    by_cases heq : s.state = new_state
    · have e : s' = s := by
        have : stats_step (some s) (stats_op.update new_state now) = some s := by
          simp [stats_step, thermal_cooling_device_stats_update, heq]
        rw [this] at hs
        exact (Option.some.inj hs).symm
      subst e
      simpa [transitions_step, heq] using hc
    · have hupd := stats_update_eq s new_state now heq
      have hs2 : thermal_cooling_device_stats_update (some s) new_state now = some s' := hs
      rw [hupd] at hs2
      have e := (Option.some.inj hs2).symm
      subst e
      have hcount : (transitions_step (some s, c) (stats_op.update new_state now)).2 = c + 1 := by
        simp [transitions_step, heq]
      rw [hcount]
      intro hlt
      obtain ⟨htot, hsum⟩ := hc (by omega)
      obtain ⟨hwf, hn, hst, _, _⟩ := h
      have hidx : s.state * s.max_states + new_state < s.trans_table.length := by
        rw [hwf.2, hn]
        exact cell_index_lt n s.state new_state hst hnew
      have hcell := nat_getD_le_sum s.trans_table (s.state * s.max_states + new_state)
      have htab : (update_time_in_state s now).trans_table = s.trans_table := rfl
      refine ⟨?_, ?_⟩
      · show (s.total_trans + 1) % UINT_MOD = c + 1
        rw [htot, Nat.mod_eq_of_lt hlt]
      · show (((update_time_in_state s now).trans_table.set _ _)).sum = c + 1
        rw [htab, Nat.mod_eq_of_lt (by omega), nat_sum_set_succ _ _ hidx, hsum]
  | reset count now =>
    have hreset := reset_store_eq s count now h.1
    have hs2 : (reset_store (some s) count now).1 = some s' := hs
    rw [hreset] at hs2
    have e := (Option.some.inj hs2).symm
    subst e
    intro _
    exact ⟨rfl, by simp [transitions_step]⟩
  | read now =>
    have hs2 : some (update_time_in_state s now) = some s' := hs
    have e := (Option.some.inj hs2).symm
    subst e
    exact hc

theorem trans_inv_run (n : Nat) (ops : List stats_op) :
    ∀ (base : Int) (s : cooling_dev_stats) (c : Nat),
      stats_inv n base s → trans_inv c s → requests_below n ops →
      ∃ s', stats_run (some s) ops = some s' ∧
        stats_inv n (reset_base base ops) s' ∧
        trans_inv (ops.foldl transitions_step (some s, c)).2 s' := by
  induction ops with
  | nil => exact fun base s c h hc _ => ⟨s, rfl, h, hc⟩
  | cons op ops ih =>
    intro base s c h hc hreq
    have hop : request_below n op := hreq op (List.mem_cons_self op ops)
    obtain ⟨s1, hs1, hinv1⟩ := stats_step_inv n base s op h hop
    have hc1 := trans_inv_step n base s s1 op c h hop hc hs1
    obtain ⟨s', hrun, hinv', hc'⟩ := ih (reset_base base [op]) s1
      (transitions_step (some s, c) op).2 hinv1 hc1
      (fun o ho => hreq o (List.mem_cons_of_mem op ho))
    refine ⟨s', ?_, ?_, ?_⟩
    · show stats_run (stats_step (some s) op) ops = some s'
      rw [hs1]
      exact hrun
    · rw [reset_base_cons]
      exact hinv'
    · rw [List.foldl_cons]
      have e : transitions_step (some s, c) op =
          (some s1, (transitions_step (some s, c) op).2) := by
        refine Prod.ext ?_ rfl
        exact hs1
      rw [e]
      exact hc'
theorem stats_setup_run (max_state : Nat) (t0 : Int) (ops : List stats_op)
    (hfit : stats_block_fits max_state) (hreq : requests_below (max_state + 1) ops) :
    ∃ s0 s, cooling_device_stats_setup (0, max_state) true t0 = some s0 ∧
      stats_inv (max_state + 1) t0 s0 ∧
      stats_run (some s0) ops = some s ∧
      stats_inv (max_state + 1) (reset_base t0 ops) s ∧
      trans_inv (transitions_since_reset (some s0) ops) s := by
  obtain ⟨s0, hs0, hinv0⟩ := stats_setup_inv max_state t0 hfit
  have hc0 : trans_inv 0 s0 := by
    have e := stats_setup_eq max_state t0 hfit
    rw [hs0] at e
    have e' := Option.some.inj e
    subst e'
    intro _
    exact ⟨rfl, by simp⟩
  obtain ⟨s, hrun, hinv, hc⟩ := trans_inv_run (max_state + 1) ops t0 s0 0 hinv0 hc0 hreq
  exact ⟨s0, s, hs0, hinv0, hrun, hinv, hc⟩

/-! ### Releasing the attribute groups -/

theorem kcalloc_eq (a : allocator) :
    kcalloc a =
      if a.plan.head? = some false then (kcalloc_failed a, none)
      else (kcalloc_done a, some a.next) := by
  cases a with
  | mk live next plan bad_free =>
    cases plan with
    | nil => simp [kcalloc, kcalloc_done]
    | cons b plan => cases b <;> simp [kcalloc, kcalloc_done, kcalloc_failed]

theorem add_two_ne (n : Nat) : (n + 1 + 1 = n) = False := eq_false (by omega)
theorem add_three_ne (n : Nat) : (n + 1 + 1 + 1 = n) = False := eq_false (by omega)
theorem add_four_ne (n : Nat) : (n + 1 + 1 + 1 + 1 = n) = False := eq_false (by omega)
theorem ne_add_two (n : Nat) : (n = n + 1 + 1) = False := eq_false (by omega)
theorem ne_add_three (n : Nat) : (n = n + 1 + 1 + 1) = False := eq_false (by omega)
theorem ne_add_four (n : Nat) : (n = n + 1 + 1 + 1 + 1) = False := eq_false (by omega)

theorem kfree_live (a : allocator) (x : Nat) (h : x ∈ a.live) :
    kfree a (some x) = { a with live := a.live.erase x } := by
  simp [kfree, h]

theorem kfree_dead (a : allocator) (x : Nat) (h : x ∉ a.live) :
    kfree a (some x) = { a with bad_free := a.bad_free + 1 } := by
  simp [kfree, h]

theorem create_trip_attrs_fill_failed (tz : thermal_zone_device)
    (ops : thermal_zone_device_ops) (mask : Nat) (writable_trips : Bool) (a : allocator)
    (h : a.plan.head? = some false) :
    create_trip_attrs_fill tz ops mask writable_trips a =
      (tz,
        if ops.get_trip_hyst.isSome then
          kfree (kfree (kfree (kcalloc_failed a) (tz.trip_type_attrs.map Prod.fst))
            (tz.trip_temp_attrs.map Prod.fst)) (tz.trip_hyst_attrs.map Prod.fst)
        else
          kfree (kfree (kcalloc_failed a) (tz.trip_type_attrs.map Prod.fst))
            (tz.trip_temp_attrs.map Prod.fst),
        -ENOMEM) := by
  unfold create_trip_attrs_fill
  rw [kcalloc_eq, if_pos h]

theorem create_trip_attrs_fill_done (tz : thermal_zone_device)
    (ops : thermal_zone_device_ops) (mask : Nat) (writable_trips : Bool) (a : allocator)
    (h : ¬ a.plan.head? = some false) :
    (create_trip_attrs_fill tz ops mask writable_trips a).2 = (kcalloc_done a, 0) ∧
    (create_trip_attrs_fill tz ops mask writable_trips a).1.trips = tz.trips ∧
    (create_trip_attrs_fill tz ops mask writable_trips a).1.device_groups =
      tz.device_groups ∧
    (create_trip_attrs_fill tz ops mask writable_trips a).1.trip_type_attrs.map Prod.fst =
      tz.trip_type_attrs.map Prod.fst ∧
    (create_trip_attrs_fill tz ops mask writable_trips a).1.trip_temp_attrs.map Prod.fst =
      tz.trip_temp_attrs.map Prod.fst ∧
    (create_trip_attrs_fill tz ops mask writable_trips a).1.trip_hyst_attrs.map Prod.fst =
      tz.trip_hyst_attrs.map Prod.fst ∧
    (create_trip_attrs_fill tz ops mask writable_trips a).1.trips_attribute_group_attrs.map
      Prod.fst = some a.next := by
  unfold create_trip_attrs_fill
  rw [kcalloc_eq, if_neg h]
  simp only [Option.map_map, Option.map_some']
  refine ⟨trivial, trivial, trivial, ?_, ?_, ?_, trivial⟩
  · cases tz.trip_type_attrs <;> rfl
  · cases tz.trip_temp_attrs <;> rfl
  · cases tz.trip_hyst_attrs <;> rfl
theorem create_trip_attrs_alloc (tz : thermal_zone_device) (ops : thermal_zone_device_ops)
    (mask : Nat) (writable_trips : Bool) (a : allocator) (ht : tz.trips ≠ 0) :
    ((create_trip_attrs tz ops mask writable_trips a).2.2 ≠ 0 →
      (create_trip_attrs tz ops mask writable_trips a).2.1.live = a.live ∧
      (create_trip_attrs tz ops mask writable_trips a).2.1.bad_free = a.bad_free) ∧
    ((create_trip_attrs tz ops mask writable_trips a).2.2 = 0 →
      (create_trip_attrs tz ops mask writable_trips a).1.trips = tz.trips ∧
      (create_trip_attrs tz ops mask writable_trips a).1.device_groups = tz.device_groups ∧
      (create_trip_attrs tz ops mask writable_trips a).2.1.bad_free = a.bad_free ∧
      (create_trip_attrs tz ops mask writable_trips a).1.trip_type_attrs.map Prod.fst =
        some a.next ∧
      (create_trip_attrs tz ops mask writable_trips a).1.trip_temp_attrs.map Prod.fst =
        some (a.next + 1) ∧
      (ops.get_trip_hyst.isSome = true →
        (create_trip_attrs tz ops mask writable_trips a).1.trip_hyst_attrs.map Prod.fst =
          some (a.next + 2) ∧
        (create_trip_attrs tz ops mask writable_trips a).1.trips_attribute_group_attrs.map
          Prod.fst = some (a.next + 3) ∧
        (create_trip_attrs tz ops mask writable_trips a).2.1.live =
          (a.next + 3) :: (a.next + 2) :: (a.next + 1) :: a.next :: a.live) ∧
      (ops.get_trip_hyst.isSome = false →
        (create_trip_attrs tz ops mask writable_trips a).1.trips_attribute_group_attrs.map
          Prod.fst = some (a.next + 2) ∧
        (create_trip_attrs tz ops mask writable_trips a).2.1.live =
          (a.next + 2) :: (a.next + 1) :: a.next :: a.live)) := by
  unfold create_trip_attrs
  rw [if_neg ht, kcalloc_eq]
  by_cases c1 : a.plan.head? = some false
  · rw [if_pos c1]
    exact ⟨fun _ => ⟨rfl, rfl⟩, fun h => absurd h neg_ENOMEM_ne_zero⟩
  · rw [if_neg c1]
    simp only []
    rw [kcalloc_eq]
    by_cases c2 : (kcalloc_done a).plan.head? = some false
    · rw [if_pos c2]
      refine ⟨fun _ => ?_, fun h => absurd h neg_ENOMEM_ne_zero⟩
      simp [kfree, kcalloc_failed, kcalloc_done, List.erase_cons, add_two_ne, add_three_ne,
        add_four_ne, ne_add_two, ne_add_three, ne_add_four]
    · rw [if_neg c2]
      simp only []
      by_cases hh : ops.get_trip_hyst.isSome = true
      · rw [if_pos hh, kcalloc_eq]
        by_cases c3 : (kcalloc_done (kcalloc_done a)).plan.head? = some false
        · rw [if_pos c3]
          refine ⟨fun _ => ?_, fun h => absurd h neg_ENOMEM_ne_zero⟩
          simp [kfree, kcalloc_failed, kcalloc_done, List.erase_cons, add_two_ne, add_three_ne,
        add_four_ne, ne_add_two, ne_add_three, ne_add_four]
        · rw [if_neg c3]
          simp only []
          by_cases c4 : (kcalloc_done (kcalloc_done (kcalloc_done a))).plan.head? = some false
          · rw [create_trip_attrs_fill_failed _ ops mask writable_trips _ c4]
            refine ⟨fun _ => ?_, fun h => absurd h neg_ENOMEM_ne_zero⟩
            simp [hh, kfree, kcalloc_failed, kcalloc_done, List.erase_cons, add_two_ne, add_three_ne,
        add_four_ne, ne_add_two, ne_add_three, ne_add_four]
          · obtain ⟨h2, htr, hdg, hty, hte, hhy, hat⟩ :=
              create_trip_attrs_fill_done
                { tz with
                  trip_type_attrs := some (a.next, List.replicate tz.trips thermal_attr_zero)
                  trip_temp_attrs :=
                    some ((kcalloc_done a).next, List.replicate tz.trips thermal_attr_zero)
                  trip_hyst_attrs :=
                    some ((kcalloc_done (kcalloc_done a)).next,
                      List.replicate tz.trips thermal_attr_zero) }
                ops mask writable_trips _ c4
            refine ⟨fun h => ?_, fun _ => ⟨htr, hdg, ?_, hty, hte, fun _ => ⟨hhy, hat, ?_⟩,
              fun hn => ?_⟩⟩
            · rw [h2] at h
              exact absurd rfl h
            · rw [h2]; rfl
            · rw [h2]; rfl
            · rw [hh] at hn
              exact absurd hn (by decide)
      · rw [if_neg hh]
        by_cases c4 : (kcalloc_done (kcalloc_done a)).plan.head? = some false
        · rw [create_trip_attrs_fill_failed _ ops mask writable_trips _ c4]
          refine ⟨fun _ => ?_, fun h => absurd h neg_ENOMEM_ne_zero⟩
          simp [hh, kfree, kcalloc_failed, kcalloc_done, List.erase_cons, add_two_ne, add_three_ne,
        add_four_ne, ne_add_two, ne_add_three, ne_add_four]
        · obtain ⟨h2, htr, hdg, hty, hte, _, hat⟩ :=
            create_trip_attrs_fill_done
              { tz with
                trip_type_attrs := some (a.next, List.replicate tz.trips thermal_attr_zero)
                trip_temp_attrs :=
                  some ((kcalloc_done a).next, List.replicate tz.trips thermal_attr_zero) }
              ops mask writable_trips _ c4
          refine ⟨fun h => ?_, fun _ => ⟨htr, hdg, ?_, hty, hte, fun hy => absurd hy hh,
            fun _ => ⟨hat, ?_⟩⟩⟩
          · rw [h2] at h
            exact absurd rfl h
          · rw [h2]; rfl
          · rw [h2]; rfl
theorem create_device_groups_alloc (tz : thermal_zone_device)
    (ops : thermal_zone_device_ops) (mask : Nat) (writable_trips : Bool) (a : allocator)
    (tz' : thermal_zone_device) (a' : allocator) (ret : Int)
    (hr : thermal_zone_create_device_groups tz ops mask writable_trips a = (tz', a', ret)) :
    (ret ≠ 0 → a'.live = a.live ∧ a'.bad_free = a.bad_free) ∧
    (ret = 0 →
      tz'.trips = tz.trips ∧ a'.bad_free = a.bad_free ∧
      tz'.device_groups.map Prod.fst = some a.next ∧
      (tz.trips = 0 → a'.live = a.next :: a.live) ∧
      (tz.trips ≠ 0 →
        tz'.trip_type_attrs.map Prod.fst = some (a.next + 1) ∧
        tz'.trip_temp_attrs.map Prod.fst = some (a.next + 2) ∧
        (ops.get_trip_hyst.isSome = true →
          tz'.trip_hyst_attrs.map Prod.fst = some (a.next + 3) ∧
          tz'.trips_attribute_group_attrs.map Prod.fst = some (a.next + 4) ∧
          a'.live = (a.next + 4) :: (a.next + 3) :: (a.next + 2) :: (a.next + 1) ::
            a.next :: a.live) ∧
        (ops.get_trip_hyst.isSome = false →
          tz'.trips_attribute_group_attrs.map Prod.fst = some (a.next + 3) ∧
          a'.live = (a.next + 3) :: (a.next + 2) :: (a.next + 1) :: a.next :: a.live))) := by
  unfold thermal_zone_create_device_groups at hr
  rw [kcalloc_eq] at hr
  by_cases c0 : a.plan.head? = some false
  · rw [if_pos c0] at hr
    simp only [Prod.mk.injEq] at hr
    obtain ⟨_, ha, hret⟩ := hr
    subst ha hret
    exact ⟨fun _ => ⟨rfl, rfl⟩, fun h => absurd h neg_ENOMEM_ne_zero⟩
  · rw [if_neg c0] at hr
    simp only [] at hr
    by_cases ht : tz.trips = 0
    · rw [if_neg (by simp [ht])] at hr
      simp only [Prod.mk.injEq] at hr
      obtain ⟨htz, ha, hret⟩ := hr
      subst htz ha hret
      exact ⟨fun h => absurd rfl h, fun _ => ⟨rfl, rfl, rfl, fun _ => rfl,
        fun h => absurd ht h⟩⟩
    · rw [if_pos ht] at hr
      have hA := create_trip_attrs_alloc tz ops mask writable_trips (kcalloc_done a) ht
      generalize create_trip_attrs tz ops mask writable_trips (kcalloc_done a) = r1 at hr hA
      obtain ⟨tz1, a1, res⟩ := r1
      simp only [] at hr hA
      by_cases hres : res = 0
      · rw [if_neg (by simp [hres])] at hr
        simp only [Prod.mk.injEq] at hr
        obtain ⟨htz, ha, hret⟩ := hr
        subst htz ha hret
        obtain ⟨htr, _, hbf, hty, hte, hhy, hnh⟩ := hA.2 hres
        refine ⟨fun h => absurd rfl h, fun _ => ⟨htr, hbf, rfl, fun h => absurd h ht,
          fun _ => ⟨hty, hte, fun h => ?_, fun h => ?_⟩⟩⟩
        · exact hhy h
        · exact hnh h
      · rw [if_pos hres] at hr
        simp only [Prod.mk.injEq] at hr
        obtain ⟨_, ha, hret⟩ := hr
        subst ha hret
        obtain ⟨hlive, hbf⟩ := hA.1 hres
        have hmem : a.next ∈ a1.live := by
          rw [hlive]
          exact List.mem_cons_self _ _
        refine ⟨fun _ => ?_, fun h => absurd h hres⟩
        rw [kfree_live a1 a.next hmem]
        simp only []
        rw [hlive]
        exact ⟨by simp [kcalloc_done], hbf⟩

theorem destroy_device_groups_eq (tz : thermal_zone_device) (ops : thermal_zone_device_ops)
    (a : allocator) :
    thermal_zone_destroy_device_groups (some tz) ops a =
      if tz.trips = 0 then kfree a (tz.device_groups.map Prod.fst)
      else if ops.get_trip_hyst.isSome = true then
        kfree (kfree (kfree (kfree (kfree a (tz.trip_type_attrs.map Prod.fst))
          (tz.trip_temp_attrs.map Prod.fst)) (tz.trip_hyst_attrs.map Prod.fst))
          (tz.trips_attribute_group_attrs.map Prod.fst)) (tz.device_groups.map Prod.fst)
      else
        kfree (kfree (kfree (kfree a (tz.trip_type_attrs.map Prod.fst))
          (tz.trip_temp_attrs.map Prod.fst))
          (tz.trips_attribute_group_attrs.map Prod.fst)) (tz.device_groups.map Prod.fst) := by
  unfold thermal_zone_destroy_device_groups destroy_trip_attrs
  by_cases ht : tz.trips = 0
  · simp [ht]
  · by_cases hh : ops.get_trip_hyst.isSome = true
    · simp [ht, hh]
    · simp [ht, hh]

/-! ### The names of the trip attributes -/

theorem digitChar_spec : ∀ k, k < 10 →
    Nat.digitChar k ∈ "0123456789".toList ∧ (Nat.digitChar k).toNat - 48 = k := by
  decide

theorem digit_chars : ∀ c ∈ "0123456789".toList,
    c.isDigit = true ∧ isspace c = false ∧ c ≠ '-' := by
  decide

theorem toDigitsCore_spec (fuel : Nat) :
    ∀ (n : Nat) (ds : List Char), n < fuel →
      ∃ pre, Nat.toDigitsCore 10 fuel n ds = pre ++ ds ∧ pre ≠ [] ∧
        (∀ c ∈ pre, c ∈ "0123456789".toList) ∧
        pre.foldl (fun acc c => acc * 10 + (c.toNat - 48)) 0 = n := by
  induction fuel with
  | zero => intro n ds h; omega
  | succ fuel ih =>
    intro n ds h
    have hd := digitChar_spec (n % 10) (Nat.mod_lt n (by omega))
    simp only [Nat.toDigitsCore]
    by_cases h0 : n / 10 = 0
    · rw [if_pos h0]
      refine ⟨[Nat.digitChar (n % 10)], rfl, by simp, ?_, ?_⟩
      · intro c hc
        rw [List.mem_singleton.mp hc]
        exact hd.1
      · simp only [List.foldl_cons, List.foldl_nil, Nat.zero_mul, Nat.zero_add, hd.2]
        omega
    · rw [if_neg h0]
      obtain ⟨pre, hpre, _, hdig, hval⟩ := ih (n / 10) (Nat.digitChar (n % 10) :: ds) (by omega)
      refine ⟨pre ++ [Nat.digitChar (n % 10)], ?_, by simp, ?_, ?_⟩
      · rw [hpre]; simp
      · intro c hc
        rcases List.mem_append.mp hc with h1 | h1
        · exact hdig c h1
        · rw [List.mem_singleton.mp h1]
          exact hd.1
      · rw [List.foldl_append, hval]
        simp only [List.foldl_cons, List.foldl_nil, hd.2]
        omega

theorem fmt_d_spec (i : Nat) :
    fmt_d (i : Int) ≠ [] ∧ (∀ c ∈ fmt_d (i : Int), c ∈ "0123456789".toList) ∧
    (fmt_d (i : Int)).foldl (fun acc c => acc * 10 + (c.toNat - 48)) 0 = i := by
  obtain ⟨pre, hpre, hne, hdig, hval⟩ := toDigitsCore_spec (i + 1) i [] (by omega)
  have e : fmt_d (i : Int) = pre := by
    unfold fmt_d fmt_dec
    rw [if_neg (by omega)]
    simp only [Int.toNat_ofNat, Nat.toDigits]
    rw [hpre, List.append_nil]
  rw [e]
  exact ⟨hne, hdig, hval⟩

theorem fmt_d_length (i e : Nat) (he : 0 < e) (h : i < 10 ^ e) : (fmt_d (i : Int)).length ≤ e := by
  have hl := Nat.repr_length i e he h
  unfold fmt_d fmt_dec
  rw [if_neg (by omega)]
  simpa [Nat.repr] using hl
theorem digits_fold_ge (l : List Char) :
    ∀ acc : Nat, acc ≤ l.foldl (fun acc c => acc * 10 + (c.toNat - 48)) acc := by
  induction l with
  | nil => exact fun acc => Nat.le_refl acc
  | cons c l ih =>
    intro acc
    have := ih (acc * 10 + (c.toNat - 48))
    simp only [List.foldl_cons]
    omega

theorem digits_fold_mod (m : Nat) (l : List Char) :
    ∀ acc : Nat, l.foldl (fun acc c => acc * 10 + (c.toNat - 48)) acc < m →
      l.foldl (fun acc c => (acc * 10 + (c.toNat - 48)) % m) acc =
        l.foldl (fun acc c => acc * 10 + (c.toNat - 48)) acc := by
  induction l with
  | nil => exact fun _ _ => rfl
  | cons c l ih =>
    intro acc h
    simp only [List.foldl_cons] at h ⊢
    have hge := digits_fold_ge l (acc * 10 + (c.toNat - 48))
    rw [Nat.mod_eq_of_lt (by omega)]
    exact ih _ h

theorem takeWhile_append_stop (p : Char → Bool) (pre rest : List Char)
    (hpre : ∀ c ∈ pre, p c = true) (hrest : ∀ c, rest.head? = some c → p c = false) :
    (pre ++ rest).takeWhile p = pre := by
  induction pre with
  | nil =>
    cases rest with
    | nil => rfl
    | cons c tl => simp [List.takeWhile_cons, hrest c rfl]
  | cons c pre ih =>
    have hc := hpre c (List.mem_cons_self c pre)
    simp only [List.cons_append, List.takeWhile_cons, hc, if_true]
    rw [ih (fun d hd => hpre d (List.mem_cons_of_mem c hd))]

theorem int_of_long_small (i : Nat) (h : i < 2 ^ 31) : int_of_long (i : Int) = i := by
  unfold int_of_long
  have e1 : (2 : Int) ^ 31 = 2147483648 := by norm_num
  have e2 : (2 : Int) ^ 32 = 4294967296 := by norm_num
  have e3 : (2 : Nat) ^ 31 = 2147483648 := by norm_num
  rw [e1, e2]
  rw [e3] at h
  omega

theorem sscanf_trip_point_digits (pre rest : List Char) (i : Nat) (hne : pre ≠ [])
    (hdig : ∀ c ∈ pre, c ∈ "0123456789".toList)
    (hval : pre.foldl (fun acc c => acc * 10 + (c.toNat - 48)) 0 = i) (hi : i < 2 ^ 31)
    (hrest : ∀ c, rest.head? = some c → c.isDigit = false) :
    sscanf_trip_point ("trip_point_".toList ++ (pre ++ rest)) = some (i : Int) := by
  cases pre with
  | nil => exact absurd rfl hne
  | cons d pre =>
    obtain ⟨hd1, hd2, hd3⟩ := digit_chars d (hdig d (List.mem_cons_self d pre))
    have hprefix : "trip_point_".toList.isPrefixOf ("trip_point_".toList ++ (d :: pre ++ rest)) =
        true := by
      simp
    have hdrop : List.drop "trip_point_".length ("trip_point_".toList ++ (d :: pre ++ rest)) =
        d :: pre ++ rest := List.drop_left _ _
    have hhead : (d :: pre ++ rest).head? = some d := rfl
    have hminus : ¬ (d :: pre ++ rest).head? = some '-' := by
      rw [hhead]
      exact fun e => hd3 (Option.some.inj e)
    have hull : simple_strtoull (d :: pre ++ rest) = i := by
      unfold simple_strtoull
      rw [takeWhile_append_stop Char.isDigit (d :: pre) rest
        (fun c hc => (digit_chars c (hdig c hc)).1) hrest]
      rw [digits_fold_mod ULLONG_MOD (d :: pre) 0 (by rw [hval]; unfold ULLONG_MOD; omega)]
      exact hval
    unfold sscanf_trip_point
    rw [if_pos hprefix]
    simp only [hdrop]
    rw [List.cons_append, List.dropWhile_cons_of_neg (by simp [hd2])]
    rw [← List.cons_append]
    have hminus' : ¬ some d = some '-' := fun e => hd3 (Option.some.inj e)
    simp only [hhead, simple_strtol, hull, if_neg hminus', hd1, if_true]
    rw [int_of_long_small i hi]

theorem trip_attr_name_eq (i : Nat) (kind : String) (h : (fmt_d (i : Int)).length ≤ 8) :
    trip_attr_name i kind =
      "trip_point_".toList ++
        (fmt_d (i : Int) ++ kind.toList.take (8 - (fmt_d (i : Int)).length)) := by
  unfold trip_attr_name THERMAL_NAME_LENGTH
  have h11 : "trip_point_".toList.length = 11 := by decide
  rw [List.append_assoc, List.take_append_eq_append_take, List.take_append_eq_append_take,
    List.take_of_length_le (by rw [h11]; omega), h11,
    List.take_of_length_le (show (fmt_d (i : Int)).length ≤ 20 - 1 - 11 by omega)]

theorem trip_kind_head : ∀ kind ∈ trip_kinds, ∀ (m : Nat) (c : Char),
    (kind.toList.take m).head? = some c → c.isDigit = false := by
  intro kind hk m c hc
  cases m with
  | zero => simp at hc
  | succ m =>
    simp only [trip_kinds, List.mem_cons, List.mem_singleton, List.not_mem_nil, or_false] at hk
    rcases hk with e | e | e <;> subst e <;>
      · have hc' : some '_' = some c := hc
        rw [← Option.some.inj hc']
        decide

theorem trip_kind_take : ∀ k1 ∈ trip_kinds, ∀ k2 ∈ trip_kinds,
    k1.toList.take 3 = k2.toList.take 3 → k1 = k2 := by
  decide

theorem sscanf_trip_attr_name (i : Nat) (hi : i < 10 ^ 8) (kind : String)
    (hk : kind ∈ trip_kinds) :
    sscanf_trip_point (trip_attr_name i kind) = some (i : Int) := by
  obtain ⟨hne, hdig, hval⟩ := fmt_d_spec i
  rw [trip_attr_name_eq i kind (fmt_d_length i 8 (by omega) hi)]
  exact sscanf_trip_point_digits _ _ i hne hdig hval
    (by have : (10 : Nat) ^ 8 < 2 ^ 31 := by norm_num
        omega)
    (trip_kind_head kind hk _)

theorem trip_attr_name_injective (i j : Nat) (hi : i < 10 ^ 5) (hj : j < 10 ^ 5)
    (k1 k2 : String) (h1 : k1 ∈ trip_kinds) (h2 : k2 ∈ trip_kinds)
    (h : trip_attr_name i k1 = trip_attr_name j k2) : i = j ∧ k1 = k2 := by
  have hp : (10 : Nat) ^ 5 < 10 ^ 8 := by norm_num
  have e1 := sscanf_trip_attr_name i (by omega) k1 h1
  have e2 := sscanf_trip_attr_name j (by omega) k2 h2
  rw [h, e2] at e1
  have hij : i = j := by
    have := Option.some.inj e1
    omega
  subst hij
  refine ⟨rfl, ?_⟩
  have hlen := fmt_d_length i 5 (by omega) hi
  rw [trip_attr_name_eq i k1 (by omega), trip_attr_name_eq i k2 (by omega)] at h
  have ht := List.append_cancel_left (List.append_cancel_left h)
  apply trip_kind_take k1 h1 k2 h2
  have h3 := congrArg (List.take 3) ht
  rw [List.take_take, List.take_take, Nat.min_eq_left (by omega)] at h3
  exact h3
theorem create_trip_attrs_succeeds (tz : thermal_zone_device) (ops : thermal_zone_device_ops)
    (mask : Nat) (writable_trips : Bool) (a : allocator) (h : a.plan = [])
    (ht : tz.trips ≠ 0) :
    (create_trip_attrs tz ops mask writable_trips a).2.2 = 0 := by
  have c1 : ¬ a.plan.head? = some false := by simp [h]
  have c2 : ¬ (kcalloc_done a).plan.head? = some false := by simp [kcalloc_done, h]
  have c3 : ¬ (kcalloc_done (kcalloc_done a)).plan.head? = some false := by
    simp [kcalloc_done, h]
  have c4 : ¬ (kcalloc_done (kcalloc_done (kcalloc_done a))).plan.head? = some false := by
    simp [kcalloc_done, h]
  unfold create_trip_attrs
  rw [if_neg ht, kcalloc_eq, if_neg c1]
  simp only []
  rw [kcalloc_eq, if_neg c2]
  simp only []
  by_cases hh : ops.get_trip_hyst.isSome = true
  · rw [if_pos hh, kcalloc_eq, if_neg c3]
    simp only []
    rw [(create_trip_attrs_fill_done _ ops mask writable_trips _ c4).1]
  · rw [if_neg hh, (create_trip_attrs_fill_done _ ops mask writable_trips _ c3).1]

theorem trip_attrs_layout (tz : thermal_zone_device) (ops : thermal_zone_device_ops)
    (mask : Nat) (writable_trips : Bool) (a : allocator)
    (hret : (create_trip_attrs tz ops mask writable_trips a).2.2 = 0)
    (i : Nat) (hi : i < tz.trips) :
    (∃ p attrs,
      (create_trip_attrs tz ops mask writable_trips a).1.trips_attribute_group_attrs =
        some (p, attrs) ∧
      attrs[i]? = some (some (trip_attr_ptr.trip_type i)) ∧
      attrs[i + tz.trips]? = some (some (trip_attr_ptr.trip_temp i)) ∧
      (ops.get_trip_hyst.isSome = true →
        attrs[i + tz.trips * 2]? = some (some (trip_attr_ptr.trip_hyst i)))) ∧
    (∃ t, trip_attr_at (create_trip_attrs tz ops mask writable_trips a).1
        (trip_attr_ptr.trip_type i) = some t ∧ t.name = trip_attr_name i "_type") ∧
    (∃ t, trip_attr_at (create_trip_attrs tz ops mask writable_trips a).1
        (trip_attr_ptr.trip_temp i) = some t ∧ t.name = trip_attr_name i "_temp") ∧
    (ops.get_trip_hyst.isSome = true →
      ∃ t, trip_attr_at (create_trip_attrs tz ops mask writable_trips a).1
        (trip_attr_ptr.trip_hyst i) = some t ∧ t.name = trip_attr_name i "_hyst") := by
  obtain ⟨-, a', p1, p2, p4, hyst, hcreate, -, hhyst⟩ :=
    create_trip_attrs_ok tz ops mask writable_trips a hret
  rw [hcreate]
  refine ⟨⟨p4, _, rfl, ?_, ?_, ?_⟩, ⟨trip_type_attr i, ?_, rfl⟩,
    ⟨trip_temp_attr mask writable_trips i, ?_, ?_⟩, ?_⟩
  · rw [List.getElem?_map, List.getElem?_range (by omega)]
    simp [trip_attrs_entry, hi]
  · rw [List.getElem?_map, List.getElem?_range (by omega)]
    have h1 : ¬ i + tz.trips < tz.trips := by omega
    have h2 : i + tz.trips < tz.trips * 2 := by omega
    simp [trip_attrs_entry, h1, h2]
  · intro hs
    have hn : ops.get_trip_hyst.isNone = false := by
      cases hg : ops.get_trip_hyst <;> simp_all
    rw [List.getElem?_map, List.getElem?_range (by omega)]
    have h1 : ¬ i + tz.trips * 2 < tz.trips := by omega
    have h2 : ¬ i + tz.trips * 2 < tz.trips * 2 := by omega
    have h3 : i + tz.trips * 2 < tz.trips * 3 := by omega
    simp [trip_attrs_entry, h1, h2, h3, hn]
  · simp [trip_attr_at, List.getElem?_range hi]
  · simp [trip_attr_at, List.getElem?_range hi]
  · unfold trip_temp_attr; split <;> rfl
  · intro hs
    have hn : ops.get_trip_hyst.isNone = false := by
      cases hg : ops.get_trip_hyst <;> simp_all
    obtain ⟨p3, hp3⟩ := hhyst hn
    refine ⟨trip_hyst_attr ops i, ?_, ?_⟩
    · simp [trip_attr_at, hp3, List.getElem?_range hi]
    · unfold trip_hyst_attr; split <;> rfl

/-! ### The claims -/

/-- C1: on a stats object with `N` states, current state `old < N`, a request for a
different state `new_state < N` at clock time `now` adds `now - last_time` to
`time_in_state[old]`, increments `trans_table[old * N + new_state]` and `total_trans`
by one (in `unsigned int` arithmetic), sets `state = new_state` and `last_time = now`,
and leaves every other cell of both arrays unchanged. -/
theorem stats_update_records_transition (s : cooling_dev_stats) (new_state : Nat) (now : Int)
    (hwf : stats_wf s) (hold : s.state < s.max_states) (hnew : new_state < s.max_states)
    (hne : new_state ≠ s.state) :
    ∃ s', thermal_cooling_device_stats_update (some s) new_state now = some s' ∧
      s'.time_in_state[s.state]? =
        some (s.time_in_state.getD s.state 0 + (now - s.last_time)) ∧
      s'.trans_table[s.state * s.max_states + new_state]? =
        some ((s.trans_table.getD (s.state * s.max_states + new_state) 0 + 1) % UINT_MOD) ∧
      s'.total_trans = (s.total_trans + 1) % UINT_MOD ∧
      s'.state = new_state ∧ s'.last_time = now ∧ s'.max_states = s.max_states ∧
      (∀ k, k ≠ s.state * s.max_states + new_state → s'.trans_table[k]? = s.trans_table[k]?) ∧
      (∀ k, k ≠ s.state → s'.time_in_state[k]? = s.time_in_state[k]?) := by
  obtain ⟨htis, htt⟩ := hwf
  have hidx : s.state * s.max_states + new_state < s.trans_table.length := by
    rw [htt]
    calc s.state * s.max_states + new_state
        < s.state * s.max_states + s.max_states := by omega
      _ = (s.state + 1) * s.max_states := by ring
      _ ≤ s.max_states * s.max_states := Nat.mul_le_mul_right _ hold
  have hst : s.state < s.time_in_state.length := by omega
  have hne' : ¬ s.state = new_state := fun h => hne h.symm
  refine ⟨_, by simp only [thermal_cooling_device_stats_update, if_neg hne']; rfl, ?_⟩
  refine ⟨?_, ?_, rfl, rfl, rfl, rfl, ?_, ?_⟩
  · simp [update_time_in_state, List.getElem?_set, hst]
  · simp [update_time_in_state, List.getElem?_set, hidx]
  · intro k hk
    simp [update_time_in_state, List.getElem?_set, Ne.symm hk]
  · intro k hk
    simp [update_time_in_state, List.getElem?_set, Ne.symm hk]

/-- Witness of C1 on `sample_stats`: a request for state `1` at clock time `10`. -/
theorem stats_update_records_transition_witness :
    (stats_wf sample_stats ∧ sample_stats.state < sample_stats.max_states ∧
      1 < sample_stats.max_states ∧ 1 ≠ sample_stats.state) ∧
    ∃ s', thermal_cooling_device_stats_update (some sample_stats) 1 10 = some s' ∧
      s'.time_in_state[sample_stats.state]? =
        some (sample_stats.time_in_state.getD sample_stats.state 0 +
          (10 - sample_stats.last_time)) ∧
      s'.trans_table[sample_stats.state * sample_stats.max_states + 1]? =
        some ((sample_stats.trans_table.getD
          (sample_stats.state * sample_stats.max_states + 1) 0 + 1) % UINT_MOD) ∧
      s'.total_trans = (sample_stats.total_trans + 1) % UINT_MOD ∧
      s'.state = 1 ∧ s'.last_time = 10 ∧ s'.max_states = sample_stats.max_states ∧
      (∀ k, k ≠ sample_stats.state * sample_stats.max_states + 1 →
        s'.trans_table[k]? = sample_stats.trans_table[k]?) ∧
      (∀ k, k ≠ sample_stats.state →
        s'.time_in_state[k]? = sample_stats.time_in_state[k]?) :=
  ⟨by decide,
   stats_update_records_transition sample_stats 1 10 (by decide) (by decide) (by decide)
     (by decide)⟩

/-- C2: a request for the state the device is already in changes nothing at all:
`total_trans`, `trans_table`, `time_in_state`, `state` and `last_time` keep their
values, whatever the clock reads. -/
theorem stats_update_same_state_noop (s : cooling_dev_stats) (now : Int) :
    thermal_cooling_device_stats_update (some s) s.state now = some s := by
  simp [thermal_cooling_device_stats_update]

/-- C3, as stated, fails: for a device with maximum state `32766` (`N = 32767`) the byte
count `48 + 8 * N + 4 * N * N = 2 ^ 32 + 44` is cut to the `int` `44`, so the block that
`cooling_device_stats_setup` obtains holds no cell of `time_in_state`; and for a device
that reports the maximum state `ULONG_MAX`, `states++` wraps to `0`, with
`max_states = 0` and again a block without any cell. In both cases, after a read at
time `5` the accumulated times inside the block sum to `0`, not to `5 - 0`. -/
theorem time_in_state_sum_lost_on_short_block :
    requests_below 32767 [] ∧
    (time_in_state_ms_show
        (stats_run (cooling_device_stats_setup (0, 32766) true 0) []) 5).1.map
      (fun s => (s.max_states, s.time_in_state, s.time_in_state.sum)) = some (32767, [], 0) ∧
    (time_in_state_ms_show
        (stats_run (cooling_device_stats_setup (0, 18446744073709551615) true 0) []) 5).1.map
      (fun s => (s.max_states, s.time_in_state, s.time_in_state.sum)) = some (0, [], 0) ∧
    (0 : Int) ≠ 5 - reset_base 0 [] := by
  decide

/-- C3 (amended): on a stats object created by `cooling_device_stats_setup` at time `t0`
for a device with `N = max_state + 1` states whose block size
`sizeof( *stats) + 8 * N + 4 * N * N` is in the range of `int`, after any sequence of
updates (requested states below `N`), resets and reads, a `time_in_state_ms_show` at
time `t` leaves `N` accumulated times whose sum is `t - t_base`, `t_base` being the
time of the most recent reset, or `t0` without one. -/
theorem time_in_state_sum_at_read (max_state : Nat) (t0 : Int) (ops : List stats_op) (t : Int)
    (hfit : stats_block_fits max_state)
    (hreq : requests_below (max_state + 1) ops) :
    ∃ s0 s', cooling_device_stats_setup (0, max_state) true t0 = some s0 ∧
      (time_in_state_ms_show (stats_run (some s0) ops) t).1 = some s' ∧
      s'.time_in_state.length = max_state + 1 ∧
      s'.time_in_state.sum = t - reset_base t0 ops := by
  obtain ⟨s0, h0, hinv0⟩ := stats_setup_inv max_state t0 hfit
  obtain ⟨s1, h1, hinv1⟩ := stats_run_inv (max_state + 1) ops t0 s0 hinv0 hreq
  obtain ⟨hwf, hn, _, hsum, _⟩ := update_time_in_state_inv _ _ s1 t hinv1
  refine ⟨s0, update_time_in_state s1 t, h0, by rw [h1]; rfl, ?_, hsum⟩
  rw [hwf.1, hn]

/-- Witness of C3 (amended): a device with two states set up at time `0`, then an
update, a reset at time `7`, a read and another update; the read at time `20` sums to
`13`. -/
theorem time_in_state_sum_at_read_witness :
    stats_block_fits 1 ∧
    requests_below (1 + 1)
      [stats_op.update 1 5, stats_op.reset 1 7, stats_op.read 9, stats_op.update 0 12] ∧
    ∃ s0 s', cooling_device_stats_setup (0, 1) true 0 = some s0 ∧
      (time_in_state_ms_show (stats_run (some s0)
        [stats_op.update 1 5, stats_op.reset 1 7, stats_op.read 9, stats_op.update 0 12])
        20).1 = some s' ∧
      s'.time_in_state.length = 1 + 1 ∧
      s'.time_in_state.sum = 20 - reset_base 0
        [stats_op.update 1 5, stats_op.reset 1 7, stats_op.read 9, stats_op.update 0 12] :=
  ⟨by decide, by decide, time_in_state_sum_at_read 1 0 _ 20 (by decide) (by decide)⟩

/-- C4: on a stats object with `N` states, `reset_store` at clock time `now` returns
the byte count and leaves all `N * N` cells of `trans_table` and all `N` entries of
`time_in_state` at `0`, `total_trans = 0` and `last_time = now`, with `state` and
`max_states` unchanged; every cell of a transition table rendered from the result is
the text of `0`. -/
theorem reset_store_clears (s : cooling_dev_stats) (count : Nat) (now : Int)
    (hwf : stats_wf s) :
    ∃ s', reset_store (some s) count now = (some s', (count : Int)) ∧
      s'.trans_table = List.replicate (s.max_states * s.max_states) 0 ∧
      s'.time_in_state = List.replicate s.max_states 0 ∧
      s'.total_trans = 0 ∧ s'.last_time = now ∧
      s'.state = s.state ∧ s'.max_states = s.max_states ∧
      ∀ i j, i < s.max_states → j < s.max_states →
        trans_table_cell s' i j = "       0 ".toList := by
  refine ⟨_, reset_store_eq s count now hwf, rfl, rfl, rfl, rfl, rfl, rfl, ?_⟩
  intro i j _ _
  have h0 : (List.replicate (s.max_states * s.max_states) 0).getD (i * s.max_states + j) 0
      = 0 := by
    rw [List.getD_eq_getElem?_getD, List.getElem?_replicate]
    split <;> rfl
  simp only [trans_table_cell, h0]
  decide

/-- Witness of C4 on `sample_stats`, reset at clock time `10`. -/
theorem reset_store_clears_witness :
    stats_wf sample_stats ∧
    ∃ s', reset_store (some sample_stats) 1 10 = (some s', ((1 : Nat) : Int)) ∧
      s'.trans_table = List.replicate (sample_stats.max_states * sample_stats.max_states) 0 ∧
      s'.time_in_state = List.replicate sample_stats.max_states 0 ∧
      s'.total_trans = 0 ∧ s'.last_time = 10 ∧
      s'.state = sample_stats.state ∧ s'.max_states = sample_stats.max_states ∧
      ∀ i j, i < sample_stats.max_states → j < sample_stats.max_states →
        trans_table_cell s' i j = "       0 ".toList :=
  ⟨by decide, reset_store_clears sample_stats 1 10 (by decide)⟩

/-- C5: on a stats object with `N` states in state `s < N`, `time_in_state_ms_show` at
clock time `now` adds `now - last_time` to `time_in_state[s]`, sets `last_time = now`,
and returns the length of a text made of exactly `N` lines, line `i` (in ascending
order) being `state<i>\t<ms_i>\n` for the accrued `time_in_state[i]` in milliseconds;
counters, transition table and current state are untouched. Run right after a reset,
the line of every state other than the current one reports `0`. -/
theorem time_in_state_ms_show_report (s : cooling_dev_stats) (now : Int)
    (hwf : stats_wf s) (hst : s.state < s.max_states) :
    (∃ s' buf, time_in_state_ms_show (some s) now = (some s', (buf.length : Int), buf) ∧
      s'.time_in_state[s.state]? =
        some (s.time_in_state.getD s.state 0 + (now - s.last_time)) ∧
      (∀ k, k ≠ s.state → s'.time_in_state[k]? = s.time_in_state[k]?) ∧
      s'.last_time = now ∧
      buf = ((List.range s.max_states).map (fun i =>
        "state".toList ++ fmt_u i ++ "\t".toList ++
          fmt_llu (ktime_to_ms (s'.time_in_state.getD i 0)) ++ "\n".toList)).flatten ∧
      s'.total_trans = s.total_trans ∧ s'.trans_table = s.trans_table ∧
      s'.state = s.state ∧ s'.max_states = s.max_states) ∧
    (∀ (count : Nat) (t_reset : Int), ∃ sr sr' buf,
      reset_store (some s) count t_reset = (some sr, (count : Int)) ∧
      time_in_state_ms_show (some sr) now = (some sr', (buf.length : Int), buf) ∧
      buf = ((List.range s.max_states).map (time_in_state_line sr')).flatten ∧
      ∀ i, i < s.max_states → i ≠ s.state →
        time_in_state_line sr' i = "state".toList ++ fmt_u i ++ "\t0\n".toList) := by
  have hlt : s.state < s.time_in_state.length := by rw [hwf.1]; exact hst
  constructor
  · refine ⟨update_time_in_state s now, _, rfl, ?_, ?_, rfl, ?_, rfl, rfl, rfl, rfl⟩
    · simp [update_time_in_state, List.getElem?_set, hlt]
    · intro k hk
      simp [update_time_in_state, List.getElem?_set, Ne.symm hk]
    · exact (foldl_append_eq _ _ _).trans (by rw [List.nil_append]; rfl)
  · intro count t_reset
    refine ⟨_, _, _, reset_store_eq s count t_reset hwf, rfl, ?_, ?_⟩
    · exact (foldl_append_eq _ _ _).trans (by rw [List.nil_append]; rfl)
    · intro i hi hne
      have h0 : ((List.replicate s.max_states (0 : Int)).set s.state
          ((List.replicate s.max_states (0 : Int)).getD s.state 0 + (now - t_reset))).getD i 0
          = 0 := by
        rw [List.getD_eq_getElem?_getD, List.getElem?_set_ne (Ne.symm hne),
          List.getElem?_replicate]
        split <;> rfl
      have hz : fmt_llu (ktime_to_ms 0) = "0".toList := by decide
      simp only [time_in_state_line, update_time_in_state, h0, hz, List.append_assoc]
      rfl

/-- Witness of C5 on `sample_stats`, read at clock time `5000003`. -/
theorem time_in_state_ms_show_report_witness :
    (stats_wf sample_stats ∧ sample_stats.state < sample_stats.max_states) ∧
    (∃ s' buf, time_in_state_ms_show (some sample_stats) 5000003 =
        (some s', (buf.length : Int), buf) ∧
      s'.time_in_state[sample_stats.state]? =
        some (sample_stats.time_in_state.getD sample_stats.state 0 +
          (5000003 - sample_stats.last_time)) ∧
      (∀ k, k ≠ sample_stats.state →
        s'.time_in_state[k]? = sample_stats.time_in_state[k]?) ∧
      s'.last_time = 5000003 ∧
      buf = ((List.range sample_stats.max_states).map (fun i =>
        "state".toList ++ fmt_u i ++ "\t".toList ++
          fmt_llu (ktime_to_ms (s'.time_in_state.getD i 0)) ++ "\n".toList)).flatten ∧
      s'.total_trans = sample_stats.total_trans ∧
      s'.trans_table = sample_stats.trans_table ∧
      s'.state = sample_stats.state ∧ s'.max_states = sample_stats.max_states) ∧
    (∀ (count : Nat) (t_reset : Int), ∃ sr sr' buf,
      reset_store (some sample_stats) count t_reset = (some sr, (count : Int)) ∧
      time_in_state_ms_show (some sr) 5000003 = (some sr', (buf.length : Int), buf) ∧
      buf = ((List.range sample_stats.max_states).map (time_in_state_line sr')).flatten ∧
      ∀ i, i < sample_stats.max_states → i ≠ sample_stats.state →
        time_in_state_line sr' i = "state".toList ++ fmt_u i ++ "\t0\n".toList) :=
  ⟨by decide, time_in_state_ms_show_report sample_stats 5000003 (by decide) (by decide)⟩

/-- C6 (evaluation of the code where it departs from the claim): with a page of 4096
bytes and 500 states the complete table does not fit, yet `trans_table_show` returns
`PAGE_SIZE` (the early return after the column titles) and not `-EFBIG`. -/
theorem trans_table_show_wide_returns_page_size :
    4096 ≤ (trans_table_text wide_stats).length ∧
    (trans_table_show 4096 (some wide_stats)).1 = 4096 ∧
    (trans_table_show 4096 (some wide_stats)).1 ≠ -EFBIG := by
  have h1 := trans_table_text_length wide_stats
  have h2 := trans_table_header_text_length wide_stats
  have h3 : wide_stats.max_states = 500 := rfl
  have h4 := (trans_table_show_cases 4096 wide_stats).1 (by omega)
  refine ⟨by omega, h4, by rw [h4]; decide⟩

/-- C7, as stated, fails: on a device with two states, an update that requests the
out-of-range state `3` while in state `0` increments cell `0 * 2 + 3 = 1 * 2 + 1`,
which is the diagonal cell of state `1`; and on a device with maximum state `32767`
the `int` byte count of the block comes out as `262192`, which leaves no room for
`trans_table`, so no diagonal cell lies inside the block. -/
theorem diagonal_incremented_by_out_of_range_request :
    (∃ s, stats_run (cooling_device_stats_setup (0, 1) true 0) [stats_op.update 3 5] = some s ∧
      s.max_states = 2 ∧ 1 < s.max_states ∧
      s.trans_table[1 * s.max_states + 1]? = some 1) ∧
    (cooling_device_stats_setup (0, 32767) true 0).map
      (fun s => (s.max_states, s.trans_table, s.trans_table[0 * s.max_states + 0]?)) =
      some (32768, [], none) :=
  ⟨⟨_, rfl, rfl, by decide, rfl⟩, by decide⟩

/-- C7 (amended): for a device with `N = max_state + 1` states whose block size
`sizeof( *stats) + 8 * N + 4 * N * N` is in the range of `int`, in every stats state
reached from `cooling_device_stats_setup` by a sequence of updates whose requested
states are all below `N`, resets and reads, every diagonal cell `trans_table[i * N + i]`,
`i < N`, is `0`. -/
theorem diagonal_stays_zero (max_state : Nat) (t0 : Int) (ops : List stats_op)
    (hfit : stats_block_fits max_state)
    (hreq : requests_below (max_state + 1) ops) :
    ∃ s0 s, cooling_device_stats_setup (0, max_state) true t0 = some s0 ∧
      stats_run (some s0) ops = some s ∧
      s.max_states = max_state + 1 ∧
      ∀ i, i < s.max_states → s.trans_table[i * s.max_states + i]? = some 0 := by
  obtain ⟨s0, h0, hinv0⟩ := stats_setup_inv max_state t0 hfit
  obtain ⟨s1, h1, -, hn, -, -, hdiag⟩ := stats_run_inv (max_state + 1) ops t0 s0 hinv0 hreq
  refine ⟨s0, s1, h0, h1, hn, ?_⟩
  rw [hn]
  exact hdiag

/-- Witness of C7 (amended): two states, moves `0 → 1 → 0`, a read, a reset, a move. -/
theorem diagonal_stays_zero_witness :
    stats_block_fits 1 ∧
    requests_below (1 + 1)
      [stats_op.update 1 5, stats_op.update 0 6, stats_op.read 9, stats_op.reset 1 10,
        stats_op.update 1 12] ∧
    ∃ s0 s, cooling_device_stats_setup (0, 1) true 0 = some s0 ∧
      stats_run (some s0)
        [stats_op.update 1 5, stats_op.update 0 6, stats_op.read 9, stats_op.reset 1 10,
          stats_op.update 1 12] = some s ∧
      s.max_states = 1 + 1 ∧
      ∀ i, i < s.max_states → s.trans_table[i * s.max_states + i]? = some 0 :=
  ⟨by decide, by decide, diagonal_stays_zero 1 0 _ (by decide) (by decide)⟩

/-- C8: an input that converts to an integer `v` with `0 < v < 1000` makes
`passive_store` return `-EINVAL` with the zone unchanged (in particular
`forced_passive` and `passive_delay`) and without any call to the rebind helper, the
unbind helper or the zone re-evaluation; an input that does not convert is rejected
in the same way. -/
theorem passive_store_rejects_small (tz : thermal_zone_device) (v : Int) (count : Nat)
    (hpos : 0 < v) (hlt : v < 1000) :
    passive_store tz (some v) count = (tz, [], -EINVAL) ∧
    passive_store tz none count = (tz, [], -EINVAL) := by
  have h : v ≠ 0 ∧ v < 1000 := ⟨by omega, hlt⟩
  exact ⟨by simp only [passive_store, if_pos h], rfl⟩

/-- Witness of C8: writing `500` to the sample zone. -/
theorem passive_store_rejects_small_witness :
    ((0 : Int) < 500 ∧ (500 : Int) < 1000) ∧
    passive_store sample_zone (some 500) 4 = (sample_zone, [], -EINVAL) ∧
    passive_store sample_zone none 4 = (sample_zone, [], -EINVAL) :=
  ⟨by decide, passive_store_rejects_small sample_zone 500 4 (by decide) (by decide)⟩

/-- C9: writing `0` to a zone with `forced_passive != 0` returns the byte count, sets
`forced_passive` and `passive_delay` to `0`, calls the unbind helper for `"Processor"`
once and then the zone re-evaluation once; writing `0` when `forced_passive` is
already `0` leaves `passive_delay` unchanged and calls neither rebind nor unbind. -/
theorem passive_store_zero (tz : thermal_zone_device) (count : Nat) :
    (tz.forced_passive ≠ 0 →
      passive_store tz (some 0) count =
        ({ tz with passive_delay := 0, forced_passive := 0 },
          [zone_call.thermal_zone_device_unbind_exception "Processor" 10,
            zone_call.thermal_zone_device_update
              thermal_notify_event.THERMAL_EVENT_UNSPECIFIED],
          (count : Int))) ∧
    (tz.forced_passive = 0 →
      passive_store tz (some 0) count =
        (tz, [zone_call.thermal_zone_device_update
          thermal_notify_event.THERMAL_EVENT_UNSPECIFIED], (count : Int))) := by
  constructor
  · intro h
    simp [passive_store, h]
  · intro h
    have e : { tz with forced_passive := 0 } = tz := by
      cases tz; simp only [thermal_zone_device.mk.injEq] at *; simp [h]
    simp [passive_store, h, e]

/-- Witness of C9: writing `0` to a forced zone and to a zone that is not forced. -/
theorem passive_store_zero_witness :
    (sample_forced_zone.forced_passive ≠ 0 ∧ sample_zone.forced_passive = 0) ∧
    passive_store sample_forced_zone (some 0) 2 =
      ({ sample_forced_zone with passive_delay := 0, forced_passive := 0 },
        [zone_call.thermal_zone_device_unbind_exception "Processor" 10,
          zone_call.thermal_zone_device_update
            thermal_notify_event.THERMAL_EVENT_UNSPECIFIED],
        ((2 : Nat) : Int)) ∧
    passive_store sample_zone (some 0) 2 =
      (sample_zone, [zone_call.thermal_zone_device_update
        thermal_notify_event.THERMAL_EVENT_UNSPECIFIED], ((2 : Nat) : Int)) :=
  ⟨by decide, (passive_store_zero sample_forced_zone 2).1 (by decide),
    (passive_store_zero sample_zone 2).2 (by decide)⟩

/-- C10: writing `v >= 1000` to a zone with `forced_passive == 0` returns the byte
count, sets `forced_passive = v`, sets `passive_delay` to `1000` if it was `0` and keeps
it otherwise, and calls the rebind helper for `"Processor"` once (followed by the zone
re-evaluation); if `forced_passive` was already non-zero only `forced_passive` changes
and neither rebind nor unbind is called. -/
theorem passive_store_threshold (tz : thermal_zone_device) (v : Int) (count : Nat)
    (hv : 1000 ≤ v) :
    (tz.forced_passive = 0 →
      passive_store tz (some v) count =
        ({ tz with passive_delay := if tz.passive_delay = 0 then 1000 else tz.passive_delay
                   forced_passive := v },
          [zone_call.thermal_zone_device_rebind_exception "Processor" 10,
            zone_call.thermal_zone_device_update
              thermal_notify_event.THERMAL_EVENT_UNSPECIFIED],
          (count : Int))) ∧
    (tz.forced_passive ≠ 0 →
      passive_store tz (some v) count =
        ({ tz with forced_passive := v },
          [zone_call.thermal_zone_device_update
            thermal_notify_event.THERMAL_EVENT_UNSPECIFIED], (count : Int))) := by
  have h0 : v ≠ 0 := by omega
  have h1 : ¬ v < 1000 := by omega
  constructor
  · intro h
    by_cases hd : tz.passive_delay = 0
    · simp [passive_store, h, h0, h1, hd]
    · simp [passive_store, h, h0, h1, hd]
  · intro h
    simp [passive_store, h, h0, h1]

/-- Witness of C10: writing `2000` to a zone that is not forced and to a forced one. -/
theorem passive_store_threshold_witness :
    ((1000 : Int) ≤ 2000 ∧ sample_zone.forced_passive = 0 ∧
      sample_forced_zone.forced_passive ≠ 0) ∧
    passive_store sample_zone (some 2000) 5 =
      ({ sample_zone with passive_delay := 1000, forced_passive := 2000 },
        [zone_call.thermal_zone_device_rebind_exception "Processor" 10,
          zone_call.thermal_zone_device_update
            thermal_notify_event.THERMAL_EVENT_UNSPECIFIED],
        ((5 : Nat) : Int)) ∧
    passive_store sample_forced_zone (some 3000) 5 =
      ({ sample_forced_zone with forced_passive := 3000 },
        [zone_call.thermal_zone_device_update
          thermal_notify_event.THERMAL_EVENT_UNSPECIFIED], ((5 : Nat) : Int)) :=
  ⟨by decide, (passive_store_threshold sample_zone 2000 5 (by decide)).1 (by decide),
    (passive_store_threshold sample_forced_zone 3000 5 (by decide)).2 (by decide)⟩

/-- C11: on a zone whose `N` bindings each have a cooling device, whatever their prior
state and whatever `set_mode` returns, `thermal_zone_device_clear` leaves the `N`
bindings in the same order, each with `initialized = false` and
`target = THERMAL_NO_TARGET` and otherwise unchanged, leaves `updated = false` in
every bound cooling device, and requests `thermal_cdev_update` once per binding, in
list order. -/
theorem thermal_zone_device_clear_bindings (tz : thermal_zone_device)
    (ops : thermal_zone_device_ops) (cdevs : Nat → thermal_cooling_device)
    (set_mode : thermal_device_mode → Int) (hmode : ops.set_mode = some set_mode)
    (hcdev : ∀ pos ∈ tz.thermal_instances, pos.cdev ≠ none) :
    ∃ tz' cdevs' calls,
      thermal_zone_device_clear tz ops cdevs =
        some (tz', cdevs', calls, set_mode thermal_device_mode.THERMAL_DEVICE_DISABLED) ∧
      tz'.thermal_instances = tz.thermal_instances.map cleared_instance ∧
      tz'.thermal_instances.length = tz.thermal_instances.length ∧
      (∀ pos ∈ tz'.thermal_instances,
        pos.initialized = false ∧ pos.target = THERMAL_NO_TARGET) ∧
      tz'.thermal_instances.map (fun pos => (pos.cdev, pos.trip, pos.upper, pos.lower)) =
        tz.thermal_instances.map (fun pos => (pos.cdev, pos.trip, pos.upper, pos.lower)) ∧
      (∀ pos ∈ tz.thermal_instances, ∀ c, pos.cdev = some c → (cdevs' c).updated = false) ∧
      (∀ c, (cdevs' c).type = (cdevs c).type) ∧
      calls = zone_call.set_mode thermal_device_mode.THERMAL_DEVICE_DISABLED ::
        tz.thermal_instances.filterMap
          (fun pos => pos.cdev.map zone_call.thermal_cdev_update) ∧
      calls.length = tz.thermal_instances.length + 1 := by
  refine ⟨_, _, _, thermal_zone_device_clear_eq tz ops cdevs set_mode hmode hcdev,
    rfl, ?_, ?_, ?_, ?_, ?_, rfl, ?_⟩
  · simp
  · intro pos hpos
    obtain ⟨q, -, rfl⟩ := List.mem_map.mp hpos
    exact ⟨rfl, rfl⟩
  · simp [cleared_instance, Function.comp_def]
  · intro pos hpos c hc
    have hb : bound_cdev tz.thermal_instances c = true := by
      simp only [bound_cdev, List.any_eq_true]
      exact ⟨pos, hpos, by simp [hc]⟩
    simp [hb]
  · intro c
    by_cases hb : bound_cdev tz.thermal_instances c <;> simp [hb]
  · simp [filterMap_cdev_length _ hcdev]

/-- Witness of C11: the sample forced zone, whose three bindings share two devices. -/
theorem thermal_zone_device_clear_bindings_witness :
    (sample_ops.set_mode = some (fun _ => 0) ∧
      ∀ pos ∈ sample_forced_zone.thermal_instances, pos.cdev ≠ none) ∧
    ∃ tz' cdevs' calls,
      thermal_zone_device_clear sample_forced_zone sample_ops sample_cdevs =
        some (tz', cdevs', calls,
          (fun _ => (0 : Int)) thermal_device_mode.THERMAL_DEVICE_DISABLED) ∧
      tz'.thermal_instances = sample_forced_zone.thermal_instances.map cleared_instance ∧
      tz'.thermal_instances.length = sample_forced_zone.thermal_instances.length ∧
      (∀ pos ∈ tz'.thermal_instances,
        pos.initialized = false ∧ pos.target = THERMAL_NO_TARGET) ∧
      tz'.thermal_instances.map (fun pos => (pos.cdev, pos.trip, pos.upper, pos.lower)) =
        sample_forced_zone.thermal_instances.map
          (fun pos => (pos.cdev, pos.trip, pos.upper, pos.lower)) ∧
      (∀ pos ∈ sample_forced_zone.thermal_instances, ∀ c, pos.cdev = some c →
        (cdevs' c).updated = false) ∧
      (∀ c, (cdevs' c).type = (sample_cdevs c).type) ∧
      calls = zone_call.set_mode thermal_device_mode.THERMAL_DEVICE_DISABLED ::
        sample_forced_zone.thermal_instances.filterMap
          (fun pos => pos.cdev.map zone_call.thermal_cdev_update) ∧
      calls.length = sample_forced_zone.thermal_instances.length + 1 :=
  ⟨⟨rfl, by decide⟩,
    thermal_zone_device_clear_bindings sample_forced_zone sample_ops sample_cdevs
      (fun _ => 0) rfl (by decide)⟩

/-- C12, as stated, fails: `thermal_zone_device_clear` on the sample forced zone
(`forced_passive = 2000`) leaves `forced_passive` at `2000`. -/
theorem thermal_zone_device_clear_keeps_forced_passive :
    ∃ tz' cdevs' calls ret,
      thermal_zone_device_clear sample_forced_zone sample_ops sample_cdevs =
        some (tz', cdevs', calls, ret) ∧
      tz'.forced_passive = 2000 ∧ tz'.forced_passive ≠ 0 :=
  ⟨_, _, _, _,
    thermal_zone_device_clear_eq sample_forced_zone sample_ops sample_cdevs (fun _ => 0) rfl
      (by decide),
    rfl, by decide⟩

/-- C12 (amended): after `thermal_zone_device_clear` the `set_mode` accessor has been
called with `THERMAL_DEVICE_DISABLED`, the temperature of the zone is
`THERMAL_TEMP_INVALID` and its `passive` field is `0`. -/
theorem thermal_zone_device_clear_zone (tz : thermal_zone_device)
    (ops : thermal_zone_device_ops) (cdevs : Nat → thermal_cooling_device)
    (set_mode : thermal_device_mode → Int) (hmode : ops.set_mode = some set_mode)
    (hcdev : ∀ pos ∈ tz.thermal_instances, pos.cdev ≠ none) :
    ∃ tz' cdevs' calls,
      thermal_zone_device_clear tz ops cdevs =
        some (tz', cdevs', calls, set_mode thermal_device_mode.THERMAL_DEVICE_DISABLED) ∧
      zone_call.set_mode thermal_device_mode.THERMAL_DEVICE_DISABLED ∈ calls ∧
      tz'.temperature = THERMAL_TEMP_INVALID ∧ tz'.passive = 0 :=
  ⟨_, _, _, thermal_zone_device_clear_eq tz ops cdevs set_mode hmode hcdev,
    List.mem_cons_self _ _, rfl, rfl⟩

/-- Witness of C12 (amended) on the sample forced zone. -/
theorem thermal_zone_device_clear_zone_witness :
    (sample_ops.set_mode = some (fun _ => 0) ∧
      ∀ pos ∈ sample_forced_zone.thermal_instances, pos.cdev ≠ none) ∧
    ∃ tz' cdevs' calls,
      thermal_zone_device_clear sample_forced_zone sample_ops sample_cdevs =
        some (tz', cdevs', calls,
          (fun _ => (0 : Int)) thermal_device_mode.THERMAL_DEVICE_DISABLED) ∧
      zone_call.set_mode thermal_device_mode.THERMAL_DEVICE_DISABLED ∈ calls ∧
      tz'.temperature = THERMAL_TEMP_INVALID ∧ tz'.passive = 0 :=
  ⟨⟨rfl, by decide⟩,
    thermal_zone_device_clear_zone sample_forced_zone sample_ops sample_cdevs
      (fun _ => 0) rfl (by decide)⟩

/-- C14, evaluation of the code where it departs from the claim and from the comment
above the function (`We expose passive only if passive trips are present`): for the
sample zone, whose accessor succeeds on both trips and whose second trip is passive,
`thermal_zone_passive_is_visible` returns `0` (hidden), while for a zone without any
trip it returns the mode of the attribute (visible). -/
theorem thermal_zone_passive_is_visible_inverted :
    has_passive_trip (fun i =>
      (0, if i = 0 then thermal_trip_type.THERMAL_TRIP_CRITICAL
          else thermal_trip_type.THERMAL_TRIP_PASSIVE)) sample_zone.trips = true ∧
    (∀ i, i < sample_zone.trips →
      (sample_ops.get_trip_type.map (fun f => (f i).1)) = some 0) ∧
    thermal_zone_passive_is_visible sample_zone sample_ops 420 = some 0 ∧
    sample_no_trip_zone.trips = 0 ∧
    thermal_zone_passive_is_visible sample_no_trip_zone sample_ops 420 = some 420 := by
  decide

/-- C13: after a successful `thermal_zone_create_device_groups` on a zone with `T`
trip points, the dynamic trip property catalogue (the `NULL`-terminated `attrs` list
of the trips group, or nothing when `T = 0` and the group is not installed) has
exactly `3 * T` entries if the zone has a `get_trip_hyst` accessor and exactly `2 * T`
entries otherwise. -/
theorem trip_catalogue_size (tz : thermal_zone_device) (ops : thermal_zone_device_ops)
    (mask : Nat) (writable_trips : Bool) (a : allocator)
    (hret : (thermal_zone_create_device_groups tz ops mask writable_trips a).2.2 = 0) :
    (trip_catalogue (thermal_zone_create_device_groups tz ops mask writable_trips a).1).length =
      (if ops.get_trip_hyst.isSome then 3 else 2) * tz.trips := by
  obtain ⟨a1, p, -, hzero, hpos⟩ := create_device_groups_ok tz ops mask writable_trips a hret
  by_cases h0 : tz.trips = 0
  · rw [hzero h0, h0]
    simp [trip_catalogue, static_device_groups_eq]
  · obtain ⟨hc, hg⟩ := hpos h0
    obtain ⟨-, a', p1, p2, p4, hyst, hcreate, -, -⟩ :=
      create_trip_attrs_ok tz ops mask writable_trips a1 hc
    rw [hg, hcreate]
    have hs : (!ops.get_trip_hyst.isNone) = ops.get_trip_hyst.isSome := by
      cases ops.get_trip_hyst <;> rfl
    simp only [trip_catalogue, static_device_groups_eq, hs]
    exact trip_attrs_catalogue_length _ _

/-- Witness of C13: the sample zone (two trips, hysteresis accessor present). -/
theorem trip_catalogue_size_witness :
    (thermal_zone_create_device_groups sample_zone sample_ops 2 true fresh_allocator).2.2 = 0 ∧
    (trip_catalogue
      (thermal_zone_create_device_groups sample_zone sample_ops 2 true fresh_allocator).1).length =
      (if sample_ops.get_trip_hyst.isSome then 3 else 2) * sample_zone.trips :=
  ⟨by decide, trip_catalogue_size sample_zone sample_ops 2 true fresh_allocator (by decide)⟩

/-- C15: in the catalogue built by a successful `create_trip_attrs`, for every trip
`i < T` (`i < 31`, the range in which the shift of the mask test is defined): the type
attribute is read-only (`S_IRUGO`) without store handler; the temperature attribute
has the owner-write bit and `trip_point_temp_store` if and only if writable trips are
compiled in and bit `i` of `mask` is set, and is read-only without store handler
otherwise; with a `get_trip_hyst` accessor, the hysteresis attribute has the
owner-write bit and `trip_point_hyst_store` if and only if the zone has a
`set_trip_hyst` accessor. -/
theorem create_trip_attrs_permissions (tz : thermal_zone_device)
    (ops : thermal_zone_device_ops) (mask : Nat) (writable_trips : Bool) (a : allocator)
    (hret : (create_trip_attrs tz ops mask writable_trips a).2.2 = 0)
    (i : Nat) (hi : i < tz.trips) (_hi31 : i < 31) :
    (∃ t, trip_attr_at (create_trip_attrs tz ops mask writable_trips a).1
          (trip_attr_ptr.trip_type i) = some t ∧
        t.mode = S_IRUGO ∧ t.attr_store = none ∧
        t.attr_show = some attr_handler.trip_point_type_show) ∧
    (∃ t, trip_attr_at (create_trip_attrs tz ops mask writable_trips a).1
          (trip_attr_ptr.trip_temp i) = some t ∧
        t.attr_show = some attr_handler.trip_point_temp_show ∧
        (writable_trips = true ∧ mask.testBit i = true →
          t.mode = S_IRUGO ||| S_IWUSR ∧
          t.attr_store = some attr_handler.trip_point_temp_store) ∧
        (¬ (writable_trips = true ∧ mask.testBit i = true) →
          t.mode = S_IRUGO ∧ t.attr_store = none)) ∧
    (ops.get_trip_hyst.isSome = true →
      ∃ t, trip_attr_at (create_trip_attrs tz ops mask writable_trips a).1
          (trip_attr_ptr.trip_hyst i) = some t ∧
        t.attr_show = some attr_handler.trip_point_hyst_show ∧
        (ops.set_trip_hyst.isSome = true →
          t.mode = S_IRUGO ||| S_IWUSR ∧
          t.attr_store = some attr_handler.trip_point_hyst_store) ∧
        (ops.set_trip_hyst.isSome = false → t.mode = S_IRUGO ∧ t.attr_store = none)) := by
  obtain ⟨-, a', p1, p2, p4, hyst, hcreate, -, hhyst⟩ :=
    create_trip_attrs_ok tz ops mask writable_trips a hret
  rw [hcreate]
  refine ⟨⟨trip_type_attr i, ?_, rfl, rfl, rfl⟩, ⟨trip_temp_attr mask writable_trips i, ?_, ?_, ?_, ?_⟩, ?_⟩
  · simp [trip_attr_at, List.getElem?_range hi]
  · simp [trip_attr_at, List.getElem?_range hi]
  · unfold trip_temp_attr; split <;> rfl
  · intro h
    have hc : writable_trips = true ∧ mask &&& (1 <<< i) ≠ 0 := ⟨h.1, (mask_bit_iff mask i).mpr h.2⟩
    simp only [trip_temp_attr, if_pos hc, and_self]
  · intro h
    have hc : ¬ (writable_trips = true ∧ mask &&& (1 <<< i) ≠ 0) :=
      fun e => h ⟨e.1, (mask_bit_iff mask i).mp e.2⟩
    simp only [trip_temp_attr, if_neg hc, and_self]
  · intro hs
    have hn : ops.get_trip_hyst.isNone = false := by
      cases hg : ops.get_trip_hyst <;> simp_all
    obtain ⟨p3, hp3⟩ := hhyst hn
    refine ⟨trip_hyst_attr ops i, ?_, ?_, ?_, ?_⟩
    · simp [trip_attr_at, hp3, List.getElem?_range hi]
    · unfold trip_hyst_attr; split <;> rfl
    · intro h
      simp only [trip_hyst_attr, h, if_true, and_self]
    · intro h
      simp only [trip_hyst_attr, h, Bool.false_eq_true, if_false, and_self]

/-- Witness of C15: trip `1` of the sample zone, with mask `2` and writable trips. -/
theorem create_trip_attrs_permissions_witness :
    ((create_trip_attrs sample_zone sample_ops 2 true fresh_allocator).2.2 = 0 ∧
      1 < sample_zone.trips ∧ 1 < 31) ∧
    (∃ t, trip_attr_at (create_trip_attrs sample_zone sample_ops 2 true fresh_allocator).1
          (trip_attr_ptr.trip_type 1) = some t ∧
        t.mode = S_IRUGO ∧ t.attr_store = none ∧
        t.attr_show = some attr_handler.trip_point_type_show) ∧
    (∃ t, trip_attr_at (create_trip_attrs sample_zone sample_ops 2 true fresh_allocator).1
          (trip_attr_ptr.trip_temp 1) = some t ∧
        t.attr_show = some attr_handler.trip_point_temp_show ∧
        (true = true ∧ (2 : Nat).testBit 1 = true →
          t.mode = S_IRUGO ||| S_IWUSR ∧
          t.attr_store = some attr_handler.trip_point_temp_store) ∧
        (¬ (true = true ∧ (2 : Nat).testBit 1 = true) →
          t.mode = S_IRUGO ∧ t.attr_store = none)) ∧
    (sample_ops.get_trip_hyst.isSome = true →
      ∃ t, trip_attr_at (create_trip_attrs sample_zone sample_ops 2 true fresh_allocator).1
          (trip_attr_ptr.trip_hyst 1) = some t ∧
        t.attr_show = some attr_handler.trip_point_hyst_show ∧
        (sample_ops.set_trip_hyst.isSome = true →
          t.mode = S_IRUGO ||| S_IWUSR ∧
          t.attr_store = some attr_handler.trip_point_hyst_store) ∧
        (sample_ops.set_trip_hyst.isSome = false → t.mode = S_IRUGO ∧ t.attr_store = none)) :=
  ⟨by decide,
    create_trip_attrs_permissions sample_zone sample_ops 2 true fresh_allocator (by decide) 1
      (by decide) (by decide)⟩

/-- C16, as stated, fails: for the sample zone (two trips) with accessors that lack
`get_trip_temp`, `thermal_zone_create_device_groups` succeeds, builds the trip
attribute arrays and installs the trips group in the slot after the static groups. -/
theorem trips_group_built_without_get_trip_temp :
    sample_ops_no_temp.get_trip_temp.isNone = true ∧
    (thermal_zone_create_device_groups sample_zone sample_ops_no_temp 0 true
      fresh_allocator).2.2 = 0 ∧
    (thermal_zone_create_device_groups sample_zone sample_ops_no_temp 0 true
      fresh_allocator).1.device_groups.map (fun p => p.2.getD 3 none) =
        some (some attribute_group_ptr.trips_attribute_group) ∧
    (thermal_zone_create_device_groups sample_zone sample_ops_no_temp 0 true
      fresh_allocator).1.trip_temp_attrs.isSome = true ∧
    (trip_catalogue (thermal_zone_create_device_groups sample_zone sample_ops_no_temp 0 true
      fresh_allocator).1).length = 6 := by
  decide

/-- C16 (amended): a successful `thermal_zone_create_device_groups` installs the three
static groups and a final `NULL`; on a zone without trip points the slot after the
static groups stays empty, no trip attribute array is built and the array of groups is
the only allocation; on a zone with at least one trip point that slot holds the trips
group, whether or not the zone has a `get_trip_temp` accessor. -/
theorem trips_group_presence (tz : thermal_zone_device) (ops : thermal_zone_device_ops)
    (mask : Nat) (writable_trips : Bool) (a : allocator)
    (hret : (thermal_zone_create_device_groups tz ops mask writable_trips a).2.2 = 0) :
    ∃ p groups,
      (thermal_zone_create_device_groups tz ops mask writable_trips a).1.device_groups =
        some (p, groups) ∧
      groups.length = 5 ∧
      groups.take 3 = [some attribute_group_ptr.thermal_zone_attribute_group,
        some attribute_group_ptr.thermal_zone_mode_attribute_group,
        some attribute_group_ptr.thermal_zone_passive_attribute_group] ∧
      groups[4]? = some none ∧
      (tz.trips = 0 →
        groups[3]? = some none ∧
        thermal_zone_create_device_groups tz ops mask writable_trips a =
          ({ tz with device_groups := some (p, groups) }, (kcalloc a).1, 0)) ∧
      (tz.trips ≠ 0 →
        groups[3]? = some (some attribute_group_ptr.trips_attribute_group) ∧
        (thermal_zone_create_device_groups tz ops mask writable_trips
          a).1.trips_attribute_group_attrs.isSome = true) := by
  obtain ⟨a1, p, hk, hzero, hpos⟩ := create_device_groups_ok tz ops mask writable_trips a hret
  by_cases h0 : tz.trips = 0
  · refine ⟨p, static_device_groups 5, by rw [hzero h0], ?_, ?_, ?_, ?_, fun h => absurd h0 h⟩
    · rw [static_device_groups_eq]; rfl
    · rw [static_device_groups_eq]; rfl
    · rw [static_device_groups_eq]; rfl
    · intro _
      refine ⟨by rw [static_device_groups_eq]; rfl, ?_⟩
      rw [hzero h0, hk]
  · obtain ⟨hc, hg⟩ := hpos h0
    obtain ⟨-, a', p1, p2, p4, hyst, hcreate, -, -⟩ :=
      create_trip_attrs_ok tz ops mask writable_trips a1 hc
    refine ⟨p, (static_device_groups 5).set 3 (some attribute_group_ptr.trips_attribute_group),
      by rw [hg], ?_, ?_, ?_, fun h => absurd h h0, ?_⟩
    · rw [static_device_groups_eq]; rfl
    · rw [static_device_groups_eq]; rfl
    · rw [static_device_groups_eq]; rfl
    · intro _
      refine ⟨by rw [static_device_groups_eq]; rfl, ?_⟩
      rw [hg, hcreate]
      rfl

/-- Witness of C16 (amended): the sample zone with accessors lacking `get_trip_temp`. -/
theorem trips_group_presence_witness :
    (thermal_zone_create_device_groups sample_zone sample_ops_no_temp 0 true
      fresh_allocator).2.2 = 0 ∧
    ∃ p groups,
      (thermal_zone_create_device_groups sample_zone sample_ops_no_temp 0 true
        fresh_allocator).1.device_groups = some (p, groups) ∧
      groups.length = 5 ∧
      groups.take 3 = [some attribute_group_ptr.thermal_zone_attribute_group,
        some attribute_group_ptr.thermal_zone_mode_attribute_group,
        some attribute_group_ptr.thermal_zone_passive_attribute_group] ∧
      groups[4]? = some none ∧
      (sample_zone.trips = 0 →
        groups[3]? = some none ∧
        thermal_zone_create_device_groups sample_zone sample_ops_no_temp 0 true
            fresh_allocator =
          ({ sample_zone with device_groups := some (p, groups) },
            (kcalloc fresh_allocator).1, 0)) ∧
      (sample_zone.trips ≠ 0 →
        groups[3]? = some (some attribute_group_ptr.trips_attribute_group) ∧
        (thermal_zone_create_device_groups sample_zone sample_ops_no_temp 0 true
          fresh_allocator).1.trips_attribute_group_attrs.isSome = true) :=
  ⟨by decide,
    trips_group_presence sample_zone sample_ops_no_temp 0 true fresh_allocator (by decide)⟩

/-- C17 (evaluation of the code where it departs from the claim): on a zone with three
trip points whose accessors all succeed, `config_show` renders the line `trip 0 2 `,
without the index `1`: the offset into `buf_trip` is assigned the length of the last
entry instead of being advanced by it. The report of the sample zone without trip
points consists of the four leading lines only. -/
theorem config_show_trip_line_overwritten :
    three_trip_zone.trips = 3 ∧
    config_trip_list 3 = "0 2 ".toList ∧
    config_show 4096 three_trip_zone sample_ops sample_cdevs true =
      (136, ("sensor gpu-thermal\nalgo_type step_wise\npolling_delay 0\npassive_delay 250\n" ++
        "trip 0 2 \nset_temp 85000 70000 70000 \nclr_temp 2000 1000 1000 \n").toList) ∧
    config_show 4096 sample_no_trip_zone sample_ops sample_cdevs true =
      (73, ("sensor batt-thermal\nalgo_type user_space\npolling_delay 0\n" ++
        "passive_delay 0\n").toList) := by
  decide

/-- C18, as stated, fails: on a zone with one trip point whose temperature accessor
succeeds with `-2000000000`, the scratch buffer of eleven bytes holds ten characters
and `config_show` renders `set_temp -200000000`, neither the temperature of the trip
nor followed by a space. -/
theorem config_show_set_temp_truncated :
    one_trip_zone.trips = 1 ∧
    config_value_list (fun _ => (0, -2000000000)) (List.range 1) = "-2000000000 ".toList ∧
    config_show 4096 one_trip_zone extreme_ops sample_cdevs true =
      (101, ("sensor skin-thermal\nalgo_type user_space\npolling_delay 0\npassive_delay 0\n" ++
        "trip 0 \nset_temp -200000000\n").toList) := by
  decide

/-- C19, as stated, fails: on the scenario zone, which has a binding with a cooling
device, `config_show` renders no `device`, `upper_limit` or `lower_limit` line when the
zone has no `get_trip_temp` accessor, and it cuts the type name of the cooling device
when that name has nineteen characters. -/
theorem config_show_device_list_missing :
    scenario_zone.thermal_instances.countP (fun pos => pos.cdev.isSome) = 1 ∧
    config_show 4096 scenario_zone sample_ops_no_temp sample_cdevs true =
      (73, ("sensor cpu-thermal\nalgo_type step_wise\npolling_delay 0\n" ++
        "passive_delay 250\n").toList) ∧
    config_cdev_list scenario_zone (instance_cdev_type long_name_cdevs) =
      " thermal-devfreq-gpu".toList ∧
    config_show 4096 scenario_zone sample_ops long_name_cdevs true =
      (182, ("sensor cpu-thermal\nalgo_type step_wise\npolling_delay 0\npassive_delay 250\n" ++
        "trip 0 1 \nset_temp 85000 70000 \nclr_temp 2000 1000 \n" ++
        "device  thermal-devfreq-gp\nupper_limit  3\nlower_limit  0\n").toList) :=
  ⟨by decide, by decide, by decide, config_show_long_name_sample⟩

/-- C20, as stated, fails: when `get_trip_temp` reports the non-zero result `1` for the
only trip of a zone, `config_show` returns the byte count `91` of a report whose
`set_temp` line is empty. -/
theorem config_show_positive_result_not_aborted :
    one_trip_zone.trips = 1 ∧
    positive_ret_ops.get_trip_temp.map (fun accessor => (accessor 0).1) = some 1 ∧
    config_show 4096 one_trip_zone positive_ret_ops sample_cdevs true =
      (91, ("sensor skin-thermal\nalgo_type user_space\npolling_delay 0\npassive_delay 0\n" ++
        "trip 0 \nset_temp \n").toList) := by
  decide

/-- C18 (amended): on a zone with `T ≥ 1` trip points whose accessors succeed on every
trip, if the list of temperatures (and, with a `get_trip_hyst` accessor, the list of
hystereses) is shorter than the scratch buffer of `11 * T` bytes and the whole report is
shorter than the page, `config_show` returns the length of the report and renders,
after the four leading lines and the `trip` line, a `set_temp` line holding the
temperature of every trip `0 .. T - 1` in index order, each as a signed decimal
followed by one space, then a `clr_temp` line holding every hysteresis in the same form
if the zone has a `get_trip_hyst` accessor and no such line if it has none, then the
lines of the cooling devices. -/
theorem config_show_temperatures (page_size : Nat) (tz : thermal_zone_device)
    (ops : thermal_zone_device_ops) (cdevs : Nat → thermal_cooling_device)
    (f : Nat → Int × Int) (hT : tz.trips ≠ 0) (hf : ops.get_trip_temp = some f)
    (h0 : ∀ i, i < tz.trips → (f i).1 = 0)
    (hh : ∀ g, ops.get_trip_hyst = some g → ∀ i, i < tz.trips → (g i).1 = 0)
    (hfit : (config_value_list f (List.range tz.trips)).length < tz.trips * UINT_MAX_CHARACTER)
    (hhfit : (config_hyst_list ops (List.range tz.trips)).length <
      tz.trips * UINT_MAX_CHARACTER)
    (hpage : (config_head tz ++ config_trip_part tz ops f ++
      config_cdev_part tz cdevs).length < page_size) :
    config_show page_size tz ops cdevs true =
      (((config_head tz ++ config_trip_part tz ops f ++ config_cdev_part tz cdevs).length : Int),
        config_head tz ++ config_trip_part tz ops f ++ config_cdev_part tz cdevs) ∧
    config_trip_part tz ops f =
      "trip ".toList ++ config_trip_list tz.trips ++ "\n".toList ++
      ("set_temp ".toList ++
        ((List.range tz.trips).map (fun i => fmt_d (f i).2 ++ " ".toList)).flatten ++
        "\n".toList) ++
      (match ops.get_trip_hyst with
        | none => []
        | some g => "clr_temp ".toList ++
            ((List.range tz.trips).map (fun i => fmt_d (g i).2 ++ " ".toList)).flatten ++
            "\n".toList) := by
  obtain ⟨t, hloop, hlines⟩ := config_show_trips_lines tz ops f hT hf h0 hh hfit hhfit
  refine ⟨?_, ?_⟩
  · rw [config_show_ok page_size tz ops cdevs hT (by simp [hf]) t hloop, hlines]
    have e : page_of page_size
        (config_head tz ++ config_trip_part tz ops f ++ config_cdev_part tz cdevs) =
        (config_head tz ++ config_trip_part tz ops f ++ config_cdev_part tz cdevs,
          (config_head tz ++ config_trip_part tz ops f ++ config_cdev_part tz cdevs).length) :=
      page_of_fits _ _ hpage
    unfold config_trip_part config_cdev_part at e
    unfold config_trip_part config_cdev_part
    rw [e]
  · unfold config_trip_part config_hyst_line config_value_list
    cases ops.get_trip_hyst <;> rfl

/-- Instance of the amended C18 at the scenario zone: two trips at `85000` and `70000`
with hystereses `2000` and `1000`, on a page of 4096 bytes. -/
theorem config_show_temperatures_witness :
    scenario_zone.trips ≠ 0 ∧
    (config_head scenario_zone ++
      config_trip_part scenario_zone sample_ops (fun i => (0, if i = 0 then 85000 else 70000)) ++
      config_cdev_part scenario_zone sample_cdevs).length < 4096 ∧
    (config_show 4096 scenario_zone sample_ops sample_cdevs true =
      (((config_head scenario_zone ++
        config_trip_part scenario_zone sample_ops
          (fun i => (0, if i = 0 then 85000 else 70000)) ++
        config_cdev_part scenario_zone sample_cdevs).length : Int),
        config_head scenario_zone ++
        config_trip_part scenario_zone sample_ops
          (fun i => (0, if i = 0 then 85000 else 70000)) ++
        config_cdev_part scenario_zone sample_cdevs) ∧
    config_trip_part scenario_zone sample_ops (fun i => (0, if i = 0 then 85000 else 70000)) =
      "trip ".toList ++ config_trip_list scenario_zone.trips ++ "\n".toList ++
      ("set_temp ".toList ++
        ((List.range scenario_zone.trips).map
          (fun i => fmt_d ((fun i => ((0 : Int), if i = 0 then (85000 : Int) else 70000)) i).2 ++
            " ".toList)).flatten ++
        "\n".toList) ++
      (match sample_ops.get_trip_hyst with
        | none => []
        | some g => "clr_temp ".toList ++
            ((List.range scenario_zone.trips).map
              (fun i => fmt_d (g i).2 ++ " ".toList)).flatten ++
            "\n".toList)) ∧
    config_trip_part scenario_zone sample_ops (fun i => (0, if i = 0 then 85000 else 70000)) =
      "trip 0 1 \nset_temp 85000 70000 \nclr_temp 2000 1000 \n".toList :=
  ⟨by decide, scenario_report_length,
    config_show_temperatures 4096 scenario_zone sample_ops sample_cdevs
      (fun i => (0, if i = 0 then 85000 else 70000)) (by decide) rfl (fun _ _ => rfl)
      (fun g hg i _ => by cases hg; rfl) (by decide) (by decide) scenario_report_length,
    by decide⟩

/-- C19 (amended): on a zone with `T ≥ 1` trip points and a `get_trip_temp` accessor
whose accessors report no negative result, with at least one binding that has a cooling
device, if each of the three lists is shorter than the scratch buffer of 20 bytes per
such binding and the report is shorter than the page, `config_show` appends to the
report of the same zone without bindings the lines `device`, `upper_limit` and
`lower_limit`; each list visits the trips `0 .. T - 1` in ascending order and, for each
trip that has bindings with a cooling device, holds one blank followed by the type
names (respectively the upper bounds, the lower bounds) of those bindings in the order
of the list of bindings, joined with `+`; trips without such bindings contribute
nothing. -/
theorem config_show_cdev_lists (page_size : Nat) (tz : thermal_zone_device)
    (ops : thermal_zone_device_ops) (cdevs : Nat → thermal_cooling_device)
    (f : Nat → Int × Int) (hT : tz.trips ≠ 0) (hf : ops.get_trip_temp = some f)
    (h0 : ∀ i, i < tz.trips → 0 ≤ (f i).1)
    (hh : ∀ g, ops.get_trip_hyst = some g → ∀ i, i < tz.trips → 0 ≤ (g i).1)
    (hc : tz.thermal_instances.countP (fun pos => pos.cdev.isSome) ≠ 0)
    (hnames : (config_cdev_list tz (instance_cdev_type cdevs)).length <
      tz.thermal_instances.countP (fun pos => pos.cdev.isSome) * THERMAL_NAME_LENGTH)
    (huppers : (config_cdev_list tz (fun pos => fmt_d pos.upper)).length <
      tz.thermal_instances.countP (fun pos => pos.cdev.isSome) * THERMAL_NAME_LENGTH)
    (hlowers : (config_cdev_list tz (fun pos => fmt_d pos.lower)).length <
      tz.thermal_instances.countP (fun pos => pos.cdev.isSome) * THERMAL_NAME_LENGTH)
    (hpage : ((config_show page_size { tz with thermal_instances := [] } ops cdevs true).2 ++
      config_device_part tz cdevs).length < page_size) :
    config_show page_size tz ops cdevs true =
      ((((config_show page_size { tz with thermal_instances := [] } ops cdevs true).2 ++
          config_device_part tz cdevs).length : Int),
        (config_show page_size { tz with thermal_instances := [] } ops cdevs true).2 ++
          config_device_part tz cdevs) ∧
    config_device_part tz cdevs =
      "device ".toList ++
        ((List.range tz.trips).map (fun i =>
          config_group ((trip_bindings tz i).map (instance_cdev_type cdevs)))).flatten ++
        "\n".toList ++
      ("upper_limit ".toList ++
        ((List.range tz.trips).map (fun i =>
          config_group ((trip_bindings tz i).map (fun pos => fmt_d pos.upper)))).flatten ++
        "\n".toList) ++
      ("lower_limit ".toList ++
        ((List.range tz.trips).map (fun i =>
          config_group ((trip_bindings tz i).map (fun pos => fmt_d pos.lower)))).flatten ++
        "\n".toList) := by
  refine ⟨?_, rfl⟩
  obtain ⟨t, hloop⟩ := config_show_trips_succeeds ops f hf (tz.trips * UINT_MAX_CHARACTER)
    (List.range tz.trips) ⟨[], 0, [], 0, [], 0⟩
    (fun i hi => h0 i (List.mem_range.mp hi))
    (fun g hg i hi => hh g hg i (List.mem_range.mp hi))
  have hpre : config_show page_size { tz with thermal_instances := [] } ops cdevs true =
      (((page_of page_size (config_head tz ++ config_trip_lines t)).2 : Int),
        (page_of page_size (config_head tz ++ config_trip_lines t)).1) := by
    have h := config_show_ok page_size { tz with thermal_instances := [] } ops cdevs hT
      (by simp [hf]) t hloop
    simp only [List.countP_nil, if_true, List.append_nil] at h
    exact h
  rw [hpre] at hpage ⊢
  simp only [page_of] at hpage ⊢
  have hlen := config_device_part_length tz cdevs
  have htake : (config_head tz ++ config_trip_lines t).take (page_size - 1) =
      config_head tz ++ config_trip_lines t := by
    apply take_eq_self_of_length_lt
    rw [List.length_append] at hpage
    omega
  rw [htake] at hpage ⊢
  rw [config_show_ok page_size tz ops cdevs hT (by simp [hf]) t hloop]
  have hpart := config_cdev_part_fits tz cdevs hc hnames huppers hlowers
  unfold config_cdev_part at hpart
  rw [hpart, page_of_fits _ _ hpage]

/-- Instance of the amended C19 at the scenario zone: one cooling device `fan` bound to
trip `1` with bounds `3` and `0`, on a page of 4096 bytes. -/
theorem config_show_cdev_lists_witness :
    scenario_zone.trips ≠ 0 ∧
    scenario_zone.thermal_instances.countP (fun pos => pos.cdev.isSome) ≠ 0 ∧
    (config_show 4096 scenario_zone sample_ops sample_cdevs true =
      ((((config_show 4096 { scenario_zone with thermal_instances := [] } sample_ops
            sample_cdevs true).2 ++
          config_device_part scenario_zone sample_cdevs).length : Int),
        (config_show 4096 { scenario_zone with thermal_instances := [] } sample_ops
            sample_cdevs true).2 ++
          config_device_part scenario_zone sample_cdevs) ∧
    config_device_part scenario_zone sample_cdevs =
      "device ".toList ++
        ((List.range scenario_zone.trips).map (fun i =>
          config_group ((trip_bindings scenario_zone i).map
            (instance_cdev_type sample_cdevs)))).flatten ++
        "\n".toList ++
      ("upper_limit ".toList ++
        ((List.range scenario_zone.trips).map (fun i =>
          config_group ((trip_bindings scenario_zone i).map
            (fun pos => fmt_d pos.upper)))).flatten ++
        "\n".toList) ++
      ("lower_limit ".toList ++
        ((List.range scenario_zone.trips).map (fun i =>
          config_group ((trip_bindings scenario_zone i).map
            (fun pos => fmt_d pos.lower)))).flatten ++
        "\n".toList)) ∧
    config_cdev_list scenario_zone (instance_cdev_type sample_cdevs) = " fan".toList ∧
    config_cdev_list scenario_zone (fun pos => fmt_d pos.upper) = " 3".toList ∧
    config_cdev_list scenario_zone (fun pos => fmt_d pos.lower) = " 0".toList ∧
    config_cdev_list sample_forced_zone (instance_cdev_type sample_cdevs) =
      " Processor+fan fan".toList :=
  ⟨by decide, by decide,
    config_show_cdev_lists 4096 scenario_zone sample_ops sample_cdevs
      (fun i => (0, if i = 0 then 85000 else 70000)) (by decide) rfl
      (fun _ _ => Int.le_refl 0) (fun g hg i _ => by cases hg; exact Int.le_refl 0)
      (by decide) (by decide) (by decide) (by decide) scenario_device_report_length,
    by decide, by decide, by decide, by decide⟩

/-- C20 (amended): on a zone with `T ≥ 1` trip points and a `get_trip_temp` accessor, if
the trip-temperature or the trip-hysteresis accessor reports a negative result for some
trip index below `T`, `config_show` returns a negative value, which is the result that
one of the two accessors reported for some trip, instead of a byte count, and the page
holds no trip, temperature or hysteresis listing. -/
theorem config_show_aborts (page_size : Nat) (tz : thermal_zone_device)
    (ops : thermal_zone_device_ops) (cdevs : Nat → thermal_cooling_device)
    (f : Nat → Int × Int) (hT : tz.trips ≠ 0) (hf : ops.get_trip_temp = some f)
    (i : Nat) (hi : i < tz.trips)
    (hfail : (f i).1 < 0 ∨ ∃ g, ops.get_trip_hyst = some g ∧ (g i).1 < 0) :
    (config_show page_size tz ops cdevs true).1 < 0 ∧
    (∃ j, j < tz.trips ∧
      ((config_show page_size tz ops cdevs true).1 = (f j).1 ∨
        ∃ g, ops.get_trip_hyst = some g ∧
          (config_show page_size tz ops cdevs true).1 = (g j).1)) ∧
    (config_show page_size tz ops cdevs true).2 = (page_of page_size (config_head tz)).1 := by
  obtain ⟨ret, j, hloop, hneg, hj, hwho⟩ :=
    config_show_trips_fails ops f hf (tz.trips * UINT_MAX_CHARACTER) (List.range tz.trips)
      ⟨[], 0, [], 0, [], 0⟩ ⟨i, List.mem_range.mpr hi, hfail⟩
  rw [config_show_error page_size tz ops cdevs hT (by simp [hf]) ret hloop]
  exact ⟨hneg, ⟨j, List.mem_range.mp hj, hwho⟩, rfl⟩

/-- Instance of the amended C20 at the scenario zone with accessors whose
`get_trip_hyst` fails with `-EINVAL` on trip `1`. -/
theorem config_show_aborts_witness :
    scenario_zone.trips ≠ 0 ∧ 1 < scenario_zone.trips ∧
    failing_ops.get_trip_hyst.map (fun g => (g 1).1) = some (-EINVAL) ∧
    ((config_show 4096 scenario_zone failing_ops sample_cdevs true).1 < 0 ∧
    (∃ j, j < scenario_zone.trips ∧
      ((config_show 4096 scenario_zone failing_ops sample_cdevs true).1 =
          ((fun i => ((0 : Int), if i = 0 then (85000 : Int) else 70000)) j).1 ∨
        ∃ g, failing_ops.get_trip_hyst = some g ∧
          (config_show 4096 scenario_zone failing_ops sample_cdevs true).1 = (g j).1)) ∧
    (config_show 4096 scenario_zone failing_ops sample_cdevs true).2 =
      (page_of 4096 (config_head scenario_zone)).1) ∧
    (config_show 4096 scenario_zone failing_ops sample_cdevs true).1 = -EINVAL :=
  ⟨by decide, by decide, by decide,
    config_show_aborts 4096 scenario_zone failing_ops sample_cdevs
      (fun i => (0, if i = 0 then 85000 else 70000)) (by decide) rfl 1 (by decide)
      (Or.inr ⟨_, rfl, by decide⟩),
    by decide⟩

/-- C21, as stated, fails: the text `enabledX`, which is neither `enabled` nor
`disabled`, is not refused with `-EINVAL`; `mode_store` calls `set_mode` with
`THERMAL_DEVICE_ENABLED` and returns the byte count, and `disabledX` runs the
clearing of the zone. -/
theorem mode_store_accepts_longer_text :
    "enabledX".toList ≠ "enabled".toList ∧ "enabledX".toList ≠ "disabled".toList ∧
    (mode_store sample_zone sample_ops sample_cdevs "enabledX".toList 8).map
        (fun r => (r.1, r.2.2)) =
      some (sample_zone,
        [zone_call.set_mode thermal_device_mode.THERMAL_DEVICE_ENABLED], 8) ∧
    (mode_store sample_zone sample_ops sample_cdevs "disabledX".toList 9).map
        (fun r => r.2.2) =
      some ([zone_call.set_mode thermal_device_mode.THERMAL_DEVICE_DISABLED], 9) := by
  decide

/-- C21 (amended): without a `set_mode` accessor `mode_store` fails with `-EPERM`,
makes no call and leaves the zone and the cooling devices as they are. With the
accessor, a text that begins with `enabled` only calls `set_mode` with
`THERMAL_DEVICE_ENABLED`, leaves the zone (temperature, passive and forced-passive
state, bindings) and the cooling devices unchanged and returns the result of the
accessor if that is non-zero, else the byte count; a text that begins with `disabled`
runs `thermal_zone_device_clear`; a text that begins with neither fails with `-EINVAL`
without any call or change. -/
theorem mode_store_cases (tz : thermal_zone_device) (ops : thermal_zone_device_ops)
    (cdevs : Nat → thermal_cooling_device) (buf : List Char) (count : Nat) :
    (ops.set_mode = none → mode_store tz ops cdevs buf count = some (tz, cdevs, [], -EPERM)) ∧
    (∀ set_mode, ops.set_mode = some set_mode →
      ("enabled".toList <+: buf →
        mode_store tz ops cdevs buf count =
          some (tz, cdevs, [zone_call.set_mode thermal_device_mode.THERMAL_DEVICE_ENABLED],
            if set_mode thermal_device_mode.THERMAL_DEVICE_ENABLED ≠ 0 then
              set_mode thermal_device_mode.THERMAL_DEVICE_ENABLED
            else (count : Int))) ∧
      ("disabled".toList <+: buf →
        mode_store tz ops cdevs buf count =
          (thermal_zone_device_clear tz ops cdevs).map
            (fun r => (r.1, r.2.1, r.2.2.1, if r.2.2.2 ≠ 0 then r.2.2.2 else (count : Int)))) ∧
      (¬ "enabled".toList <+: buf → ¬ "disabled".toList <+: buf →
        mode_store tz ops cdevs buf count = some (tz, cdevs, [], -EINVAL))) := by
  have he : strncmp buf "enabled".toList ("enabled".length + 1 - 1) = 0 ↔
      "enabled".toList <+: buf := strncmp_eq_zero_iff "enabled".toList buf
  have hd : strncmp buf "disabled".toList ("disabled".length + 1 - 1) = 0 ↔
      "disabled".toList <+: buf := strncmp_eq_zero_iff "disabled".toList buf
  refine ⟨?_, ?_⟩
  · intro h
    simp only [mode_store, h]
  · intro set_mode h
    refine ⟨?_, ?_, ?_⟩
    · intro hp
      simp only [mode_store, h]
      rw [if_pos (he.mpr hp)]
    · intro hp
      simp only [mode_store, h]
      rw [if_neg (fun e => enabled_not_disabled buf hp (he.mp e)), if_pos (hd.mpr hp)]
      cases thermal_zone_device_clear tz ops cdevs with
      | none => rfl
      | some r => rfl
    · intro hne hnd
      simp only [mode_store, h]
      rw [if_neg (fun e => hne (he.mp e)), if_neg (fun e => hnd (hd.mp e)),
        if_pos neg_EINVAL_ne_zero]

/-- Instance of the amended C21 at the sample zone: the text `enabled` followed by a
newline, and a text that is neither. -/
theorem mode_store_cases_witness :
    mode_store sample_zone sample_ops sample_cdevs "enabled\n".toList 8 =
      some (sample_zone, sample_cdevs,
        [zone_call.set_mode thermal_device_mode.THERMAL_DEVICE_ENABLED], 8) ∧
    mode_store sample_zone sample_ops sample_cdevs "auto".toList 4 =
      some (sample_zone, sample_cdevs, [], -EINVAL) ∧
    mode_store sample_zone { sample_ops with set_mode := none } sample_cdevs
      "enabled".toList 7 = some (sample_zone, sample_cdevs, [], -EPERM) :=
  ⟨((mode_store_cases sample_zone sample_ops sample_cdevs "enabled\n".toList 8).2
      (fun _ => 0) rfl).1 (by decide),
    ((mode_store_cases sample_zone sample_ops sample_cdevs "auto".toList 4).2
      (fun _ => 0) rfl).2.2 (by decide) (by decide),
    (mode_store_cases sample_zone { sample_ops with set_mode := none } sample_cdevs
      "enabled".toList 7).1 rfl⟩

/-- C22: `trip_point_temp_store` fails with `-EPERM` without a `set_trip_temp`
accessor; for an attribute name from which a trip index is parsed, it fails with
`-EINVAL` without calling the accessor when `kstrtoint` rejects the text, returns the
non-zero result of the accessor without any notification when the accessor fails, and
otherwise calls the accessor once, with exactly the parsed index and value, then
requests exactly one `thermal_zone_device_update` with `THERMAL_EVENT_UNSPECIFIED` and
returns the byte count. -/
theorem trip_point_temp_store_cases (ops : thermal_zone_device_ops) (attr_name : List Char)
    (kstrtoint_temperature : Option Int) (count : Nat) :
    (ops.set_trip_temp = none →
      trip_point_temp_store ops attr_name kstrtoint_temperature count = ([], -EPERM)) ∧
    (∀ set_trip_temp trip, ops.set_trip_temp = some set_trip_temp →
      sscanf_trip_point attr_name = some trip →
      (kstrtoint_temperature = none →
        trip_point_temp_store ops attr_name kstrtoint_temperature count = ([], -EINVAL)) ∧
      (∀ temperature, kstrtoint_temperature = some temperature →
        (set_trip_temp trip temperature ≠ 0 →
          trip_point_temp_store ops attr_name kstrtoint_temperature count =
            ([zone_call.set_trip_temp trip temperature], set_trip_temp trip temperature)) ∧
        (set_trip_temp trip temperature = 0 →
          trip_point_temp_store ops attr_name kstrtoint_temperature count =
            ([zone_call.set_trip_temp trip temperature,
              zone_call.thermal_zone_device_update
                thermal_notify_event.THERMAL_EVENT_UNSPECIFIED], (count : Int))))) := by
  refine ⟨?_, ?_⟩
  · intro h
    simp only [trip_point_temp_store, h]
  · intro set_trip_temp trip h hname
    refine ⟨?_, ?_⟩
    · intro hk
      simp only [trip_point_temp_store, h, hname, hk]
    · intro temperature hk
      refine ⟨?_, ?_⟩
      · intro hret
        simp only [trip_point_temp_store, h, hname, hk]
        rw [if_pos hret]
      · intro hret
        simp only [trip_point_temp_store, h, hname, hk]
        rw [if_neg (by rw [hret]; decide)]

/-- Instance of C22 at the attribute `trip_point_1_temp` of the sample accessors, and
with an accessor that fails with `-EINVAL`. -/
theorem trip_point_temp_store_cases_witness :
    sscanf_trip_point "trip_point_1_temp".toList = some 1 ∧
    trip_point_temp_store sample_ops "trip_point_1_temp".toList (some 65000) 6 =
      ([zone_call.set_trip_temp 1 65000,
        zone_call.thermal_zone_device_update
          thermal_notify_event.THERMAL_EVENT_UNSPECIFIED], 6) ∧
    trip_point_temp_store sample_ops "trip_point_1_temp".toList none 6 = ([], -EINVAL) ∧
    trip_point_temp_store { sample_ops with set_trip_temp := some (fun _ _ => -EINVAL) }
      "trip_point_1_temp".toList (some 65000) 6 =
        ([zone_call.set_trip_temp 1 65000], -EINVAL) ∧
    trip_point_temp_store { sample_ops with set_trip_temp := none }
      "trip_point_1_temp".toList (some 65000) 6 = ([], -EPERM) :=
  ⟨by decide,
    (((trip_point_temp_store_cases sample_ops "trip_point_1_temp".toList (some 65000) 6).2
      (fun _ _ => 0) 1 rfl (by decide)).2 65000 rfl).2 rfl,
    ((trip_point_temp_store_cases sample_ops "trip_point_1_temp".toList none 6).2
      (fun _ _ => 0) 1 rfl (by decide)).1 rfl,
    (((trip_point_temp_store_cases
      { sample_ops with set_trip_temp := some (fun _ _ => -EINVAL) }
      "trip_point_1_temp".toList (some 65000) 6).2
      (fun _ _ => -EINVAL) 1 rfl (by decide)).2 65000 rfl).1 (by decide),
    (trip_point_temp_store_cases { sample_ops with set_trip_temp := none }
      "trip_point_1_temp".toList (some 65000) 6).1 rfl⟩

/-- C23: with a `set_trip_hyst` accessor, for an attribute name from which a trip index
is parsed and for every integer `v` that `kstrtoint` delivers, negative, zero or
large, `trip_point_hyst_store` calls the accessor once with exactly the parsed index
and `v`, without any test on `v`; it calls `thermal_zone_set_trips` afterwards if and
only if the accessor returned `0`, never requests `thermal_zone_device_update`, and
returns the byte count when the accessor returned `0` and the result of the accessor
otherwise. -/
theorem trip_point_hyst_store_passes_value (ops : thermal_zone_device_ops)
    (attr_name : List Char) (count : Nat) (set_trip_hyst : Int → Int → Int) (trip v : Int)
    (hacc : ops.set_trip_hyst = some set_trip_hyst)
    (hname : sscanf_trip_point attr_name = some trip) :
    trip_point_hyst_store ops attr_name (some v) count =
      (zone_call.set_trip_hyst trip v ::
        (if set_trip_hyst trip v = 0 then [zone_call.thermal_zone_set_trips] else []),
        if set_trip_hyst trip v = 0 then (count : Int) else set_trip_hyst trip v) ∧
    (zone_call.thermal_zone_set_trips ∈
        (trip_point_hyst_store ops attr_name (some v) count).1 ↔
      set_trip_hyst trip v = 0) ∧
    (∀ event, zone_call.thermal_zone_device_update event ∉
      (trip_point_hyst_store ops attr_name (some v) count).1) := by
  have e : trip_point_hyst_store ops attr_name (some v) count =
      (zone_call.set_trip_hyst trip v ::
        (if set_trip_hyst trip v = 0 then [zone_call.thermal_zone_set_trips] else []),
        if set_trip_hyst trip v = 0 then (count : Int) else set_trip_hyst trip v) := by
    simp only [trip_point_hyst_store, hacc, hname]
    by_cases hret : set_trip_hyst trip v = 0
    · simp [hret]
    · simp [hret]
  rw [e]
  refine ⟨rfl, ?_, ?_⟩
  · by_cases hret : set_trip_hyst trip v = 0
    · simp [hret]
    · simp [hret]
  · intro event
    by_cases hret : set_trip_hyst trip v = 0
    · simp [hret]
    · simp [hret]

/-- Instance of C23 at the attribute `trip_point_0_hyst` with the value `-5` and an
accessor that refuses negative values. -/
theorem trip_point_hyst_store_passes_value_witness :
    sscanf_trip_point "trip_point_0_hyst".toList = some 0 ∧
    trip_point_hyst_store sample_ops "trip_point_0_hyst".toList (some (-5)) 3 =
      ([zone_call.set_trip_hyst 0 (-5), zone_call.thermal_zone_set_trips], 3) ∧
    trip_point_hyst_store
      { sample_ops with set_trip_hyst := some (fun _ v => if v < 0 then -EINVAL else 0) }
      "trip_point_0_hyst".toList (some (-5)) 3 =
      ([zone_call.set_trip_hyst 0 (-5)], -EINVAL) :=
  ⟨by decide,
    (trip_point_hyst_store_passes_value sample_ops "trip_point_0_hyst".toList 3
      (fun _ _ => 0) 0 (-5) rfl (by decide)).1,
    (trip_point_hyst_store_passes_value
      { sample_ops with set_trip_hyst := some (fun _ v => if v < 0 then -EINVAL else 0) }
      "trip_point_0_hyst".toList 3 (fun _ v => if v < 0 then -EINVAL else 0) 0 (-5) rfl
      (by decide)).1⟩

/-- C25, as stated, fails: on a device with maximum state `32767` the `int` byte count
of the block comes out as `262192`, which leaves no room for `trans_table`; after one
transition `0 → 1` (a requested state below `N = 32768`, no counter wrapped)
`total_trans` is `1` while the cells of `trans_table` inside the block, none, sum
to `0`. -/
theorem total_trans_exceeds_cells_of_short_block :
    requests_below 32768 [stats_op.update 1 5] ∧
    transitions_since_reset (cooling_device_stats_setup (0, 32767) true 0)
      [stats_op.update 1 5] < UINT_MOD ∧
    (stats_run (cooling_device_stats_setup (0, 32767) true 0) [stats_op.update 1 5]).map
      (fun s => (s.max_states, s.total_trans, s.trans_table, s.trans_table.sum)) =
      some (32768, 1, [], 0) := by
  decide

/-- C25 (amended): for a device with `N = max_state + 1` states whose block size
`sizeof( *stats) + 8 * N + 4 * N * N` is in the range of `int`, in every stats state
reached from `cooling_device_stats_setup` by a sequence of updates that request states
below `N`, resets and reads, as long as the number of transitions made since the last
reset has not reached the range of the `unsigned int` counters (so that neither
`total_trans` nor a cell has wrapped), `total_trans` equals the sum of all `N * N`
cells of `trans_table`, and both equal that number. -/
theorem total_trans_eq_table_sum (max_state : Nat) (t0 : Int) (ops : List stats_op)
    (hfit : stats_block_fits max_state)
    (hreq : requests_below (max_state + 1) ops)
    (hwrap : transitions_since_reset
      (cooling_device_stats_setup (0, max_state) true t0) ops < UINT_MOD) :
    ∃ s, stats_run (cooling_device_stats_setup (0, max_state) true t0) ops = some s ∧
      s.trans_table.length = (max_state + 1) * (max_state + 1) ∧
      s.total_trans = s.trans_table.sum ∧
      s.total_trans =
        transitions_since_reset (cooling_device_stats_setup (0, max_state) true t0) ops := by
  obtain ⟨s0, s, hs0, _, hrun, hinv, hc⟩ := stats_setup_run max_state t0 ops hfit hreq
  rw [hs0] at hwrap ⊢
  obtain ⟨htot, hsum⟩ := hc hwrap
  refine ⟨s, hrun, ?_, ?_, htot⟩
  · rw [hinv.1.2, hinv.2.1]
  · rw [htot, hsum]

/-- Instance of C25 (amended): two states; a transition, a reset, two transitions, a
repeated request and a read leave `total_trans = 2`, the sum of the cells
`[0, 1, 1, 0]`. -/
theorem total_trans_eq_table_sum_witness :
    stats_block_fits 1 ∧
    requests_below 2 [stats_op.update 1 5, stats_op.reset 1 6, stats_op.update 0 9,
      stats_op.update 1 11, stats_op.update 1 12, stats_op.read 15] ∧
    (∃ s, stats_run (cooling_device_stats_setup (0, 1) true 0)
        [stats_op.update 1 5, stats_op.reset 1 6, stats_op.update 0 9,
          stats_op.update 1 11, stats_op.update 1 12, stats_op.read 15] = some s ∧
      s.trans_table.length = (1 + 1) * (1 + 1) ∧
      s.total_trans = s.trans_table.sum ∧
      s.total_trans = transitions_since_reset (cooling_device_stats_setup (0, 1) true 0)
        [stats_op.update 1 5, stats_op.reset 1 6, stats_op.update 0 9,
          stats_op.update 1 11, stats_op.update 1 12, stats_op.read 15]) ∧
    (stats_run (cooling_device_stats_setup (0, 1) true 0)
      [stats_op.update 1 5, stats_op.reset 1 6, stats_op.update 0 9,
        stats_op.update 1 11, stats_op.update 1 12, stats_op.read 15]).map
      (fun s => (s.total_trans, s.trans_table)) = some (2, [0, 1, 1, 0]) :=
  ⟨by decide, by decide,
    total_trans_eq_table_sum 1 0 [stats_op.update 1 5, stats_op.reset 1 6,
      stats_op.update 0 9, stats_op.update 1 11, stats_op.update 1 12, stats_op.read 15]
      (by decide) (by decide) (by decide),
    by decide⟩

/-- C26, as stated, fails: for a device that reports the maximum state `ULONG_MAX`,
`states++` wraps, so `cooling_device_stats_setup` leaves `max_states = 0`, not
`max_state + 1`, with no entry of `time_in_state`, and the index `state = 0` is not
below `max_states`; and on a device with maximum state `32767` the `int` byte count of
the block comes out as `262192`, which leaves no room for the `N * N` cells of
`trans_table`, so the index `0 * N + 1` of the first transition lies outside the
block. -/
theorem stats_object_short_of_reported_states :
    (cooling_device_stats_setup (0, 18446744073709551615) true 0).map
      (fun s => (s.max_states, s.state, s.time_in_state, s.trans_table,
        decide (s.state < s.max_states))) = some (0, 0, [], [], false) ∧
    (cooling_device_stats_setup (0, 32767) true 0).map
      (fun s => (s.max_states, s.state, s.trans_table,
        decide (s.state * s.max_states + 1 < s.trans_table.length))) =
      some (32768, 0, [], false) := by
  decide

/-- C26 (amended): for a device with `N = max_state + 1` states whose block size
`sizeof( *stats) + 8 * N + 4 * N * N` is in the range of `int`,
`cooling_device_stats_setup` creates the stats object with
`max_states = max_state + 1 = N`, `state = 0`, `N` entries of `time_in_state` and
`N * N` cells of `trans_table`; after every sequence of updates that request states
below `N`, resets and reads, `max_states` is still `N`, the two arrays still have `N`
and `N * N` entries and `state < N`, so that for every requested `new_state < N` the
index `state` into `time_in_state` and the index `state * max_states + new_state` into
`trans_table` that the next update uses are within the arrays, and the update leaves
`state = new_state < N`. -/
theorem stats_object_well_formed (max_state : Nat) (t0 : Int) (ops : List stats_op)
    (hfit : stats_block_fits max_state)
    (hreq : requests_below (max_state + 1) ops) :
    ∃ s0 s, cooling_device_stats_setup (0, max_state) true t0 = some s0 ∧
      s0.max_states = max_state + 1 ∧ s0.state = 0 ∧
      s0.time_in_state.length = max_state + 1 ∧
      s0.trans_table.length = (max_state + 1) * (max_state + 1) ∧
      stats_run (some s0) ops = some s ∧
      s.max_states = max_state + 1 ∧ s.state < max_state + 1 ∧
      s.time_in_state.length = max_state + 1 ∧
      s.trans_table.length = (max_state + 1) * (max_state + 1) ∧
      ∀ new_state now, new_state < max_state + 1 →
        s.state < s.time_in_state.length ∧
        s.state * s.max_states + new_state < s.trans_table.length ∧
        ∃ s', thermal_cooling_device_stats_update (some s) new_state now = some s' ∧
          s'.state = new_state ∧ s'.max_states = max_state + 1 := by
  obtain ⟨s0, s, hs0, hinv0, hrun, hinv, _⟩ := stats_setup_run max_state t0 ops hfit hreq
  have e := stats_setup_eq max_state t0 hfit
  rw [hs0] at e
  have e0 := Option.some.inj e
  obtain ⟨hwf, hn, hst, _, _⟩ := hinv
  refine ⟨s0, s, hs0, ?_, ?_, ?_, ?_, hrun, hn, hst, ?_, ?_, ?_⟩
  · rw [e0]
  · rw [e0]
  · rw [e0]; simp
  · rw [e0]; simp
  · rw [hwf.1, hn]
  · rw [hwf.2, hn]
  · intro new_state now hnew
    refine ⟨by rw [hwf.1, hn]; exact hst, ?_, ?_⟩
    · rw [hwf.2, hn]
      exact cell_index_lt _ _ _ hst hnew
    · by_cases heq : s.state = new_state
      · exact ⟨s, by simp [thermal_cooling_device_stats_update, heq], heq, hn⟩
      · exact ⟨_, stats_update_eq s new_state now heq, rfl, hn⟩

/-- Instance of C26 (amended): a device with maximum state `1`, after a transition, a
reset and a read. -/
theorem stats_object_well_formed_witness :
    stats_block_fits 1 ∧
    requests_below (1 + 1) [stats_op.update 1 5, stats_op.reset 1 6, stats_op.read 15] ∧
    ∃ s0 s, cooling_device_stats_setup (0, 1) true 0 = some s0 ∧
      s0.max_states = 1 + 1 ∧ s0.state = 0 ∧
      s0.time_in_state.length = 1 + 1 ∧
      s0.trans_table.length = (1 + 1) * (1 + 1) ∧
      stats_run (some s0) [stats_op.update 1 5, stats_op.reset 1 6, stats_op.read 15] =
        some s ∧
      s.max_states = 1 + 1 ∧ s.state < 1 + 1 ∧
      s.time_in_state.length = 1 + 1 ∧
      s.trans_table.length = (1 + 1) * (1 + 1) ∧
      ∀ new_state now, new_state < 1 + 1 →
        s.state < s.time_in_state.length ∧
        s.state * s.max_states + new_state < s.trans_table.length ∧
        ∃ s', thermal_cooling_device_stats_update (some s) new_state now = some s' ∧
          s'.state = new_state ∧ s'.max_states = 1 + 1 :=
  ⟨by decide, by decide,
    stats_object_well_formed 1 0 [stats_op.update 1 5, stats_op.reset 1 6, stats_op.read 15]
      (by decide) (by decide)⟩

/-- C24, as stated, fails: `thermal_zone_destroy_device_groups` does not reset the
pointers of the zone, so a second call after a build and a teardown of the sample zone
hands the five addresses, none of which is live any more, to `kfree` once again. -/
theorem destroy_device_groups_twice_frees_again :
    (thermal_zone_create_device_groups sample_zone sample_ops 2 true fresh_allocator).2.2 = 0 ∧
    (thermal_zone_destroy_device_groups
      (some (thermal_zone_create_device_groups sample_zone sample_ops 2 true
        fresh_allocator).1) sample_ops
      (thermal_zone_create_device_groups sample_zone sample_ops 2 true fresh_allocator).2.1) =
      { live := [], next := 6, plan := [], bad_free := 0 } ∧
    (thermal_zone_destroy_device_groups
      (some (thermal_zone_create_device_groups sample_zone sample_ops 2 true
        fresh_allocator).1) sample_ops
      (thermal_zone_destroy_device_groups
        (some (thermal_zone_create_device_groups sample_zone sample_ops 2 true
          fresh_allocator).1) sample_ops
        (thermal_zone_create_device_groups sample_zone sample_ops 2 true
          fresh_allocator).2.1)) =
      { live := [], next := 6, plan := [], bad_free := 5 } := by
  decide

/-- C24 (amended): with the allocator as the explicit list of live arrays, a successful
`thermal_zone_create_device_groups` on a zone with `T` trips adds one array for
`T = 0` and four or five (with a `get_trip_hyst` accessor) otherwise, and
`thermal_zone_destroy_device_groups` on the built zone releases exactly these: the
list of live arrays is the one before the build and no `kfree` met an address that was
not live. A build that fails leaves the list of live arrays as it was before the
attempt, with every `kfree` of the failure path on a live array. The teardown does not
reset the pointers of the zone: a second teardown releases no live array, but it
passes each of the addresses to `kfree` again. On a zone that was never built (null
pointers) and on a null zone the teardown does nothing. -/
theorem device_groups_released (tz : thermal_zone_device) (ops : thermal_zone_device_ops)
    (mask : Nat) (writable_trips : Bool) (a : allocator)
    (tz' : thermal_zone_device) (a' : allocator) (ret : Int)
    (hr : thermal_zone_create_device_groups tz ops mask writable_trips a = (tz', a', ret)) :
    (ret = 0 →
      a'.live.length = a.live.length + device_group_arrays tz.trips ops ∧
      (thermal_zone_destroy_device_groups (some tz') ops a').live = a.live ∧
      (thermal_zone_destroy_device_groups (some tz') ops a').bad_free = a.bad_free ∧
      ((∀ x ∈ a.live, x < a.next) →
        (thermal_zone_destroy_device_groups (some tz') ops
          (thermal_zone_destroy_device_groups (some tz') ops a')).live = a.live ∧
        (thermal_zone_destroy_device_groups (some tz') ops
          (thermal_zone_destroy_device_groups (some tz') ops a')).bad_free =
            a.bad_free + device_group_arrays tz.trips ops)) ∧
    (ret ≠ 0 → a'.live = a.live ∧ a'.bad_free = a.bad_free) ∧
    (tz.trip_type_attrs = none → tz.trip_temp_attrs = none → tz.trip_hyst_attrs = none →
      tz.trips_attribute_group_attrs = none → tz.device_groups = none →
      thermal_zone_destroy_device_groups (some tz) ops a = a) ∧
    thermal_zone_destroy_device_groups none ops a = a := by
  obtain ⟨hfail, hok⟩ := create_device_groups_alloc tz ops mask writable_trips a tz' a' ret hr
  refine ⟨fun h0 => ?_, hfail, ?_, rfl⟩
  · obtain ⟨htr, hbf, hgr, hzero, hpos⟩ := hok h0
    rw [destroy_device_groups_eq, destroy_device_groups_eq, htr, hgr]
    by_cases ht : tz.trips = 0
    · have hlive := hzero ht
      have e1 : kfree a' (some a.next) = { a' with live := a.live } := by
        rw [kfree_live a' a.next (by rw [hlive]; exact List.mem_cons_self _ _), hlive]
        simp
      simp only [ht, if_true, device_group_arrays, e1]
      refine ⟨by rw [hlive]; simp, trivial, hbf, fun hcons => ?_⟩
      have hdead : a.next ∉ a.live := fun hm => absurd (hcons _ hm) (by omega)
      simp [kfree, hdead, hbf]
    · obtain ⟨hty, hte, hhy, hnh⟩ := hpos ht
      by_cases hh : ops.get_trip_hyst.isSome = true
      · obtain ⟨hhp, hat, hlive⟩ := hhy hh
        have e1 : kfree (kfree (kfree (kfree (kfree a' (some (a.next + 1)))
            (some (a.next + 2))) (some (a.next + 3))) (some (a.next + 4))) (some a.next) =
            { a' with live := a.live } := by
          simp [kfree, hlive, List.erase_cons]
        simp only [ht, if_false, hh, if_true, device_group_arrays, hty, hte, hhp, hat, e1]
        refine ⟨by rw [hlive]; simp, trivial, hbf, fun hcons => ?_⟩
        have hdead : ∀ k, a.next + k ∉ a.live := fun k hm => absurd (hcons _ hm) (by omega)
        have hdead0 : a.next ∉ a.live := hdead 0
        simp [kfree, hdead, hdead0, hbf]
      · have hh' : ops.get_trip_hyst.isSome = false := by
          cases hb : ops.get_trip_hyst.isSome
          · rfl
          · exact absurd hb hh
        obtain ⟨hat, hlive⟩ := hnh hh'
        have e1 : kfree (kfree (kfree (kfree a' (some (a.next + 1)))
            (some (a.next + 2))) (some (a.next + 3))) (some a.next) =
            { a' with live := a.live } := by
          simp [kfree, hlive, List.erase_cons]
        simp only [ht, if_false, hh', Bool.false_eq_true, device_group_arrays, hty, hte, hat,
          e1]
        refine ⟨by rw [hlive]; simp, trivial, hbf, fun hcons => ?_⟩
        have hdead : ∀ k, a.next + k ∉ a.live := fun k hm => absurd (hcons _ hm) (by omega)
        have hdead0 : a.next ∉ a.live := hdead 0
        simp [kfree, hdead, hdead0, hbf]
  · intro h1 h2 h3 h4 h5
    rw [destroy_device_groups_eq, h1, h2, h3, h4, h5]
    simp [kfree]
/-- Instance of the amended C24: a build of the sample zone that succeeds, followed by
the teardown, and a build whose fourth allocation fails. -/
theorem device_groups_released_witness :
    (thermal_zone_create_device_groups sample_zone sample_ops 2 true fresh_allocator).2.2 = 0 ∧
    (∀ x ∈ fresh_allocator.live, x < fresh_allocator.next) ∧
    (thermal_zone_create_device_groups sample_zone sample_ops 2 true
      (failing_allocator 3)).2.2 ≠ 0 ∧
    ((thermal_zone_create_device_groups sample_zone sample_ops 2 true
        fresh_allocator).2.1.live.length =
        fresh_allocator.live.length + device_group_arrays sample_zone.trips sample_ops ∧
      (thermal_zone_destroy_device_groups
        (some (thermal_zone_create_device_groups sample_zone sample_ops 2 true
          fresh_allocator).1) sample_ops
        (thermal_zone_create_device_groups sample_zone sample_ops 2 true
          fresh_allocator).2.1).live = fresh_allocator.live ∧
      (thermal_zone_destroy_device_groups
        (some (thermal_zone_create_device_groups sample_zone sample_ops 2 true
          fresh_allocator).1) sample_ops
        (thermal_zone_create_device_groups sample_zone sample_ops 2 true
          fresh_allocator).2.1).bad_free = fresh_allocator.bad_free ∧
      ((∀ x ∈ fresh_allocator.live, x < fresh_allocator.next) →
        (thermal_zone_destroy_device_groups
          (some (thermal_zone_create_device_groups sample_zone sample_ops 2 true
            fresh_allocator).1) sample_ops
          (thermal_zone_destroy_device_groups
            (some (thermal_zone_create_device_groups sample_zone sample_ops 2 true
              fresh_allocator).1) sample_ops
            (thermal_zone_create_device_groups sample_zone sample_ops 2 true
              fresh_allocator).2.1)).live = fresh_allocator.live ∧
        (thermal_zone_destroy_device_groups
          (some (thermal_zone_create_device_groups sample_zone sample_ops 2 true
            fresh_allocator).1) sample_ops
          (thermal_zone_destroy_device_groups
            (some (thermal_zone_create_device_groups sample_zone sample_ops 2 true
              fresh_allocator).1) sample_ops
            (thermal_zone_create_device_groups sample_zone sample_ops 2 true
              fresh_allocator).2.1)).bad_free =
          fresh_allocator.bad_free + device_group_arrays sample_zone.trips sample_ops)) ∧
    ((thermal_zone_create_device_groups sample_zone sample_ops 2 true
        (failing_allocator 3)).2.1.live = (failing_allocator 3).live ∧
      (thermal_zone_create_device_groups sample_zone sample_ops 2 true
        (failing_allocator 3)).2.1.bad_free = (failing_allocator 3).bad_free) ∧
    device_group_arrays sample_zone.trips sample_ops = 5 :=
  ⟨by decide, by decide, by decide,
    (device_groups_released sample_zone sample_ops 2 true fresh_allocator
      (thermal_zone_create_device_groups sample_zone sample_ops 2 true fresh_allocator).1
      (thermal_zone_create_device_groups sample_zone sample_ops 2 true fresh_allocator).2.1
      (thermal_zone_create_device_groups sample_zone sample_ops 2 true fresh_allocator).2.2
      rfl).1 (by decide),
    (device_groups_released sample_zone sample_ops 2 true (failing_allocator 3)
      (thermal_zone_create_device_groups sample_zone sample_ops 2 true
        (failing_allocator 3)).1
      (thermal_zone_create_device_groups sample_zone sample_ops 2 true
        (failing_allocator 3)).2.1
      (thermal_zone_create_device_groups sample_zone sample_ops 2 true
        (failing_allocator 3)).2.2
      rfl).2.1 (by decide),
    by decide⟩

/-- C27, as stated, fails: in the catalogue that `create_trip_attrs` builds for a zone
with 100001 trip points, the type attribute and the temperature attribute of trip
`100000` have the same name, `trip_point_100000_t`: the name buffer of
`THERMAL_NAME_LENGTH` bytes cuts the suffix after its second character. -/
theorem trip_attr_names_collide :
    many_trip_zone.trips = 100001 ∧
    (create_trip_attrs many_trip_zone sample_ops 0 true fresh_allocator).2.2 = 0 ∧
    ∃ t1 t2,
      trip_attr_at (create_trip_attrs many_trip_zone sample_ops 0 true fresh_allocator).1
        (trip_attr_ptr.trip_type 100000) = some t1 ∧
      trip_attr_at (create_trip_attrs many_trip_zone sample_ops 0 true fresh_allocator).1
        (trip_attr_ptr.trip_temp 100000) = some t2 ∧
      t1.name = t2.name ∧ t1.name = "trip_point_100000_t".toList := by
  have hret := create_trip_attrs_succeeds many_trip_zone sample_ops 0 true fresh_allocator rfl
    (by decide)
  obtain ⟨-, ⟨t1, h1, n1⟩, ⟨t2, h2, n2⟩, -⟩ :=
    trip_attrs_layout many_trip_zone sample_ops 0 true fresh_allocator hret 100000 (by decide)
  have e1 : trip_attr_name 100000 "_type" = "trip_point_100000_t".toList := by decide
  have e2 : trip_attr_name 100000 "_temp" = "trip_point_100000_t".toList := by decide
  exact ⟨rfl, hret, t1, t2, h1, h2, by rw [n1, n2, e1, e2], by rw [n1, e1]⟩

/-- C27 (amended): in the catalogue built by a successful `create_trip_attrs` for a zone
with `1 ≤ T ≤ 100000` trip points, for every `i < T`: entry `i` of `attrs` is the type
attribute of trip `i`, entry `T + i` its temperature attribute and, with a
`get_trip_hyst` accessor, entry `2 * T + i` its hysteresis attribute; their names are
the first 19 characters of `trip_point_<i>_type`, `trip_point_<i>_temp` and
`trip_point_<i>_hyst`, the whole text for `i < 1000`; the trip index that `sscanf`
parses out of each of these names is `i`, cut or not; and the names of the catalogue
are pairwise distinct. -/
theorem trip_catalogue_names (tz : thermal_zone_device) (ops : thermal_zone_device_ops)
    (mask : Nat) (writable_trips : Bool) (a : allocator)
    (hret : (create_trip_attrs tz ops mask writable_trips a).2.2 = 0)
    (hT : tz.trips ≤ 100000) (i : Nat) (hi : i < tz.trips) :
    ((∃ p attrs,
      (create_trip_attrs tz ops mask writable_trips a).1.trips_attribute_group_attrs =
        some (p, attrs) ∧
      attrs[i]? = some (some (trip_attr_ptr.trip_type i)) ∧
      attrs[i + tz.trips]? = some (some (trip_attr_ptr.trip_temp i)) ∧
      (ops.get_trip_hyst.isSome = true →
        attrs[i + tz.trips * 2]? = some (some (trip_attr_ptr.trip_hyst i)))) ∧
    (∃ t, trip_attr_at (create_trip_attrs tz ops mask writable_trips a).1
        (trip_attr_ptr.trip_type i) = some t ∧ t.name = trip_attr_name i "_type") ∧
    (∃ t, trip_attr_at (create_trip_attrs tz ops mask writable_trips a).1
        (trip_attr_ptr.trip_temp i) = some t ∧ t.name = trip_attr_name i "_temp") ∧
    (ops.get_trip_hyst.isSome = true →
      ∃ t, trip_attr_at (create_trip_attrs tz ops mask writable_trips a).1
        (trip_attr_ptr.trip_hyst i) = some t ∧ t.name = trip_attr_name i "_hyst")) ∧
    (∀ kind ∈ trip_kinds,
      trip_attr_name i kind =
        ("trip_point_".toList ++ fmt_d (i : Int) ++ kind.toList).take 19 ∧
      (i < 1000 →
        trip_attr_name i kind = "trip_point_".toList ++ fmt_d (i : Int) ++ kind.toList) ∧
      sscanf_trip_point (trip_attr_name i kind) = some (i : Int)) ∧
    (∀ j, j < tz.trips → ∀ k1 ∈ trip_kinds, ∀ k2 ∈ trip_kinds,
      trip_attr_name i k1 = trip_attr_name j k2 → i = j ∧ k1 = k2) := by
  have h5 : (100000 : Nat) = 10 ^ 5 := by norm_num
  have h8 : (10 : Nat) ^ 5 < 10 ^ 8 := by norm_num
  have h3 : (1000 : Nat) = 10 ^ 3 := by norm_num
  refine ⟨trip_attrs_layout tz ops mask writable_trips a hret i hi, ?_, ?_⟩
  · intro kind hk
    refine ⟨rfl, ?_, sscanf_trip_attr_name i (by omega) kind hk⟩
    intro hsmall
    have hlen := fmt_d_length i 3 (by omega) (by omega)
    have hkind : ∀ k ∈ trip_kinds, k.toList.length = 5 := by decide
    rw [trip_attr_name_eq i kind (by omega),
      List.take_of_length_le (by rw [hkind kind hk]; omega), List.append_assoc]
  · intro j hj k1 h1 k2 h2 h
    exact trip_attr_name_injective i j (by omega) (by omega) k1 k2 h1 h2 h

/-- Instance of the amended C27 at trip `1` of the sample zone. -/
theorem trip_catalogue_names_witness :
    (create_trip_attrs sample_zone sample_ops 2 true fresh_allocator).2.2 = 0 ∧
    sample_zone.trips ≤ 100000 ∧ 1 < sample_zone.trips ∧
    (∀ kind ∈ trip_kinds,
      trip_attr_name 1 kind =
        ("trip_point_".toList ++ fmt_d ((1 : Nat) : Int) ++ kind.toList).take 19 ∧
      (1 < 1000 →
        trip_attr_name 1 kind =
          "trip_point_".toList ++ fmt_d ((1 : Nat) : Int) ++ kind.toList) ∧
      sscanf_trip_point (trip_attr_name 1 kind) = some ((1 : Nat) : Int)) ∧
    (∀ j, j < sample_zone.trips → ∀ k1 ∈ trip_kinds, ∀ k2 ∈ trip_kinds,
      trip_attr_name 1 k1 = trip_attr_name j k2 → 1 = j ∧ k1 = k2) ∧
    (trip_catalogue (thermal_zone_create_device_groups sample_zone sample_ops 2 true
        fresh_allocator).1).map
      (fun p => (trip_attr_at (thermal_zone_create_device_groups sample_zone sample_ops 2
        true fresh_allocator).1 p).map (fun t => String.mk t.name)) =
      [some "trip_point_0_type", some "trip_point_1_type", some "trip_point_0_temp",
        some "trip_point_1_temp", some "trip_point_0_hyst", some "trip_point_1_hyst"] ∧
    sscanf_trip_point (trip_attr_name 1234 "_hyst") = some 1234 ∧
    trip_attr_name 1234 "_hyst" = "trip_point_1234_hys".toList :=
  ⟨by decide, by decide, by decide,
    (trip_catalogue_names sample_zone sample_ops 2 true fresh_allocator (by decide)
      (by decide) 1 (by decide)).2.1,
    (trip_catalogue_names sample_zone sample_ops 2 true fresh_allocator (by decide)
      (by decide) 1 (by decide)).2.2,
    by decide, by decide, by decide⟩

end ThermalSysfs
